import Mathlib

/-! # ZMQBridge: the two wrapper variants over the ZeroMQ transport

A shallow embedding of `src/src/prj1.cpp` (class `ZMQWrapperImpl`, behind the
public `ZMQWrapper`) and of `src/prj1/src/prj1.cpp` (class `Context`), POSIX
build (the `#else` / `#ifndef _WIN32` branches).

* A `std::string` is a list of chars, one element per byte.
* A `void*` handle is a natural number, `nullptr` being `0`.
* Every call that leaves the program (libzmq, `access`, `unlink`, `usleep`,
  the console) is recorded, in program order, in the trace an operation
  returns. What such a call answers is read from an environment record, so a
  statement quantified over the environment covers every behaviour of the
  transport and of the filesystem.
* The per-instance mutex is taken on entry of each public operation and held
  to its end; the embedding gives the sequential meaning of one operation,
  and `Threads` below interleaves the operations of several threads on one
  object, step by step, around that mutex.
-/

namespace prj1

/-- A C++ `std::string`, one list element per `char`. -/
abbrev StdString := List Char

/-- A `void*` handle as handed out by libzmq; `0` is `nullptr`. -/
abbrev Handle := Nat

/-! ## Constants of `zmq.h` and `errno.h` (libzmq 4.x, Linux) -/

def ZMQ_PUB : Int := 1
def ZMQ_SUB : Int := 2
def ZMQ_REQ : Int := 3
def ZMQ_REP : Int := 4
def ZMQ_PULL : Int := 7
def ZMQ_PUSH : Int := 8

def ZMQ_IO_THREADS : Int := 1
def ZMQ_SUBSCRIBE : Int := 6
def ZMQ_LINGER : Int := 17
def ZMQ_RCVTIMEO : Int := 27
def ZMQ_SNDTIMEO : Int := 28

def EAGAIN : Int := 11
def EACCES : Int := 13
def ETIMEDOUT : Int := 110

/-! ## `src/include/prj1.h` -/

/-- The `enum class ErrorCode : int` of `src/include/prj1.h`. -/
inductive ErrorCode
  | SUCCESS
  | ERROR_NOT_INITIALIZED
  | ERROR_ALREADY_INITIALIZED
  | ERROR_INVALID_CONFIG
  | ERROR_SOCKET_CREATE_FAILED
  | ERROR_SOCKET_BIND_FAILED
  | ERROR_SOCKET_CONNECT_FAILED
  | ERROR_SEND_FAILED
  | ERROR_RECEIVE_FAILED
  | ERROR_TIMEOUT
  | ERROR_MESSAGE_TOO_LARGE
  | ERROR_INVALID_PATTERN
  | ERROR_PERMISSION_DENIED
  | ERROR_PATH_TOO_LONG
  | ERROR_UNKNOWN
  deriving DecidableEq, Repr

/-- The `enum class Pattern`: a scoped enumeration over `int`, so a value is
any integer; the three enumerators are `0`, `1` and `2`. -/
structure Pattern where
  val : Int
  deriving DecidableEq, Repr

def Pattern.REQ_REP : Pattern := ⟨0⟩
def Pattern.PUB_SUB : Pattern := ⟨1⟩
def Pattern.PUSH_PULL : Pattern := ⟨2⟩

/-- The `enum class Mode`: a scoped enumeration over `int`; the two
enumerators are `0` and `1`. -/
structure Mode where
  val : Int
  deriving DecidableEq, Repr

def Mode.SERVER : Mode := ⟨0⟩
def Mode.CLIENT : Mode := ⟨1⟩

/-- The `struct Config` of `src/include/prj1.h`. -/
structure Config where
  pattern : Pattern
  mode : Mode
  endpoint : StdString
  timeout_ms : Int
  enable_logging : Bool
  deriving DecidableEq, Repr

/-- The default constructor `Config()`. -/
def Config.default : Config :=
  { pattern := Pattern.REQ_REP
    mode := Mode.SERVER
    endpoint := []
    timeout_ms := 5000
    enable_logging := false }

/-! ## Calls that leave the program -/

/-- One call to the transport, the filesystem, the clock or the console. -/
inductive Event
  | zmq_ctx_new
  | zmq_ctx_set (context : Handle) (option value : Int)
  | zmq_ctx_term (context : Handle)
  | zmq_socket (context : Handle) (kind : Int)
  | zmq_setsockopt_int (socket : Handle) (option value : Int)
  | zmq_setsockopt_str (socket : Handle) (option : Int) (value : StdString)
  | zmq_bind (socket : Handle) (endpoint : StdString)
  | zmq_connect (socket : Handle) (endpoint : StdString)
  | zmq_close (socket : Handle)
  | zmq_send (socket : Handle) (data : StdString)
  | zmq_recv (socket : Handle) (capacity : Nat)
  | zmq_msg_init
  | zmq_msg_recv (socket : Handle)
  | zmq_msg_close
  | access (path : StdString)
  | unlink (path : StdString)
  | remove (path : StdString)
  | usleep (usec : Int)
  | log
  deriving DecidableEq, Repr

/-- What the outside answers during one `Init`. -/
structure InitEnv where
  /-- the handle `zmq_ctx_new()` returns (`0` on failure) -/
  zmq_ctx_new : Handle
  /-- the handle `zmq_socket(..)` returns (`0` on failure) -/
  zmq_socket : Handle
  /-- the return value of `access(socket_file, F_OK)` -/
  access : Int
  /-- the return value of `remove(sock_path)` (second variant only) -/
  remove : Int
  /-- the return value of `zmq_bind(..)` -/
  zmq_bind : Int
  /-- the return value of the `i`-th `zmq_connect(..)` of this `Init`,
  counted from `0` -/
  zmq_connect : Nat → Int
  /-- the value of `zmq_errno()` after a failed bind or connect -/
  zmq_errno : Int
  /-- the text `zmq_strerror` gives for that value -/
  zmq_strerror : StdString

/-- What the outside answers during one `Close`. -/
structure CloseEnv where
  /-- the return value of `access(socket_file, F_OK)` -/
  access : Int
  /-- the return value of `unlink(socket_file)`, which `Cleanup` discards -/
  unlink : Int

/-- What the outside answers during one `SendMessage`. -/
structure SendEnv where
  /-- the return value of `zmq_send(..)` -/
  zmq_send : Int
  /-- the value of `zmq_errno()` after a failed send -/
  zmq_errno : Int

/-- What the outside answers during one `ReceiveMessage`. -/
structure RecvEnv where
  /-- the return value of `zmq_msg_init(..)` -/
  zmq_msg_init : Int
  /-- the return value of `zmq_msg_recv(..)` -/
  zmq_msg_recv : Int
  /-- the value of `zmq_errno()` after a failed receive -/
  zmq_errno : Int
  /-- the content of the message object after `zmq_msg_recv`: the bytes
  `zmq_msg_data` points to, `zmq_msg_size` of them -/
  zmq_msg_data : StdString

/-- What the outside answers during one `Subscribe`. -/
structure SubscribeEnv where
  /-- the return value of `zmq_setsockopt(socket, ZMQ_SUBSCRIBE, ..)` -/
  zmq_setsockopt : Int

/-! ## `src/src/prj1.cpp`: `ZMQWrapperImpl` -/

/-- `MAX_MESSAGE_SIZE` (10 MB). -/
def MAX_MESSAGE_SIZE : Nat := 10 * 1024 * 1024

/-- `MAX_PATH_LENGTH`, the `#else` (POSIX) value. -/
def MAX_PATH_LENGTH : Nat := 108

/-- The data members of `ZMQWrapperImpl` (the mutex apart). -/
structure ZMQWrapperImpl where
  context : Handle
  socket : Handle
  initialized : Bool
  config : Config
  endpoint_path : StdString
  deriving DecidableEq, Repr

/-- What an operation of `ZMQWrapperImpl` returns: the error code, the object
afterwards and the outside calls it made, in order. -/
structure Ret where
  code : ErrorCode
  impl : ZMQWrapperImpl
  trace : List Event
  deriving DecidableEq, Repr

/-- What `ReceiveMessage` returns: as `Ret`, with the output parameter. -/
structure RecvRet where
  code : ErrorCode
  impl : ZMQWrapperImpl
  message : StdString
  trace : List Event
  deriving DecidableEq, Repr

namespace ZMQWrapperImpl

/-- The constructor `ZMQWrapperImpl()`. -/
def new : ZMQWrapperImpl :=
  { context := 0
    socket := 0
    initialized := false
    config := Config.default
    endpoint_path := [] }

/-- `Log`: one console line when `config.enable_logging` is set. -/
def Log (s : ZMQWrapperImpl) : List Event :=
  if s.config.enable_logging then [Event.log] else []

/-- `GetSocketType`. -/
def GetSocketType (pattern : Pattern) (mode : Mode) : Int :=
  if pattern = Pattern.REQ_REP then
    (if mode = Mode.SERVER then ZMQ_REP else ZMQ_REQ)
  else if pattern = Pattern.PUB_SUB then
    (if mode = Mode.SERVER then ZMQ_PUB else ZMQ_SUB)
  else if pattern = Pattern.PUSH_PULL then
    (if mode = Mode.SERVER then ZMQ_PUSH else ZMQ_PULL)
  else
    -1

/-- `BuildEndpoint`, the `#else` (POSIX) default. -/
def BuildEndpoint (custom_endpoint : StdString) : StdString :=
  if custom_endpoint ≠ [] then custom_endpoint
  else "ipc:///tmp/prj1.sock".toList

/-- `CleanupSocket`. -/
def CleanupSocket (s : ZMQWrapperImpl) : ZMQWrapperImpl × List Event :=
  let t1 := if s.socket ≠ 0 then [Event.zmq_close s.socket] else []
  let t2 := if s.context ≠ 0 then [Event.zmq_ctx_term s.context] else []
  ({ s with socket := 0, context := 0 }, t1 ++ t2)

/-- `Cleanup`. -/
def Cleanup (s : ZMQWrapperImpl) (env : CloseEnv) : Ret :=
  if !s.initialized then
    ⟨ErrorCode.SUCCESS, s, []⟩
  else
    let t1 :=
      if s.config.mode = Mode.SERVER ∧ s.endpoint_path.take 6 = "ipc://".toList then
        let socket_file := s.endpoint_path.drop 6
        [Event.access socket_file] ++
          (if env.access = 0 then s.Log ++ [Event.unlink socket_file] else [])
      else []
    let c := s.CleanupSocket
    let s1 := { c.1 with initialized := false }
    ⟨ErrorCode.SUCCESS, s1, t1 ++ c.2 ++ s1.Log⟩

/-- `max_retries` of the client branch of `Init`. -/
def max_retries : Nat := 3

/-- `retry_delay_ms` of the client branch of `Init`. -/
def retry_delay_ms : Int := 100

/-- The `while (retry_count < max_retries)` loop of the client branch of
`Init`, entered with the given `retry_count`; it returns the value of
`retry_count` on leaving the loop and the calls made. The loop has made
`retry_count` connect calls when it tests its condition, so the next one is
the call number `retry_count` of the environment. -/
def connectLoop (s : ZMQWrapperImpl) (env : InitEnv) (retry_count : Nat) :
    Nat × List Event :=
  if retry_count < max_retries then
    if env.zmq_connect retry_count = 0 then
      (retry_count, [Event.zmq_connect s.socket s.endpoint_path] ++ s.Log)
    else
      let retry_count1 := retry_count + 1
      let t := [Event.zmq_connect s.socket s.endpoint_path] ++ s.Log ++
        (if retry_count1 < max_retries then [Event.usleep (retry_delay_ms * 1000)] else [])
      let r := connectLoop s env retry_count1
      (r.1, t ++ r.2)
  else
    (retry_count, [])
termination_by max_retries - retry_count
decreasing_by omega

/-- `Init`. -/
def Init (s0 : ZMQWrapperImpl) (cfg : Config) (env : InitEnv) : Ret :=
  if s0.initialized then
    ⟨ErrorCode.ERROR_ALREADY_INITIALIZED, s0, []⟩
  else if cfg.timeout_ms < 0 then
    ⟨ErrorCode.ERROR_INVALID_CONFIG, s0, []⟩
  else
    let s1 := { s0 with config := cfg, context := env.zmq_ctx_new }
    let t1 := [Event.zmq_ctx_new]
    if s1.context = 0 then
      ⟨ErrorCode.ERROR_SOCKET_CREATE_FAILED, s1, t1 ++ s1.Log⟩
    else
      let t2 := t1 ++ [Event.zmq_ctx_set s1.context ZMQ_IO_THREADS 1]
      let socket_type := GetSocketType s1.config.pattern s1.config.mode
      if socket_type < 0 then
        ⟨ErrorCode.ERROR_INVALID_PATTERN, { s1 with context := 0 },
          t2 ++ [Event.zmq_ctx_term s1.context]⟩
      else
        let s2 := { s1 with socket := env.zmq_socket }
        let t3 := t2 ++ [Event.zmq_socket s1.context socket_type]
        if s2.socket = 0 then
          ⟨ErrorCode.ERROR_SOCKET_CREATE_FAILED, { s2 with context := 0 },
            t3 ++ s2.Log ++ [Event.zmq_ctx_term s2.context]⟩
        else
          let t4 := t3 ++ [Event.zmq_setsockopt_int s2.socket ZMQ_LINGER 0] ++
            (if s2.config.timeout_ms > 0 then
              [Event.zmq_setsockopt_int s2.socket ZMQ_RCVTIMEO s2.config.timeout_ms]
            else [])
          let s3 := { s2 with endpoint_path := BuildEndpoint s2.config.endpoint }
          if s3.endpoint_path = [] then
            let c := s3.CleanupSocket
            ⟨ErrorCode.ERROR_INVALID_CONFIG, c.1, t4 ++ s3.Log ++ c.2⟩
          else if s3.endpoint_path.length ≥ MAX_PATH_LENGTH then
            let c := s3.CleanupSocket
            ⟨ErrorCode.ERROR_PATH_TOO_LONG, c.1, t4 ++ s3.Log ++ c.2⟩
          else if s3.config.mode = Mode.SERVER then
            let t5 := t4 ++
              (if s3.endpoint_path.take 6 = "ipc://".toList then
                let socket_file := s3.endpoint_path.drop 6
                [Event.access socket_file] ++
                  (if env.access = 0 then s3.Log ++ [Event.unlink socket_file] else [])
              else [])
            let t6 := t5 ++ [Event.zmq_bind s3.socket s3.endpoint_path]
            if env.zmq_bind ≠ 0 then
              let err := env.zmq_errno
              let c := s3.CleanupSocket
              if err = EACCES then
                ⟨ErrorCode.ERROR_PERMISSION_DENIED, c.1, t6 ++ s3.Log ++ c.2⟩
              else
                ⟨ErrorCode.ERROR_SOCKET_BIND_FAILED, c.1, t6 ++ s3.Log ++ c.2⟩
            else
              ⟨ErrorCode.SUCCESS, { s3 with initialized := true }, t6 ++ s3.Log⟩
          else
            let r := connectLoop s3 env 0
            let t5 := t4 ++ r.2
            if r.1 ≥ max_retries then
              let c := s3.CleanupSocket
              ⟨ErrorCode.ERROR_SOCKET_CONNECT_FAILED, c.1, t5 ++ s3.Log ++ c.2⟩
            else
              ⟨ErrorCode.SUCCESS, { s3 with initialized := true }, t5⟩

/-- `SendMessage`. -/
def SendMessage (s : ZMQWrapperImpl) (message : StdString) (env : SendEnv) : Ret :=
  if !s.initialized || s.socket = 0 then
    ⟨ErrorCode.ERROR_NOT_INITIALIZED, s, []⟩
  else if message.length > MAX_MESSAGE_SIZE then
    ⟨ErrorCode.ERROR_MESSAGE_TOO_LARGE, s, s.Log⟩
  else
    let data := if message = [] then [] else message
    let t := [Event.zmq_send s.socket data]
    if env.zmq_send < 0 then
      ⟨ErrorCode.ERROR_SEND_FAILED, s, t ++ s.Log⟩
    else
      ⟨ErrorCode.SUCCESS, s, t ++ s.Log⟩

/-- `ReceiveMessage`; `message` is the output parameter as the caller passes
it in. -/
def ReceiveMessage (s : ZMQWrapperImpl) (message : StdString) (env : RecvEnv) : RecvRet :=
  if !s.initialized || s.socket = 0 then
    ⟨ErrorCode.ERROR_NOT_INITIALIZED, s, message, []⟩
  else
    let t1 := [Event.zmq_msg_init]
    if env.zmq_msg_init ≠ 0 then
      ⟨ErrorCode.ERROR_RECEIVE_FAILED, s, message, t1 ++ s.Log⟩
    else
      let nbytes := env.zmq_msg_recv
      let t2 := t1 ++ [Event.zmq_msg_recv s.socket]
      if nbytes < 0 then
        let err := env.zmq_errno
        let t3 := t2 ++ [Event.zmq_msg_close]
        if err = EAGAIN ∨ err = ETIMEDOUT then
          ⟨ErrorCode.ERROR_TIMEOUT, s, message, t3 ++ s.Log⟩
        else
          ⟨ErrorCode.ERROR_RECEIVE_FAILED, s, message, t3 ++ s.Log⟩
      else
        let size := env.zmq_msg_data.length
        if size > MAX_MESSAGE_SIZE then
          ⟨ErrorCode.ERROR_MESSAGE_TOO_LARGE, s, message,
            t2 ++ [Event.zmq_msg_close] ++ s.Log⟩
        else
          let data := env.zmq_msg_data
          ⟨ErrorCode.SUCCESS, s, data.take size, t2 ++ [Event.zmq_msg_close] ++ s.Log⟩

/-- `Subscribe`. -/
def Subscribe (s : ZMQWrapperImpl) (topic : StdString) (env : SubscribeEnv) : Ret :=
  if !s.initialized || s.socket = 0 then
    ⟨ErrorCode.ERROR_NOT_INITIALIZED, s, []⟩
  else if s.config.pattern ≠ Pattern.PUB_SUB ∨ s.config.mode ≠ Mode.CLIENT then
    ⟨ErrorCode.ERROR_INVALID_PATTERN, s, s.Log⟩
  else
    let t := [Event.zmq_setsockopt_str s.socket ZMQ_SUBSCRIBE topic]
    if env.zmq_setsockopt ≠ 0 then
      ⟨ErrorCode.ERROR_SOCKET_CREATE_FAILED, s, t ++ s.Log⟩
    else
      ⟨ErrorCode.SUCCESS, s, t ++ s.Log⟩

/-- `Close`. -/
def Close (s : ZMQWrapperImpl) (env : CloseEnv) : Ret :=
  s.Cleanup env

/-- `IsInitialized`. -/
def IsInitialized (s : ZMQWrapperImpl) : Bool :=
  s.initialized

/-- The objects a caller can hold: the constructed object, and whatever a
public operation leaves, under every answer of the outside. -/
inductive Reachable : ZMQWrapperImpl → Prop
  | new : Reachable ZMQWrapperImpl.new
  | Init (s : ZMQWrapperImpl) (cfg : Config) (env : InitEnv) :
      Reachable s → Reachable (s.Init cfg env).impl
  | SendMessage (s : ZMQWrapperImpl) (message : StdString) (env : SendEnv) :
      Reachable s → Reachable (s.SendMessage message env).impl
  | ReceiveMessage (s : ZMQWrapperImpl) (message : StdString) (env : RecvEnv) :
      Reachable s → Reachable (s.ReceiveMessage message env).impl
  | Subscribe (s : ZMQWrapperImpl) (topic : StdString) (env : SubscribeEnv) :
      Reachable s → Reachable (s.Subscribe topic env).impl
  | Close (s : ZMQWrapperImpl) (env : CloseEnv) :
      Reachable s → Reachable (s.Close env).impl

/-- The lifecycle invariant of the object: it holds both handles when it is
initialized, and its endpoint is then shorter than `MAX_PATH_LENGTH`; it holds
no handle when it is not initialized. -/
def Invariant (s : ZMQWrapperImpl) : Prop :=
  (s.initialized = true →
    s.socket ≠ 0 ∧ s.context ≠ 0 ∧ s.endpoint_path.length < MAX_PATH_LENGTH) ∧
  (s.initialized = false → s.socket = 0 ∧ s.context = 0)

instance (s : ZMQWrapperImpl) : Decidable (Invariant s) := by
  unfold Invariant
  infer_instance

/-- The object as `Init` has built it when it comes to check the endpoint
(the local `s3` of `Init` above), written out. -/
def Init_s3 (s : ZMQWrapperImpl) (cfg : Config) (env : InitEnv) : ZMQWrapperImpl :=
  { context := env.zmq_ctx_new
    socket := env.zmq_socket
    initialized := s.initialized
    config := cfg
    endpoint_path := BuildEndpoint cfg.endpoint }

/-- The calls `Init` has made when it comes to check the endpoint (the local
`t4` of `Init` above), written out. -/
def Init_t4 (cfg : Config) (env : InitEnv) : List Event :=
  [Event.zmq_ctx_new, Event.zmq_ctx_set env.zmq_ctx_new ZMQ_IO_THREADS 1,
    Event.zmq_socket env.zmq_ctx_new (GetSocketType cfg.pattern cfg.mode),
    Event.zmq_setsockopt_int env.zmq_socket ZMQ_LINGER 0] ++
  (if cfg.timeout_ms > 0 then
    [Event.zmq_setsockopt_int env.zmq_socket ZMQ_RCVTIMEO cfg.timeout_ms]
  else [])

/-- The calls of the server branch of `Init` that clear a stale socket file
(the part the local `t5` adds to `t4`), written out. -/
def Init_stale (s : ZMQWrapperImpl) (cfg : Config) (env : InitEnv) : List Event :=
  if (BuildEndpoint cfg.endpoint).take 6 = "ipc://".toList then
    [Event.access ((BuildEndpoint cfg.endpoint).drop 6)] ++
      (if env.access = 0 then
        (Init_s3 s cfg env).Log ++ [Event.unlink ((BuildEndpoint cfg.endpoint).drop 6)]
      else [])
  else []

end ZMQWrapperImpl

/-- The value of an enumerator of `enum class ErrorCode : int`. -/
def ErrorCode.toInt : ErrorCode → Int
  | ErrorCode.SUCCESS => 0
  | ErrorCode.ERROR_NOT_INITIALIZED => -1
  | ErrorCode.ERROR_ALREADY_INITIALIZED => -2
  | ErrorCode.ERROR_INVALID_CONFIG => -3
  | ErrorCode.ERROR_SOCKET_CREATE_FAILED => -4
  | ErrorCode.ERROR_SOCKET_BIND_FAILED => -5
  | ErrorCode.ERROR_SOCKET_CONNECT_FAILED => -6
  | ErrorCode.ERROR_SEND_FAILED => -7
  | ErrorCode.ERROR_RECEIVE_FAILED => -8
  | ErrorCode.ERROR_TIMEOUT => -9
  | ErrorCode.ERROR_MESSAGE_TOO_LARGE => -10
  | ErrorCode.ERROR_INVALID_PATTERN => -11
  | ErrorCode.ERROR_PERMISSION_DENIED => -12
  | ErrorCode.ERROR_PATH_TOO_LONG => -13
  | ErrorCode.ERROR_UNKNOWN => -99

namespace ZMQWrapper

/-- `ZMQWrapper::GetErrorMessage`. An object of type `ErrorCode` holds an
`int`, not only one of the fifteen enumerators, so the argument is that
integer; the last case is the `default:` of the switch. -/
def GetErrorMessage (code : Int) : StdString :=
  if code = ErrorCode.SUCCESS.toInt then "Success".toList
  else if code = ErrorCode.ERROR_NOT_INITIALIZED.toInt then "Wrapper not initialized".toList
  else if code = ErrorCode.ERROR_ALREADY_INITIALIZED.toInt then
    "Wrapper already initialized".toList
  else if code = ErrorCode.ERROR_INVALID_CONFIG.toInt then "Invalid configuration".toList
  else if code = ErrorCode.ERROR_SOCKET_CREATE_FAILED.toInt then
    "Failed to create socket".toList
  else if code = ErrorCode.ERROR_SOCKET_BIND_FAILED.toInt then "Failed to bind socket".toList
  else if code = ErrorCode.ERROR_SOCKET_CONNECT_FAILED.toInt then
    "Failed to connect socket".toList
  else if code = ErrorCode.ERROR_SEND_FAILED.toInt then "Failed to send message".toList
  else if code = ErrorCode.ERROR_RECEIVE_FAILED.toInt then "Failed to receive message".toList
  else if code = ErrorCode.ERROR_TIMEOUT.toInt then "Operation timed out".toList
  else if code = ErrorCode.ERROR_MESSAGE_TOO_LARGE.toInt then "Message too large".toList
  else if code = ErrorCode.ERROR_INVALID_PATTERN.toInt then
    "Invalid communication pattern".toList
  else if code = ErrorCode.ERROR_PERMISSION_DENIED.toInt then "Permission denied".toList
  else if code = ErrorCode.ERROR_PATH_TOO_LONG.toInt then "Path too long".toList
  else "Unknown error".toList

end ZMQWrapper

/-! ## `src/prj1/src/prj1.cpp`: `Context`

`src/prj1/include/prj1.h` declares `Pattern` and `Mode` with the enumerators
of `src/include/prj1.h`, in the same order; the two types above stand for
them here too. -/

namespace Context

/-- The `enum class ErrorCode` of `src/prj1/include/prj1.h`. -/
inductive ErrorCode
  | OK
  | INIT_FAILED
  | SEND_FAILED
  | RECV_FAILED
  | CLOSE_FAILED
  | INVALID_CONFIG
  | SOCKET_EXISTS
  | PERMISSION_DENIED
  | PATH_TOO_LONG
  | CONNECTION_RETRY
  | MALFORMED_MESSAGE
  | UNKNOWN
  deriving DecidableEq, Repr

/-- The `struct Config` of `src/prj1/include/prj1.h`. -/
structure Config where
  pattern : Pattern
  mode : Mode
  endpoint : StdString
  io_threads : Int
  recv_timeout_ms : Int
  send_timeout_ms : Int
  verbose : Bool
  deriving DecidableEq, Repr

/-- The data members of `Context::Impl` (the mutex apart). -/
structure Impl where
  zmq_ctx : Handle
  zmq_sock : Handle
  config : Config
  last_error : StdString
  initialized : Bool
  closed : Bool
  deriving DecidableEq, Repr

/-- What an operation of `Context` returns: the error code, the object
afterwards and the outside calls it made, in order. -/
structure Ret where
  code : ErrorCode
  impl : Impl
  trace : List Event
  deriving DecidableEq, Repr

/-- What `Context::ReceiveMessage` returns: as `Ret`, with the output
parameter. -/
structure RecvRet where
  code : ErrorCode
  impl : Impl
  out_msg : StdString
  trace : List Event
  deriving DecidableEq, Repr

/-- What the outside answers during one `Context::SendMessage`. -/
structure SendEnv where
  /-- the return value of `zmq_send(..)` -/
  zmq_send : Int
  /-- the text of `zmq_strerror(zmq_errno())` after a failed send -/
  zmq_strerror : StdString

/-- What the outside answers during one `Context::ReceiveMessage`. -/
structure RecvEnv where
  /-- the return value of `zmq_recv(..)` -/
  zmq_recv : Int
  /-- the bytes of the message `zmq_recv` took from the socket; it stores
  them into the buffer up to the capacity it was given -/
  payload : StdString
  /-- the value of `zmq_errno()` after a failed receive -/
  zmq_errno : Int
  /-- the text of `zmq_strerror(zmq_errno())` after a failed receive -/
  zmq_strerror : StdString
  /-- the bytes that lie behind the buffer in memory, by offset from its end;
  `assign(buf, rc)` reads them when `rc` is larger than the buffer -/
  beyond : Nat → Char

/-- The constructor `Context()`: `Impl` default-initialises its members, and
`Config` gives `pattern` and `mode` no initialiser, so their values are
whatever the caller of this function says. -/
def Impl.new (pattern : Pattern) (mode : Mode) : Impl :=
  { zmq_ctx := 0
    zmq_sock := 0
    config :=
      { pattern := pattern
        mode := mode
        endpoint := []
        io_threads := 1
        recv_timeout_ms := 3000
        send_timeout_ms := 3000
        verbose := false }
    last_error := []
    initialized := false
    closed := false }

/-- `Impl::log`: one console line when `config.verbose` is set. -/
def Impl.log (s : Impl) : List Event :=
  if s.config.verbose then [Event.log] else []

/-- The local `type` of `Context::Init` after its `switch (cfg.pattern)`:
it starts as `ZMQ_REQ` and the switch has no `default`. -/
def socket_type (cfg : Config) : Int :=
  if cfg.pattern = Pattern.REQ_REP then
    (if cfg.mode = Mode.SERVER then ZMQ_REP else ZMQ_REQ)
  else if cfg.pattern = Pattern.PUB_SUB then
    (if cfg.mode = Mode.SERVER then ZMQ_PUB else ZMQ_SUB)
  else if cfg.pattern = Pattern.PUSH_PULL then
    (if cfg.mode = Mode.SERVER then ZMQ_PULL else ZMQ_PUSH)
  else
    ZMQ_REQ

/-- `Context::Init`, with the `#else` (POSIX) endpoint checks. -/
def Init (s0 : Impl) (cfg : Config) (env : InitEnv) : Ret :=
  if s0.initialized then
    ⟨ErrorCode.OK, s0, []⟩
  else
    let s1 := { s0 with config := cfg, zmq_ctx := env.zmq_ctx_new }
    let t1 := [Event.zmq_ctx_new]
    if s1.zmq_ctx = 0 then
      ⟨ErrorCode.INIT_FAILED,
        { s1 with last_error := "ZeroMQ context creation failed".toList }, t1⟩
    else
      let type := socket_type cfg
      let s2 := { s1 with zmq_sock := env.zmq_socket }
      let t2 := t1 ++ [Event.zmq_socket s1.zmq_ctx type]
      if s2.zmq_sock = 0 then
        ⟨ErrorCode.INIT_FAILED,
          { s2 with last_error := "ZeroMQ socket creation failed".toList },
          t2 ++ [Event.zmq_ctx_term s2.zmq_ctx]⟩
      else
        let t3 := t2 ++
          [Event.zmq_setsockopt_int s2.zmq_sock ZMQ_RCVTIMEO cfg.recv_timeout_ms,
           Event.zmq_setsockopt_int s2.zmq_sock ZMQ_SNDTIMEO cfg.send_timeout_ms] ++
          (if cfg.pattern = Pattern.PUB_SUB ∧ cfg.mode = Mode.CLIENT then
            [Event.zmq_setsockopt_str s2.zmq_sock ZMQ_SUBSCRIBE []]
          else [])
        let ipc : Bool := cfg.endpoint.take 6 = "ipc://".toList
        let sock_path := cfg.endpoint.drop 6
        if ipc ∧ sock_path.length > 108 then
          ⟨ErrorCode.PATH_TOO_LONG,
            { s2 with last_error := "Socket path too long".toList }, t3⟩
        else
          let t4 := t3 ++
            (if ipc ∧ cfg.mode = Mode.SERVER then
              [Event.access sock_path] ++
                (if env.access = 0 then [Event.remove sock_path] else [])
            else [])
          if ipc ∧ cfg.mode = Mode.SERVER ∧ env.access = 0 ∧ env.remove ≠ 0 then
            ⟨ErrorCode.SOCKET_EXISTS,
              { s2 with last_error := "Socket file exists and cannot be removed".toList },
              t4⟩
          else
            let t5 := t4 ++
              [if cfg.mode = Mode.SERVER then Event.zmq_bind s2.zmq_sock cfg.endpoint
               else Event.zmq_connect s2.zmq_sock cfg.endpoint]
            let rc := if cfg.mode = Mode.SERVER then env.zmq_bind else env.zmq_connect 0
            if rc ≠ 0 then
              ⟨ErrorCode.INIT_FAILED,
                { s2 with last_error :=
                    "Failed to bind/connect endpoint: ".toList ++ env.zmq_strerror },
                t5 ++ [Event.zmq_close s2.zmq_sock, Event.zmq_ctx_term s2.zmq_ctx]⟩
            else
              let s3 := { s2 with initialized := true, closed := false }
              ⟨ErrorCode.OK, s3, t5 ++ s3.log⟩

/-- The object as `Context::Init` has built it once it holds a socket (the
local `s2` of `Init` above), written out. -/
def Init_s2 (s : Impl) (cfg : Config) (env : InitEnv) : Impl :=
  { zmq_ctx := env.zmq_ctx_new
    zmq_sock := env.zmq_socket
    config := cfg
    last_error := s.last_error
    initialized := s.initialized
    closed := s.closed }

/-- The calls `Context::Init` has made when it comes to check the endpoint
(the local `t3` of `Init` above), written out. -/
def Init_t3 (cfg : Config) (env : InitEnv) : List Event :=
  [Event.zmq_ctx_new, Event.zmq_socket env.zmq_ctx_new (socket_type cfg),
    Event.zmq_setsockopt_int env.zmq_socket ZMQ_RCVTIMEO cfg.recv_timeout_ms,
    Event.zmq_setsockopt_int env.zmq_socket ZMQ_SNDTIMEO cfg.send_timeout_ms] ++
  (if cfg.pattern = Pattern.PUB_SUB ∧ cfg.mode = Mode.CLIENT then
    [Event.zmq_setsockopt_str env.zmq_socket ZMQ_SUBSCRIBE []]
  else [])

/-- The calls of `Context::Init` that look for a socket file in the way and
remove it (the part the local `t4` adds to `t3`), written out. -/
def Init_stale (cfg : Config) (env : InitEnv) : List Event :=
  if cfg.endpoint.take 6 = "ipc://".toList ∧ cfg.mode = Mode.SERVER then
    [Event.access (cfg.endpoint.drop 6)] ++
      (if env.access = 0 then [Event.remove (cfg.endpoint.drop 6)] else [])
  else []

/-- The bind or connect call of `Context::Init`. -/
def Init_attach (cfg : Config) (env : InitEnv) : Event :=
  if cfg.mode = Mode.SERVER then Event.zmq_bind env.zmq_socket cfg.endpoint
  else Event.zmq_connect env.zmq_socket cfg.endpoint

/-- The size of the local `char buf[1024 * 1024]` of
`Context::ReceiveMessage`, which is also the bound of `Context::SendMessage`. -/
def BUF_SIZE : Nat := 1024 * 1024

/-- `Context::SendMessage`. -/
def SendMessage (s : Impl) (msg : StdString) (env : SendEnv) : Ret :=
  if !s.initialized || s.closed then
    ⟨ErrorCode.SEND_FAILED, s, []⟩
  else if msg.length > 1024 * 1024 then
    ⟨ErrorCode.MALFORMED_MESSAGE,
      { s with last_error := "Message too large (>1MB)".toList }, []⟩
  else
    let t := [Event.zmq_send s.zmq_sock msg]
    if env.zmq_send < 0 then
      ⟨ErrorCode.SEND_FAILED,
        { s with last_error := "Send failed: ".toList ++ env.zmq_strerror }, t⟩
    else
      ⟨ErrorCode.OK, s, t ++ s.log⟩

/-- `Context::ReceiveMessage`; `out_msg` is the output parameter as the caller
passes it in. The buffer starts zero-filled, `zmq_recv` stores the payload
into it up to `sizeof(buf)`, and `out_msg.assign(buf, rc)` copies `rc` bytes
from the start of the buffer on, whatever `rc` is. -/
def ReceiveMessage (s : Impl) (out_msg : StdString) (env : RecvEnv) : RecvRet :=
  if !s.initialized || s.closed then
    ⟨ErrorCode.RECV_FAILED, s, out_msg, []⟩
  else
    let t := [Event.zmq_recv s.zmq_sock BUF_SIZE]
    let rc := env.zmq_recv
    if rc < 0 then
      if env.zmq_errno = EAGAIN then
        ⟨ErrorCode.RECV_FAILED, { s with last_error := "Receive timeout".toList },
          out_msg, t⟩
      else
        ⟨ErrorCode.RECV_FAILED,
          { s with last_error := "Receive failed: ".toList ++ env.zmq_strerror },
          out_msg, t⟩
    else
      let buf := env.payload.take BUF_SIZE ++
        List.replicate (BUF_SIZE - env.payload.length) (Char.ofNat 0)
      let memory := buf ++ (List.range (rc.toNat - BUF_SIZE)).map env.beyond
      ⟨ErrorCode.OK, s, memory.take rc.toNat, t ++ s.log⟩

/-- `Context::Close`, with the `#ifndef _WIN32` removal of the socket file;
the return value of `remove` is discarded. -/
def Close (s : Impl) : Ret :=
  if s.closed then
    ⟨ErrorCode.OK, s, []⟩
  else
    let t1 := if s.zmq_sock ≠ 0 then [Event.zmq_close s.zmq_sock] else []
    let t2 := if s.zmq_ctx ≠ 0 then [Event.zmq_ctx_term s.zmq_ctx] else []
    let t3 :=
      if s.config.endpoint.take 6 = "ipc://".toList ∧ s.config.mode = Mode.SERVER then
        [Event.remove (s.config.endpoint.drop 6)]
      else []
    let s1 := { s with zmq_sock := 0, zmq_ctx := 0, closed := true }
    ⟨ErrorCode.OK, s1, t1 ++ t2 ++ t3 ++ s1.log⟩

/-- `Context::GetLastError`. -/
def GetLastError (s : Impl) : StdString :=
  s.last_error

end Context

/-! ## Reading a trace -/

/-- The number of `zmq_bind` calls in a trace. -/
def bindCalls (t : List Event) : Nat :=
  t.countP fun e => match e with
    | Event.zmq_bind _ _ => true
    | _ => false

/-- The number of `zmq_connect` calls in a trace. -/
def connectCalls (t : List Event) : Nat :=
  t.countP fun e => match e with
    | Event.zmq_connect _ _ => true
    | _ => false

/-- The number of delays of `usec` microseconds in a trace. -/
def delays (usec : Int) (t : List Event) : Nat :=
  t.count (Event.usleep usec)

/-- The number of all `usleep` calls in a trace, whatever their length. -/
def sleepCalls (t : List Event) : Nat :=
  t.countP fun e => match e with
    | Event.usleep _ => true
    | _ => false

/-- The number of file removals (`unlink` or `remove`) in a trace. -/
def removals (t : List Event) : Nat :=
  t.countP fun e => match e with
    | Event.unlink _ => true
    | Event.remove _ => true
    | _ => false

/-- The number of `zmq_send` calls in a trace. -/
def sendCalls (t : List Event) : Nat :=
  t.countP fun e => match e with
    | Event.zmq_send _ _ => true
    | _ => false

/-- The number of `zmq_socket` calls in a trace. -/
def socketCalls (t : List Event) : Nat :=
  t.countP fun e => match e with
    | Event.zmq_socket _ _ => true
    | _ => false

/-- Whether an event is a call into the transport (libzmq). -/
def Event.isTransport : Event → Bool
  | Event.access _ => false
  | Event.unlink _ => false
  | Event.remove _ => false
  | Event.usleep _ => false
  | Event.log => false
  | _ => true

/-- Whether an event is a call into the filesystem. -/
def Event.isFilesystem : Event → Bool
  | Event.access _ => true
  | Event.unlink _ => true
  | Event.remove _ => true
  | _ => false

/-! ## A lossless FIFO transport

The model of the transport under which the round trip is stated: one queue
between a sender and its peer. -/

/-- The messages in flight, oldest first. -/
abbrev Fifo := List StdString

/-- The queue after the calls of a trace: `zmq_send` enqueues the bytes it is
given, `zmq_msg_recv` takes the oldest message off the queue. -/
def Fifo.after : Fifo → List Event → Fifo
  | q, [] => q
  | q, Event.zmq_send _ data :: t => Fifo.after (q ++ [data]) t
  | q, Event.zmq_msg_recv _ :: t => Fifo.after q.tail t
  | q, _ :: t => Fifo.after q t

/-- What the lossless transport answers to a `zmq_send` of `data`: the number
of bytes it took, all of them. -/
def Fifo.sendEnv (data : StdString) : SendEnv :=
  { zmq_send := data.length
    zmq_errno := 0 }

/-- What the transport answers to a receive when the queue is `q`: the oldest
message and its length, or a timeout when nothing is in flight. -/
def Fifo.recvEnv : Fifo → RecvEnv
  | [] => { zmq_msg_init := 0, zmq_msg_recv := -1, zmq_errno := EAGAIN, zmq_msg_data := [] }
  | p :: _ => { zmq_msg_init := 0, zmq_msg_recv := p.length, zmq_errno := 0, zmq_msg_data := p }

/-! ## A filesystem of socket files

The model of the filesystem under which endpoint reuse is stated: the paths
at which a file exists. A removal succeeds, and a bind to an `ipc://` endpoint
succeeds when no file exists at its path and then creates the socket file. -/

/-- The paths at which a file exists. -/
abbrev Fs := List StdString

/-- The filesystem after one call; `bind_rc` is what `zmq_bind` answered. -/
def Fs.step (bind_rc : Int) (fs : Fs) : Event → Fs
  | Event.unlink p => fs.filter fun q => q ≠ p
  | Event.remove p => fs.filter fun q => q ≠ p
  | Event.zmq_bind _ endpoint =>
      if bind_rc = 0 ∧ endpoint.take 6 = "ipc://".toList then endpoint.drop 6 :: fs else fs
  | _ => fs

/-- The filesystem after the calls of a trace. -/
def Fs.after (bind_rc : Int) (fs : Fs) (t : List Event) : Fs :=
  t.foldl (Fs.step bind_rc) fs

/-- Whether the answers given during a trace (`access_rc` by `access`,
`remove_rc` by `remove`, `bind_rc` by `zmq_bind`) are those of the model
started at `fs`: `access` answers `0` exactly for an existing file, `remove`
answers `0`, and a bind answers `0` when no file exists at the path of its
endpoint. What `unlink` answers is read by no caller. -/
def Fs.agrees (access_rc remove_rc bind_rc : Int) : Fs → List Event → Bool
  | _, [] => true
  | fs, e :: t =>
    (match e with
      | Event.access p => decide (access_rc = 0 ↔ p ∈ fs)
      | Event.remove _ => decide (remove_rc = 0)
      | Event.zmq_bind _ endpoint => decide (endpoint.drop 6 ∉ fs → bind_rc = 0)
      | _ => true) &&
    Fs.agrees access_rc remove_rc bind_rc (Fs.step bind_rc fs e) t

/-- The filesystem `fs` after a fresh `ZMQWrapper` has run `Init cfg` with the
answers `env`. -/
def ZMQWrapperImpl.fsAfterInit (fs : Fs) (cfg : Config) (env : InitEnv) : Fs :=
  Fs.after env.zmq_bind fs (ZMQWrapperImpl.new.Init cfg env).trace

/-- The filesystem `fs` after a fresh `ZMQWrapper` has run `Init cfg` with the
answers `env` and then `Close` with the answers `cenv`. -/
def ZMQWrapperImpl.fsAfterClose (fs : Fs) (cfg : Config) (env : InitEnv)
    (cenv : CloseEnv) : Fs :=
  Fs.after 0 (ZMQWrapperImpl.fsAfterInit fs cfg env)
    ((ZMQWrapperImpl.new.Init cfg env).impl.Close cenv).trace

/-- The filesystem `fs` after a fresh `Context` (whose unset `pattern` and
`mode` hold the values given) has run `Init cfg` with the answers `env`. -/
def Context.fsAfterInit (fs : Fs) (pattern : Pattern) (mode : Mode) (cfg : Context.Config)
    (env : InitEnv) : Fs :=
  Fs.after env.zmq_bind fs (Context.Init (Context.Impl.new pattern mode) cfg env).trace

/-- The filesystem `fs` after a fresh `Context` has run `Init cfg` with the
answers `env` and then `Close`. -/
def Context.fsAfterClose (fs : Fs) (pattern : Pattern) (mode : Mode) (cfg : Context.Config)
    (env : InitEnv) : Fs :=
  Fs.after 0 (Context.fsAfterInit fs pattern mode cfg env)
    (Context.Close (Context.Init (Context.Impl.new pattern mode) cfg env).impl).trace

/-! ## Concrete inputs

The configuration of `test_basic_init_cleanup` in `src/src/test/test_suite.cpp`
and environments in which every outside call succeeds. -/

/-- The `Config` built by `test_basic_init_cleanup`. -/
def test_basic_config : Config :=
  { pattern := Pattern.REQ_REP
    mode := Mode.SERVER
    endpoint := "ipc:///tmp/test_basic.sock".toList
    timeout_ms := 1000
    enable_logging := false }

/-- An environment for `Init` in which the transport hands out the handles `1`
and `2`, no socket file is in the way and bind and connect succeed. -/
def initEnvOk : InitEnv :=
  { zmq_ctx_new := 1
    zmq_socket := 2
    access := -1
    remove := 0
    zmq_bind := 0
    zmq_connect := fun _ => 0
    zmq_errno := 0
    zmq_strerror := [] }

/-- The `Config` of the client of `src/prj1/tests/test_req_rep.cpp`. -/
def test_req_rep_client : Context.Config :=
  { pattern := Pattern.REQ_REP
    mode := Mode.CLIENT
    endpoint := "ipc:///tmp/test_req_rep.sock".toList
    io_threads := 1
    recv_timeout_ms := 3000
    send_timeout_ms := 3000
    verbose := false }

/-- A configuration whose endpoint is `MAX_PATH_LENGTH` bytes long: `ipc://`
and a path of 102 bytes. -/
def long_path_config : Config :=
  { pattern := Pattern.REQ_REP
    mode := Mode.SERVER
    endpoint := "ipc://".toList ++ List.replicate 102 'a'
    timeout_ms := 1000
    enable_logging := false }

/-- The `Config` of the client of `test_req_rep_pattern` in
`src/src/test/test_suite.cpp`. -/
def test_req_rep_pattern_client : Config :=
  { pattern := Pattern.REQ_REP
    mode := Mode.CLIENT
    endpoint := "ipc:///tmp/prj1.sock".toList
    timeout_ms := 2000
    enable_logging := false }

/-- An environment for `Init` in which the first two connects fail and the
third succeeds. -/
def initEnvThirdConnect : InitEnv :=
  { initEnvOk with zmq_connect := fun i => if i = 2 then 0 else -1 }

/-- An environment for `Init` in which bind and every connect fail, with
`EACCES`. -/
def initEnvDenied : InitEnv :=
  { initEnvOk with zmq_bind := -1, zmq_connect := fun _ => -1, zmq_errno := EACCES }

/-- The `Config` of `test_socket_cleanup` in
`src/prj1/tests/test_edge_cases.cpp`. -/
def test_cleanup_config : Context.Config :=
  { pattern := Pattern.REQ_REP
    mode := Mode.SERVER
    endpoint := "ipc:///tmp/test_cleanup.sock".toList
    io_threads := 1
    recv_timeout_ms := 3000
    send_timeout_ms := 3000
    verbose := false }

/-- The first `Context` of `test_socket_cleanup` after its `Init`. -/
def readyContext : Context.Impl :=
  (Context.Init (Context.Impl.new Pattern.REQ_REP Mode.SERVER) test_cleanup_config
    initEnvOk).impl

/-- The `Config` of the subscriber of the `PUB_SUB` test in
`src/src/test/test_suite.cpp`. -/
def test_pub_sub_client : Config :=
  { pattern := Pattern.PUB_SUB
    mode := Mode.CLIENT
    endpoint := "ipc:///tmp/prj1.sock".toList
    timeout_ms := 2000
    enable_logging := false }

/-- The client of `test_req_rep_pattern` after its `Init`. -/
def readyClient : ZMQWrapperImpl :=
  (ZMQWrapperImpl.new.Init test_req_rep_pattern_client initEnvOk).impl

/-- The subscriber of the `PUB_SUB` test after its `Init`. -/
def readySubscriber : ZMQWrapperImpl :=
  (ZMQWrapperImpl.new.Init test_pub_sub_client initEnvOk).impl

/-- The `Config` of `test_too_large_message` in
`src/prj1/tests/test_edge_cases.cpp`. -/
def test_toolarge_config : Context.Config :=
  { pattern := Pattern.REQ_REP
    mode := Mode.CLIENT
    endpoint := "ipc:///tmp/test_toolarge.sock".toList
    io_threads := 1
    recv_timeout_ms := 3000
    send_timeout_ms := 3000
    verbose := false }

/-- The `Context` of `test_too_large_message` after its `Init`. -/
def toolargeClient : Context.Impl :=
  (Context.Init (Context.Impl.new Pattern.REQ_REP Mode.SERVER) test_toolarge_config
    initEnvOk).impl

/-- The wrapper of `test_basic_init_cleanup` after its `Init`. -/
def readyServer : ZMQWrapperImpl :=
  (ZMQWrapperImpl.new.Init test_basic_config initEnvOk).impl

/-! ## Releases in a trace -/

/-- The number of `zmq_close` calls on the socket handle `h` in a trace. -/
def closeCalls (h : Handle) (t : List Event) : Nat :=
  t.count (Event.zmq_close h)

/-- The number of `zmq_ctx_term` calls on the context handle `h` in a trace. -/
def termCalls (h : Handle) (t : List Event) : Nat :=
  t.count (Event.zmq_ctx_term h)

/-- The number of `zmq_ctx_new` calls in a trace. -/
def ctxNewCalls (t : List Event) : Nat :=
  t.count Event.zmq_ctx_new

/-! ## A `Context` from construction to destruction -/

namespace Context

/-- The destructor `~Context() { Close(); delete pImpl; }`: what it does to
the object and to the outside is its `Close`. -/
def destructor (s : Impl) : Ret :=
  Close s

/-- One call a user makes on a `Context` between its construction and its
destruction, with what the outside answers during it. -/
inductive Call
  | Init (cfg : Config) (env : InitEnv)
  | Close

/-- The call carried out on the object. -/
def Call.run (s : Impl) : Call → Ret
  | Call.Init cfg env => Context.Init s cfg env
  | Call.Close => Context.Close s

/-- The object after a sequence of calls, and the outside calls made. -/
def runCalls : Impl → List Call → Impl × List Event
  | s, [] => (s, [])
  | s, c :: cs =>
    ((runCalls (c.run s).impl cs).1, (c.run s).trace ++ (runCalls (c.run s).impl cs).2)

/-- Every outside call of a whole life of a `Context`: construction, the calls
of the user, and the destructor. -/
def lifetime (pattern : Pattern) (mode : Mode) (calls : List Call) : List Event :=
  (runCalls (Impl.new pattern mode) calls).2 ++
    (destructor (runCalls (Impl.new pattern mode) calls).1).trace

end Context

/-! ## Further concrete inputs -/

/-- The `Config` of `test_push_pull_puller` in
`src/prj1/tests/test_push_pull.cpp`. -/
def test_push_pull_puller : Context.Config :=
  { pattern := Pattern.PUSH_PULL
    mode := Mode.SERVER
    endpoint := "ipc:///tmp/test_push_pull.sock".toList
    io_threads := 1
    recv_timeout_ms := 3000
    send_timeout_ms := 3000
    verbose := false }

/-- A `Context` configuration whose socket path is exactly 108 bytes long:
`ipc://` and 108 bytes. -/
def path108_config : Context.Config :=
  { pattern := Pattern.REQ_REP
    mode := Mode.SERVER
    endpoint := "ipc://".toList ++ List.replicate 108 'a'
    io_threads := 1
    recv_timeout_ms := 3000
    send_timeout_ms := 3000
    verbose := false }

/-- An answer to `Context::ReceiveMessage` in which a message of
`1024 * 1024 + 1` bytes arrives: `zmq_recv` returns its full length, and the
byte behind the buffer is `'!'`. -/
def recvEnvOversize : Context.RecvEnv :=
  { zmq_recv := ((1024 * 1024 + 1 : Nat) : Int)
    payload := List.replicate (1024 * 1024 + 1) 'A'
    zmq_errno := 0
    zmq_strerror := []
    beyond := fun _ => '!' }

/-- An environment for `Init` in which a socket file is in the way and cannot
be removed. -/
def initEnvStale : InitEnv :=
  { initEnvOk with access := 0, remove := -1 }

/-! ## Threads on one `ZMQWrapper`

`src/src/prj1.cpp`: each of `Init`, `SendMessage`, `ReceiveMessage`,
`Subscribe` and `Close` of `ZMQWrapperImpl` opens with
`std::lock_guard<std::mutex> lock(mutex);` on the one `mutex` member, and the
guard releases the mutex when the function returns. `IsInitialized` is
`return initialized;`, an atomic load with no lock. The destructor
`~ZMQWrapperImpl() { Cleanup(); }` runs `Cleanup`, which reads and changes the
handles, with no lock either.

Each member function is written below as the sequence of its statements, as
far as they concern the mutex and the data members; what the body computes is
the function of the sequential embedding above. A scheduler interleaves the
threads statement by statement. The only rule the model adds is that of
`std::mutex`: a `lock_guard` is constructed only when no thread holds the
mutex. Reads and writes of the members are never blocked. -/

namespace Threads

/-- One statement of a member function, as far as the mutex and the data
members go. -/
inductive Instr
  /-- `std::lock_guard<std::mutex> lock(mutex);` -/
  | lock_guard
  /-- the body reads the data members (handles, flag, config, endpoint) -/
  | load
  /-- the body writes the data members, as `f` computes them from what the
  thread has read -/
  | store (f : ZMQWrapperImpl → ZMQWrapperImpl)
  /-- the function returns and its `lock_guard` goes out of scope, which
  unlocks the mutex -/
  | unlock_guard
  /-- `return initialized;`, an atomic load of the flag -/
  | load_flag

/-- A call of a member function of `ZMQWrapperImpl`, with its arguments and
with what the outside answers during it. -/
inductive Call
  | Init (cfg : Config) (env : InitEnv)
  | SendMessage (message : StdString) (env : SendEnv)
  | ReceiveMessage (message : StdString) (env : RecvEnv)
  | Subscribe (topic : StdString) (env : SubscribeEnv)
  | Close (env : CloseEnv)
  | IsInitialized
  | destructor (env : CloseEnv)

/-- The statements of each member function, in order. `Close` is
`lock_guard; return Cleanup();`, the destructor is `Cleanup();` alone. -/
def Call.program : Call → List Instr
  | Call.Init cfg env =>
    [Instr.lock_guard, Instr.load, Instr.store fun s => (s.Init cfg env).impl,
      Instr.unlock_guard]
  | Call.SendMessage message env =>
    [Instr.lock_guard, Instr.load, Instr.store fun s => (s.SendMessage message env).impl,
      Instr.unlock_guard]
  | Call.ReceiveMessage message env =>
    [Instr.lock_guard, Instr.load, Instr.store fun s => (s.ReceiveMessage message env).impl,
      Instr.unlock_guard]
  | Call.Subscribe topic env =>
    [Instr.lock_guard, Instr.load, Instr.store fun s => (s.Subscribe topic env).impl,
      Instr.unlock_guard]
  | Call.Close env =>
    [Instr.lock_guard, Instr.load, Instr.store fun s => (s.Cleanup env).impl,
      Instr.unlock_guard]
  | Call.IsInitialized => [Instr.load_flag]
  | Call.destructor env => [Instr.load, Instr.store fun s => (s.Cleanup env).impl]

/-- A thread: the member function it runs, if any, the statements it has
still to run, and the members as it has last read them. -/
structure Thread where
  call : Option Call
  pc : List Instr
  seen : ZMQWrapperImpl

/-- A thread in no member function. -/
def Thread.idle : Thread :=
  { call := none
    pc := []
    seen := ZMQWrapperImpl.new }

/-- The thread with its next statement done; it is in no member function any
more once no statement is left. -/
def Thread.advance (t : Thread) : Thread :=
  match t.pc.tail with
  | [] => { call := none, pc := [], seen := t.seen }
  | i :: rest => { call := t.call, pc := i :: rest, seen := t.seen }

/-- One `ZMQWrapper` shared by threads numbered by `Nat`. -/
structure State where
  /-- the data members of the object -/
  impl : ZMQWrapperImpl
  /-- the thread that holds `mutex`, if one does -/
  mutex : Option Nat
  /-- the threads -/
  thread : Nat → Thread

/-- The object as constructed, every thread idle. -/
def State.new : State :=
  { impl := ZMQWrapperImpl.new
    mutex := none
    thread := fun _ => Thread.idle }

/-- The threads with thread `i` replaced by `t`. -/
def State.set (σ : State) (i : Nat) (t : Thread) : Nat → Thread :=
  fun j => if j = i then t else σ.thread j

/-- What the scheduler lets a thread do next. -/
inductive Action
  /-- thread `i`, in no member function, calls one -/
  | call (i : Nat) (c : Call)
  /-- thread `i` runs its next statement -/
  | next (i : Nat)

/-- One step of the shared object; `none` when the thread cannot take the
step: a call while it is in a member function, a statement when it has none
to run, or a `lock_guard` while a thread holds the mutex (it blocks). -/
def step (σ : State) : Action → Option State
  | Action.call i c =>
    match (σ.thread i).call with
    | none =>
      some { σ with thread := σ.set i ⟨some c, c.program, (σ.thread i).seen⟩ }
    | some _ => none
  | Action.next i =>
    match (σ.thread i).pc with
    | [] => none
    | Instr.lock_guard :: _ =>
      match σ.mutex with
      | none => some { σ with mutex := some i, thread := σ.set i (σ.thread i).advance }
      | some _ => none
    | Instr.load :: _ =>
      some { σ with thread := σ.set i { (σ.thread i).advance with seen := σ.impl } }
    | Instr.store f :: _ =>
      some { σ with impl := f (σ.thread i).seen, thread := σ.set i (σ.thread i).advance }
    | Instr.unlock_guard :: _ =>
      some { σ with mutex := none, thread := σ.set i (σ.thread i).advance }
    | Instr.load_flag :: _ =>
      some { σ with thread := σ.set i (σ.thread i).advance }

/-- The shared object after a schedule, `none` when the schedule asks for a
step that cannot be taken. -/
def run (σ : State) : List Action → Option State
  | [] => some σ
  | a :: rest =>
    match step σ a with
    | some σ' => run σ' rest
    | none => none

end Threads

/-! ## Theorems -/

namespace ZMQWrapperImpl

/-! ### `CleanupSocket`, `Cleanup` -/

theorem CleanupSocket_impl (s : ZMQWrapperImpl) :
    s.CleanupSocket.1 = { s with socket := 0, context := 0 } := rfl

theorem CleanupSocket_trace (s : ZMQWrapperImpl) :
    s.CleanupSocket.2 =
      (if s.socket ≠ 0 then [Event.zmq_close s.socket] else []) ++
      (if s.context ≠ 0 then [Event.zmq_ctx_term s.context] else []) := rfl

theorem Cleanup_not_initialized (s : ZMQWrapperImpl) (env : CloseEnv)
    (h : s.initialized = false) : s.Cleanup env = ⟨ErrorCode.SUCCESS, s, []⟩ := by
  simp [Cleanup, h]

theorem Cleanup_code (s : ZMQWrapperImpl) (env : CloseEnv) :
    (s.Cleanup env).code = ErrorCode.SUCCESS := by
  unfold Cleanup
  split <;> rfl

theorem Cleanup_initialized (s : ZMQWrapperImpl) (env : CloseEnv) :
    (s.Cleanup env).impl.initialized = false := by
  unfold Cleanup
  split
  · next h => simpa using h
  · rfl

theorem Cleanup_impl (s : ZMQWrapperImpl) (env : CloseEnv) :
    (s.Cleanup env).impl =
      if s.initialized then
        { s with socket := 0, context := 0, initialized := false }
      else s := by
  unfold Cleanup
  cases h : s.initialized <;> simp [CleanupSocket_impl]

/-! ### The retry loop -/

theorem connectLoop_done (s : ZMQWrapperImpl) (env : InitEnv) (n : Nat)
    (h : max_retries ≤ n) : connectLoop s env n = (n, []) := by
  rw [connectLoop, if_neg (by omega)]

theorem connectLoop_ok (s : ZMQWrapperImpl) (env : InitEnv) (n : Nat)
    (h : n < max_retries) (hc : env.zmq_connect n = 0) :
    connectLoop s env n = (n, [Event.zmq_connect s.socket s.endpoint_path] ++ s.Log) := by
  rw [connectLoop, if_pos h, if_pos hc]

theorem connectLoop_retry (s : ZMQWrapperImpl) (env : InitEnv) (n : Nat)
    (h : n < max_retries) (hc : env.zmq_connect n ≠ 0) :
    connectLoop s env n =
      ((connectLoop s env (n + 1)).1,
        [Event.zmq_connect s.socket s.endpoint_path] ++ s.Log ++
          (if n + 1 < max_retries then [Event.usleep (retry_delay_ms * 1000)] else []) ++
          (connectLoop s env (n + 1)).2) := by
  rw [connectLoop, if_pos h, if_neg hc]

/-- The loop written out: `max_retries` is `3` and the delay is
`100 * 1000` microseconds. -/
theorem connectLoop_zero (s : ZMQWrapperImpl) (env : InitEnv) :
    connectLoop s env 0 =
      if env.zmq_connect 0 = 0 then
        (0, [Event.zmq_connect s.socket s.endpoint_path] ++ s.Log)
      else if env.zmq_connect 1 = 0 then
        (1, [Event.zmq_connect s.socket s.endpoint_path] ++ s.Log ++ [Event.usleep 100000] ++
          ([Event.zmq_connect s.socket s.endpoint_path] ++ s.Log))
      else if env.zmq_connect 2 = 0 then
        (2, [Event.zmq_connect s.socket s.endpoint_path] ++ s.Log ++ [Event.usleep 100000] ++
          ([Event.zmq_connect s.socket s.endpoint_path] ++ s.Log ++ [Event.usleep 100000] ++
            ([Event.zmq_connect s.socket s.endpoint_path] ++ s.Log)))
      else
        (3, [Event.zmq_connect s.socket s.endpoint_path] ++ s.Log ++ [Event.usleep 100000] ++
          ([Event.zmq_connect s.socket s.endpoint_path] ++ s.Log ++ [Event.usleep 100000] ++
            ([Event.zmq_connect s.socket s.endpoint_path] ++ s.Log ++ [] ++ []))) := by
  have e : retry_delay_ms * 1000 = 100000 := by decide
  by_cases h0 : env.zmq_connect 0 = 0
  · rw [if_pos h0, connectLoop_ok s env 0 (by decide) h0]
  · rw [if_neg h0, connectLoop_retry s env 0 (by decide) h0]
    by_cases h1 : env.zmq_connect 1 = 0
    · rw [if_pos h1, connectLoop_ok s env (0 + 1) (by decide) h1, e]
      rfl
    · rw [if_neg h1, connectLoop_retry s env (0 + 1) (by decide) h1]
      by_cases h2 : env.zmq_connect 2 = 0
      · rw [if_pos h2, connectLoop_ok s env (0 + 1 + 1) (by decide) h2, e]
        rfl
      · rw [if_neg h2, connectLoop_retry s env (0 + 1 + 1) (by decide) h2,
          connectLoop_done s env (0 + 1 + 1 + 1) (by decide), e]
        rfl

/-! ### `Init`, branch by branch -/

theorem BuildEndpoint_ne_nil (custom_endpoint : StdString) :
    BuildEndpoint custom_endpoint ≠ [] := by
  unfold BuildEndpoint
  split
  · assumption
  · decide

theorem Init_already (s : ZMQWrapperImpl) (cfg : Config) (env : InitEnv)
    (h0 : s.initialized = true) :
    s.Init cfg env = ⟨ErrorCode.ERROR_ALREADY_INITIALIZED, s, []⟩ := by
  unfold Init
  simp only [h0, if_true]

theorem Init_negative_timeout (s : ZMQWrapperImpl) (cfg : Config) (env : InitEnv)
    (h0 : s.initialized = false) (h1 : cfg.timeout_ms < 0) :
    s.Init cfg env = ⟨ErrorCode.ERROR_INVALID_CONFIG, s, []⟩ := by
  unfold Init
  simp only [h0, Bool.false_eq_true, if_false, if_pos h1]

theorem Init_context_failed (s : ZMQWrapperImpl) (cfg : Config) (env : InitEnv)
    (h0 : s.initialized = false) (h1 : 0 ≤ cfg.timeout_ms) (h2 : env.zmq_ctx_new = 0) :
    s.Init cfg env =
      ⟨ErrorCode.ERROR_SOCKET_CREATE_FAILED, { s with config := cfg, context := 0 },
        [Event.zmq_ctx_new] ++ (Init_s3 s cfg env).Log⟩ := by
  have h1' : ¬ cfg.timeout_ms < 0 := not_lt.mpr h1
  unfold Init
  simp only [h0, Bool.false_eq_true, if_false, if_neg h1', h2, if_true, Init_s3, Log]

theorem Init_invalid_pattern (s : ZMQWrapperImpl) (cfg : Config) (env : InitEnv)
    (h0 : s.initialized = false) (h1 : 0 ≤ cfg.timeout_ms) (h2 : env.zmq_ctx_new ≠ 0)
    (h3 : GetSocketType cfg.pattern cfg.mode < 0) :
    s.Init cfg env =
      ⟨ErrorCode.ERROR_INVALID_PATTERN, { s with config := cfg, context := 0 },
        [Event.zmq_ctx_new, Event.zmq_ctx_set env.zmq_ctx_new ZMQ_IO_THREADS 1,
          Event.zmq_ctx_term env.zmq_ctx_new]⟩ := by
  have h1' : ¬ cfg.timeout_ms < 0 := not_lt.mpr h1
  unfold Init
  simp only [h0, Bool.false_eq_true, if_false, if_neg h1', if_neg h2, if_pos h3,
    List.append_assoc, List.cons_append, List.nil_append]

theorem Init_socket_failed (s : ZMQWrapperImpl) (cfg : Config) (env : InitEnv)
    (h0 : s.initialized = false) (h1 : 0 ≤ cfg.timeout_ms) (h2 : env.zmq_ctx_new ≠ 0)
    (h3 : 0 ≤ GetSocketType cfg.pattern cfg.mode) (h4 : env.zmq_socket = 0) :
    s.Init cfg env =
      ⟨ErrorCode.ERROR_SOCKET_CREATE_FAILED,
        { s with config := cfg, context := 0, socket := 0 },
        [Event.zmq_ctx_new, Event.zmq_ctx_set env.zmq_ctx_new ZMQ_IO_THREADS 1,
          Event.zmq_socket env.zmq_ctx_new (GetSocketType cfg.pattern cfg.mode)] ++
          (Init_s3 s cfg env).Log ++ [Event.zmq_ctx_term env.zmq_ctx_new]⟩ := by
  have h1' : ¬ cfg.timeout_ms < 0 := not_lt.mpr h1
  have h3' : ¬ GetSocketType cfg.pattern cfg.mode < 0 := not_lt.mpr h3
  unfold Init
  simp only [h0, Bool.false_eq_true, if_false, if_neg h1', if_neg h2, if_neg h3', h4, if_true,
    Init_s3, Log, List.append_assoc, List.cons_append, List.nil_append]

theorem Init_path_too_long (s : ZMQWrapperImpl) (cfg : Config) (env : InitEnv)
    (h0 : s.initialized = false) (h1 : 0 ≤ cfg.timeout_ms) (h2 : env.zmq_ctx_new ≠ 0)
    (h3 : 0 ≤ GetSocketType cfg.pattern cfg.mode) (h4 : env.zmq_socket ≠ 0)
    (h5 : MAX_PATH_LENGTH ≤ (BuildEndpoint cfg.endpoint).length) :
    s.Init cfg env =
      ⟨ErrorCode.ERROR_PATH_TOO_LONG, { Init_s3 s cfg env with socket := 0, context := 0 },
        Init_t4 cfg env ++ (Init_s3 s cfg env).Log ++
          [Event.zmq_close env.zmq_socket, Event.zmq_ctx_term env.zmq_ctx_new]⟩ := by
  have h1' : ¬ cfg.timeout_ms < 0 := not_lt.mpr h1
  have h3' : ¬ GetSocketType cfg.pattern cfg.mode < 0 := not_lt.mpr h3
  have h5' : (BuildEndpoint cfg.endpoint).length ≥ MAX_PATH_LENGTH := h5
  unfold Init
  simp only [h0, Bool.false_eq_true, if_false, if_neg h1', if_neg h2, if_neg h3', if_neg h4,
    if_neg (BuildEndpoint_ne_nil cfg.endpoint), if_pos h5', CleanupSocket, ne_eq, h2, h4,
    not_false_eq_true, if_true, Init_s3, Init_t4, Log, List.append_assoc, List.cons_append,
    List.nil_append]

theorem Init_bind_failed (s : ZMQWrapperImpl) (cfg : Config) (env : InitEnv)
    (h0 : s.initialized = false) (h1 : 0 ≤ cfg.timeout_ms) (h2 : env.zmq_ctx_new ≠ 0)
    (h3 : 0 ≤ GetSocketType cfg.pattern cfg.mode) (h4 : env.zmq_socket ≠ 0)
    (h5 : (BuildEndpoint cfg.endpoint).length < MAX_PATH_LENGTH)
    (h6 : cfg.mode = Mode.SERVER) (h7 : env.zmq_bind ≠ 0) :
    s.Init cfg env =
      ⟨if env.zmq_errno = EACCES then ErrorCode.ERROR_PERMISSION_DENIED
        else ErrorCode.ERROR_SOCKET_BIND_FAILED,
        { Init_s3 s cfg env with socket := 0, context := 0 },
        Init_t4 cfg env ++ Init_stale s cfg env ++
          [Event.zmq_bind env.zmq_socket (BuildEndpoint cfg.endpoint)] ++
          (Init_s3 s cfg env).Log ++
          [Event.zmq_close env.zmq_socket, Event.zmq_ctx_term env.zmq_ctx_new]⟩ := by
  have h1' : ¬ cfg.timeout_ms < 0 := not_lt.mpr h1
  have h3' : ¬ GetSocketType cfg.pattern cfg.mode < 0 := not_lt.mpr h3
  have h5' : ¬ (BuildEndpoint cfg.endpoint).length ≥ MAX_PATH_LENGTH := not_le.mpr h5
  unfold Init
  by_cases h8 : env.zmq_errno = EACCES
  · simp only [h0, Bool.false_eq_true, if_false, if_neg h1', if_neg h2, if_neg h3', if_neg h4,
      if_neg (BuildEndpoint_ne_nil cfg.endpoint), if_neg h5', if_pos h6, if_pos h7, if_pos h8,
      CleanupSocket, ne_eq, h2, h4, not_false_eq_true, if_true, Init_s3, Init_t4, Init_stale,
      Log, List.append_assoc, List.cons_append, List.nil_append]
  · simp only [h0, Bool.false_eq_true, if_false, if_neg h1', if_neg h2, if_neg h3', if_neg h4,
      if_neg (BuildEndpoint_ne_nil cfg.endpoint), if_neg h5', if_pos h6, if_pos h7, if_neg h8,
      CleanupSocket, ne_eq, h2, h4, not_false_eq_true, if_true, Init_s3, Init_t4, Init_stale,
      Log, List.append_assoc, List.cons_append, List.nil_append]

theorem Init_server_ok (s : ZMQWrapperImpl) (cfg : Config) (env : InitEnv)
    (h0 : s.initialized = false) (h1 : 0 ≤ cfg.timeout_ms) (h2 : env.zmq_ctx_new ≠ 0)
    (h3 : 0 ≤ GetSocketType cfg.pattern cfg.mode) (h4 : env.zmq_socket ≠ 0)
    (h5 : (BuildEndpoint cfg.endpoint).length < MAX_PATH_LENGTH)
    (h6 : cfg.mode = Mode.SERVER) (h7 : env.zmq_bind = 0) :
    s.Init cfg env =
      ⟨ErrorCode.SUCCESS, { Init_s3 s cfg env with initialized := true },
        Init_t4 cfg env ++ Init_stale s cfg env ++
          [Event.zmq_bind env.zmq_socket (BuildEndpoint cfg.endpoint)] ++
          (Init_s3 s cfg env).Log⟩ := by
  have h1' : ¬ cfg.timeout_ms < 0 := not_lt.mpr h1
  have h3' : ¬ GetSocketType cfg.pattern cfg.mode < 0 := not_lt.mpr h3
  have h5' : ¬ (BuildEndpoint cfg.endpoint).length ≥ MAX_PATH_LENGTH := not_le.mpr h5
  have h8 : ¬ env.zmq_bind ≠ 0 := not_not.mpr h7
  unfold Init
  simp only [h0, Bool.false_eq_true, if_false, if_neg h1', if_neg h2, if_neg h3', if_neg h4,
    if_neg (BuildEndpoint_ne_nil cfg.endpoint), if_neg h5', if_pos h6, if_neg h8,
    Init_s3, Init_t4, Init_stale, Log, List.append_assoc, List.cons_append, List.nil_append]

theorem Init_connect_failed (s : ZMQWrapperImpl) (cfg : Config) (env : InitEnv)
    (h0 : s.initialized = false) (h1 : 0 ≤ cfg.timeout_ms) (h2 : env.zmq_ctx_new ≠ 0)
    (h3 : 0 ≤ GetSocketType cfg.pattern cfg.mode) (h4 : env.zmq_socket ≠ 0)
    (h5 : (BuildEndpoint cfg.endpoint).length < MAX_PATH_LENGTH)
    (h6 : cfg.mode ≠ Mode.SERVER)
    (h7 : max_retries ≤ (connectLoop (Init_s3 s cfg env) env 0).1) :
    s.Init cfg env =
      ⟨ErrorCode.ERROR_SOCKET_CONNECT_FAILED,
        { Init_s3 s cfg env with socket := 0, context := 0 },
        Init_t4 cfg env ++ (connectLoop (Init_s3 s cfg env) env 0).2 ++
          (Init_s3 s cfg env).Log ++
          [Event.zmq_close env.zmq_socket, Event.zmq_ctx_term env.zmq_ctx_new]⟩ := by
  have h1' : ¬ cfg.timeout_ms < 0 := not_lt.mpr h1
  have h3' : ¬ GetSocketType cfg.pattern cfg.mode < 0 := not_lt.mpr h3
  have h5' : ¬ (BuildEndpoint cfg.endpoint).length ≥ MAX_PATH_LENGTH := not_le.mpr h5
  have h7' : (connectLoop (Init_s3 s cfg env) env 0).1 ≥ max_retries := h7
  simp only [Init_s3, h0] at h7'
  unfold Init
  simp only [h0, Bool.false_eq_true, if_false, if_neg h1', if_neg h2, if_neg h3', if_neg h4,
    if_neg (BuildEndpoint_ne_nil cfg.endpoint), if_neg h5', if_neg h6, if_pos h7',
    CleanupSocket, ne_eq, h2, h4, not_false_eq_true, if_true, Init_s3, Init_t4,
    Log, List.append_assoc, List.cons_append, List.nil_append]

theorem Init_client_ok (s : ZMQWrapperImpl) (cfg : Config) (env : InitEnv)
    (h0 : s.initialized = false) (h1 : 0 ≤ cfg.timeout_ms) (h2 : env.zmq_ctx_new ≠ 0)
    (h3 : 0 ≤ GetSocketType cfg.pattern cfg.mode) (h4 : env.zmq_socket ≠ 0)
    (h5 : (BuildEndpoint cfg.endpoint).length < MAX_PATH_LENGTH)
    (h6 : cfg.mode ≠ Mode.SERVER)
    (h7 : (connectLoop (Init_s3 s cfg env) env 0).1 < max_retries) :
    s.Init cfg env =
      ⟨ErrorCode.SUCCESS, { Init_s3 s cfg env with initialized := true },
        Init_t4 cfg env ++ (connectLoop (Init_s3 s cfg env) env 0).2⟩ := by
  have h1' : ¬ cfg.timeout_ms < 0 := not_lt.mpr h1
  have h3' : ¬ GetSocketType cfg.pattern cfg.mode < 0 := not_lt.mpr h3
  have h5' : ¬ (BuildEndpoint cfg.endpoint).length ≥ MAX_PATH_LENGTH := not_le.mpr h5
  have h7' : ¬ (connectLoop (Init_s3 s cfg env) env 0).1 ≥ max_retries := not_le.mpr h7
  simp only [Init_s3, h0] at h7'
  unfold Init
  simp only [h0, Bool.false_eq_true, if_false, if_neg h1', if_neg h2, if_neg h3', if_neg h4,
    if_neg (BuildEndpoint_ne_nil cfg.endpoint), if_neg h5', if_neg h6, if_neg h7',
    Init_s3, Init_t4, List.append_assoc, List.cons_append, List.nil_append]

/-- Case analysis on the branch `Init` takes. -/
theorem Init_cases (P : Ret → Prop) (s : ZMQWrapperImpl) (cfg : Config) (env : InitEnv)
    (already : s.initialized = true → P ⟨ErrorCode.ERROR_ALREADY_INITIALIZED, s, []⟩)
    (negative_timeout : s.initialized = false → cfg.timeout_ms < 0 →
      P ⟨ErrorCode.ERROR_INVALID_CONFIG, s, []⟩)
    (context_failed : s.initialized = false → 0 ≤ cfg.timeout_ms → env.zmq_ctx_new = 0 →
      P ⟨ErrorCode.ERROR_SOCKET_CREATE_FAILED, { s with config := cfg, context := 0 },
        [Event.zmq_ctx_new] ++ (Init_s3 s cfg env).Log⟩)
    (invalid_pattern : s.initialized = false → 0 ≤ cfg.timeout_ms → env.zmq_ctx_new ≠ 0 →
      GetSocketType cfg.pattern cfg.mode < 0 →
      P ⟨ErrorCode.ERROR_INVALID_PATTERN, { s with config := cfg, context := 0 },
        [Event.zmq_ctx_new, Event.zmq_ctx_set env.zmq_ctx_new ZMQ_IO_THREADS 1,
          Event.zmq_ctx_term env.zmq_ctx_new]⟩)
    (socket_failed : s.initialized = false → 0 ≤ cfg.timeout_ms → env.zmq_ctx_new ≠ 0 →
      0 ≤ GetSocketType cfg.pattern cfg.mode → env.zmq_socket = 0 →
      P ⟨ErrorCode.ERROR_SOCKET_CREATE_FAILED,
        { s with config := cfg, context := 0, socket := 0 },
        [Event.zmq_ctx_new, Event.zmq_ctx_set env.zmq_ctx_new ZMQ_IO_THREADS 1,
          Event.zmq_socket env.zmq_ctx_new (GetSocketType cfg.pattern cfg.mode)] ++
          (Init_s3 s cfg env).Log ++ [Event.zmq_ctx_term env.zmq_ctx_new]⟩)
    (path_too_long : s.initialized = false → 0 ≤ cfg.timeout_ms → env.zmq_ctx_new ≠ 0 →
      0 ≤ GetSocketType cfg.pattern cfg.mode → env.zmq_socket ≠ 0 →
      MAX_PATH_LENGTH ≤ (BuildEndpoint cfg.endpoint).length →
      P ⟨ErrorCode.ERROR_PATH_TOO_LONG, { Init_s3 s cfg env with socket := 0, context := 0 },
        Init_t4 cfg env ++ (Init_s3 s cfg env).Log ++
          [Event.zmq_close env.zmq_socket, Event.zmq_ctx_term env.zmq_ctx_new]⟩)
    (bind_failed : s.initialized = false → 0 ≤ cfg.timeout_ms → env.zmq_ctx_new ≠ 0 →
      0 ≤ GetSocketType cfg.pattern cfg.mode → env.zmq_socket ≠ 0 →
      (BuildEndpoint cfg.endpoint).length < MAX_PATH_LENGTH → cfg.mode = Mode.SERVER →
      env.zmq_bind ≠ 0 →
      P ⟨if env.zmq_errno = EACCES then ErrorCode.ERROR_PERMISSION_DENIED
          else ErrorCode.ERROR_SOCKET_BIND_FAILED,
        { Init_s3 s cfg env with socket := 0, context := 0 },
        Init_t4 cfg env ++ Init_stale s cfg env ++
          [Event.zmq_bind env.zmq_socket (BuildEndpoint cfg.endpoint)] ++
          (Init_s3 s cfg env).Log ++
          [Event.zmq_close env.zmq_socket, Event.zmq_ctx_term env.zmq_ctx_new]⟩)
    (server_ok : s.initialized = false → 0 ≤ cfg.timeout_ms → env.zmq_ctx_new ≠ 0 →
      0 ≤ GetSocketType cfg.pattern cfg.mode → env.zmq_socket ≠ 0 →
      (BuildEndpoint cfg.endpoint).length < MAX_PATH_LENGTH → cfg.mode = Mode.SERVER →
      env.zmq_bind = 0 →
      P ⟨ErrorCode.SUCCESS, { Init_s3 s cfg env with initialized := true },
        Init_t4 cfg env ++ Init_stale s cfg env ++
          [Event.zmq_bind env.zmq_socket (BuildEndpoint cfg.endpoint)] ++
          (Init_s3 s cfg env).Log⟩)
    (connect_failed : s.initialized = false → 0 ≤ cfg.timeout_ms → env.zmq_ctx_new ≠ 0 →
      0 ≤ GetSocketType cfg.pattern cfg.mode → env.zmq_socket ≠ 0 →
      (BuildEndpoint cfg.endpoint).length < MAX_PATH_LENGTH → cfg.mode ≠ Mode.SERVER →
      max_retries ≤ (connectLoop (Init_s3 s cfg env) env 0).1 →
      P ⟨ErrorCode.ERROR_SOCKET_CONNECT_FAILED,
        { Init_s3 s cfg env with socket := 0, context := 0 },
        Init_t4 cfg env ++ (connectLoop (Init_s3 s cfg env) env 0).2 ++
          (Init_s3 s cfg env).Log ++
          [Event.zmq_close env.zmq_socket, Event.zmq_ctx_term env.zmq_ctx_new]⟩)
    (client_ok : s.initialized = false → 0 ≤ cfg.timeout_ms → env.zmq_ctx_new ≠ 0 →
      0 ≤ GetSocketType cfg.pattern cfg.mode → env.zmq_socket ≠ 0 →
      (BuildEndpoint cfg.endpoint).length < MAX_PATH_LENGTH → cfg.mode ≠ Mode.SERVER →
      (connectLoop (Init_s3 s cfg env) env 0).1 < max_retries →
      P ⟨ErrorCode.SUCCESS, { Init_s3 s cfg env with initialized := true },
        Init_t4 cfg env ++ (connectLoop (Init_s3 s cfg env) env 0).2⟩) :
    P (s.Init cfg env) := by
  by_cases h0 : s.initialized = true
  · rw [Init_already s cfg env h0]; exact already h0
  have h0 : s.initialized = false := by simpa using h0
  by_cases h1 : cfg.timeout_ms < 0
  · rw [Init_negative_timeout s cfg env h0 h1]; exact negative_timeout h0 h1
  have h1 : 0 ≤ cfg.timeout_ms := not_lt.mp h1
  by_cases h2 : env.zmq_ctx_new = 0
  · rw [Init_context_failed s cfg env h0 h1 h2]; exact context_failed h0 h1 h2
  by_cases h3 : GetSocketType cfg.pattern cfg.mode < 0
  · rw [Init_invalid_pattern s cfg env h0 h1 h2 h3]; exact invalid_pattern h0 h1 h2 h3
  have h3 : 0 ≤ GetSocketType cfg.pattern cfg.mode := not_lt.mp h3
  by_cases h4 : env.zmq_socket = 0
  · rw [Init_socket_failed s cfg env h0 h1 h2 h3 h4]; exact socket_failed h0 h1 h2 h3 h4
  by_cases h5 : MAX_PATH_LENGTH ≤ (BuildEndpoint cfg.endpoint).length
  · rw [Init_path_too_long s cfg env h0 h1 h2 h3 h4 h5]; exact path_too_long h0 h1 h2 h3 h4 h5
  have h5 : (BuildEndpoint cfg.endpoint).length < MAX_PATH_LENGTH := not_le.mp h5
  by_cases h6 : cfg.mode = Mode.SERVER
  · by_cases h7 : env.zmq_bind = 0
    · rw [Init_server_ok s cfg env h0 h1 h2 h3 h4 h5 h6 h7]
      exact server_ok h0 h1 h2 h3 h4 h5 h6 h7
    · rw [Init_bind_failed s cfg env h0 h1 h2 h3 h4 h5 h6 h7]
      exact bind_failed h0 h1 h2 h3 h4 h5 h6 h7
  · by_cases h7 : max_retries ≤ (connectLoop (Init_s3 s cfg env) env 0).1
    · rw [Init_connect_failed s cfg env h0 h1 h2 h3 h4 h5 h6 h7]
      exact connect_failed h0 h1 h2 h3 h4 h5 h6 h7
    · have h7 : (connectLoop (Init_s3 s cfg env) env 0).1 < max_retries := not_le.mp h7
      rw [Init_client_ok s cfg env h0 h1 h2 h3 h4 h5 h6 h7]
      exact client_ok h0 h1 h2 h3 h4 h5 h6 h7

/-! ### What `Init` leaves -/

theorem GetSocketType_nonneg (pattern : Pattern) (mode : Mode)
    (h : pattern = Pattern.REQ_REP ∨ pattern = Pattern.PUB_SUB ∨ pattern = Pattern.PUSH_PULL) :
    0 ≤ GetSocketType pattern mode := by
  unfold GetSocketType
  rcases h with h | h | h <;> subst h <;> by_cases hm : mode = Mode.SERVER <;>
    simp [hm, Pattern.REQ_REP, Pattern.PUB_SUB, Pattern.PUSH_PULL, ZMQ_REP, ZMQ_REQ, ZMQ_PUB,
      ZMQ_SUB, ZMQ_PUSH, ZMQ_PULL]

theorem connectLoop_fst_lt (s : ZMQWrapperImpl) (env : InitEnv)
    (h : ∃ k, k < 3 ∧ env.zmq_connect k = 0) : (connectLoop s env 0).1 < max_retries := by
  rw [connectLoop_zero]
  obtain ⟨k, hk, hc⟩ := h
  by_cases h0 : env.zmq_connect 0 = 0
  · rw [if_pos h0]; exact (by decide : 0 < max_retries)
  rw [if_neg h0]
  by_cases h1 : env.zmq_connect 1 = 0
  · rw [if_pos h1]; exact (by decide : 1 < max_retries)
  rw [if_neg h1]
  by_cases h2 : env.zmq_connect 2 = 0
  · rw [if_pos h2]; exact (by decide : 2 < max_retries)
  exfalso
  interval_cases k
  · exact h0 hc
  · exact h1 hc
  · exact h2 hc

/-- `Init` succeeds on an object that is not initialized when the config is
valid and the transport does what it is asked. -/
theorem Init_success (s : ZMQWrapperImpl) (cfg : Config) (env : InitEnv)
    (h0 : s.initialized = false)
    (hp : cfg.pattern = Pattern.REQ_REP ∨ cfg.pattern = Pattern.PUB_SUB ∨
      cfg.pattern = Pattern.PUSH_PULL)
    (ht : 0 ≤ cfg.timeout_ms)
    (hl : (BuildEndpoint cfg.endpoint).length < MAX_PATH_LENGTH)
    (hctx : env.zmq_ctx_new ≠ 0) (hsock : env.zmq_socket ≠ 0)
    (hbind : cfg.mode = Mode.SERVER → env.zmq_bind = 0)
    (hconn : cfg.mode ≠ Mode.SERVER → ∃ k, k < 3 ∧ env.zmq_connect k = 0) :
    (s.Init cfg env).code = ErrorCode.SUCCESS ∧
    (s.Init cfg env).impl = { Init_s3 s cfg env with initialized := true } := by
  have hk := GetSocketType_nonneg cfg.pattern cfg.mode hp
  by_cases hm : cfg.mode = Mode.SERVER
  · rw [Init_server_ok s cfg env h0 ht hctx hk hsock hl hm (hbind hm)]
    exact ⟨rfl, rfl⟩
  · rw [Init_client_ok s cfg env h0 ht hctx hk hsock hl hm (connectLoop_fst_lt _ env (hconn hm))]
    exact ⟨rfl, rfl⟩

theorem Init_initialized (s : ZMQWrapperImpl) (cfg : Config) (env : InitEnv)
    (h0 : s.initialized = false) :
    (s.Init cfg env).impl.initialized = true ↔ (s.Init cfg env).code = ErrorCode.SUCCESS := by
  refine Init_cases (fun r => r.impl.initialized = true ↔ r.code = ErrorCode.SUCCESS) s cfg env
    ?_ ?_ ?_ ?_ ?_ ?_ ?_ ?_ ?_ ?_
  all_goals intros
  all_goals simp_all [Init_s3]
  split_ifs <;> simp

theorem Init_invariant (s : ZMQWrapperImpl) (cfg : Config) (env : InitEnv)
    (h : Invariant s) : Invariant (s.Init cfg env).impl := by
  refine Init_cases (fun r => Invariant r.impl) s cfg env ?_ ?_ ?_ ?_ ?_ ?_ ?_ ?_ ?_ ?_
  all_goals intros
  all_goals simp_all [Invariant, Init_s3]

theorem SendMessage_impl (s : ZMQWrapperImpl) (message : StdString) (env : SendEnv) :
    (s.SendMessage message env).impl = s := by
  unfold SendMessage
  simp only [apply_ite Ret.impl, ite_self]

theorem ReceiveMessage_impl (s : ZMQWrapperImpl) (message : StdString) (env : RecvEnv) :
    (s.ReceiveMessage message env).impl = s := by
  unfold ReceiveMessage
  simp only [apply_ite RecvRet.impl, ite_self]

theorem Subscribe_impl (s : ZMQWrapperImpl) (topic : StdString) (env : SubscribeEnv) :
    (s.Subscribe topic env).impl = s := by
  unfold Subscribe
  simp only [apply_ite Ret.impl, ite_self]

theorem Cleanup_invariant (s : ZMQWrapperImpl) (env : CloseEnv) (h : Invariant s) :
    Invariant (s.Cleanup env).impl := by
  rw [Cleanup_impl]
  cases hi : s.initialized <;> simp_all [Invariant]

/-- Every object a caller can hold satisfies the lifecycle invariant. -/
theorem Reachable_invariant (s : ZMQWrapperImpl) (h : Reachable s) : Invariant s := by
  induction h with
  | new => simp [Invariant, new]
  | Init s cfg env _ ih => exact Init_invariant s cfg env ih
  | SendMessage s message env _ ih => rw [SendMessage_impl]; exact ih
  | ReceiveMessage s message env _ ih => rw [ReceiveMessage_impl]; exact ih
  | Subscribe s topic env _ ih => rw [Subscribe_impl]; exact ih
  | Close s env _ ih => exact Cleanup_invariant s env ih

theorem Reachable_socket (s : ZMQWrapperImpl) (h : Reachable s) (hi : s.initialized = true) :
    s.socket ≠ 0 :=
  ((Reachable_invariant s h).1 hi).1

theorem readyServer_reachable : Reachable readyServer :=
  Reachable.Init _ _ _ Reachable.new

/-! ### Counting the calls of `Init` -/

theorem connectLoop_trace_mem (s : ZMQWrapperImpl) (env : InitEnv) (e : Event)
    (h : e ∈ (connectLoop s env 0).2) :
    e = Event.zmq_connect s.socket s.endpoint_path ∨ e = Event.log ∨
      e = Event.usleep 100000 := by
  rw [connectLoop_zero] at h
  unfold Log at h
  split_ifs at h <;> simp at h <;> tauto

theorem Init_t4_mem (cfg : Config) (env : InitEnv) (e : Event) (h : e ∈ Init_t4 cfg env) :
    e = Event.zmq_ctx_new ∨ e = Event.zmq_ctx_set env.zmq_ctx_new ZMQ_IO_THREADS 1 ∨
      e = Event.zmq_socket env.zmq_ctx_new (GetSocketType cfg.pattern cfg.mode) ∨
      e = Event.zmq_setsockopt_int env.zmq_socket ZMQ_LINGER 0 ∨
      e = Event.zmq_setsockopt_int env.zmq_socket ZMQ_RCVTIMEO cfg.timeout_ms := by
  unfold Init_t4 at h
  split_ifs at h <;> simp at h <;> tauto

theorem Init_stale_mem (s : ZMQWrapperImpl) (cfg : Config) (env : InitEnv) (e : Event)
    (h : e ∈ Init_stale s cfg env) :
    e = Event.access ((BuildEndpoint cfg.endpoint).drop 6) ∨ e = Event.log ∨
      e = Event.unlink ((BuildEndpoint cfg.endpoint).drop 6) := by
  unfold Init_stale Log at h
  split_ifs at h <;> simp at h <;> tauto

theorem Log_mem (s : ZMQWrapperImpl) (e : Event) (h : e ∈ s.Log) : e = Event.log := by
  unfold Log at h
  split_ifs at h <;> simp at h
  exact h

end ZMQWrapperImpl

namespace ZMQWrapperImpl

/-- Every call `Init` makes is one of these. -/
theorem Init_trace_mem (s : ZMQWrapperImpl) (cfg : Config) (env : InitEnv) (e : Event)
    (h : e ∈ (s.Init cfg env).trace) :
    e = Event.zmq_ctx_new ∨ e = Event.zmq_ctx_set env.zmq_ctx_new ZMQ_IO_THREADS 1 ∨
    e = Event.zmq_socket env.zmq_ctx_new (GetSocketType cfg.pattern cfg.mode) ∨
    e = Event.zmq_setsockopt_int env.zmq_socket ZMQ_LINGER 0 ∨
    e = Event.zmq_setsockopt_int env.zmq_socket ZMQ_RCVTIMEO cfg.timeout_ms ∨
    e = Event.access ((BuildEndpoint cfg.endpoint).drop 6) ∨
    e = Event.unlink ((BuildEndpoint cfg.endpoint).drop 6) ∨
    e = Event.zmq_bind env.zmq_socket (BuildEndpoint cfg.endpoint) ∨
    e = Event.zmq_connect env.zmq_socket (BuildEndpoint cfg.endpoint) ∨
    e = Event.usleep 100000 ∨ e = Event.zmq_close env.zmq_socket ∨
    e = Event.zmq_ctx_term env.zmq_ctx_new ∨ e = Event.log := by
  have h4 := Init_t4_mem cfg env e
  have hs := Init_stale_mem s cfg env e
  have hl := Log_mem (Init_s3 s cfg env) e
  have hc := connectLoop_trace_mem (Init_s3 s cfg env) env e
  simp only [Init_s3] at hc
  revert h
  refine Init_cases (fun r => e ∈ r.trace →
    (e = Event.zmq_ctx_new ∨ e = Event.zmq_ctx_set env.zmq_ctx_new ZMQ_IO_THREADS 1 ∨
    e = Event.zmq_socket env.zmq_ctx_new (GetSocketType cfg.pattern cfg.mode) ∨
    e = Event.zmq_setsockopt_int env.zmq_socket ZMQ_LINGER 0 ∨
    e = Event.zmq_setsockopt_int env.zmq_socket ZMQ_RCVTIMEO cfg.timeout_ms ∨
    e = Event.access ((BuildEndpoint cfg.endpoint).drop 6) ∨
    e = Event.unlink ((BuildEndpoint cfg.endpoint).drop 6) ∨
    e = Event.zmq_bind env.zmq_socket (BuildEndpoint cfg.endpoint) ∨
    e = Event.zmq_connect env.zmq_socket (BuildEndpoint cfg.endpoint) ∨
    e = Event.usleep 100000 ∨ e = Event.zmq_close env.zmq_socket ∨
    e = Event.zmq_ctx_term env.zmq_ctx_new ∨ e = Event.log)) s cfg env
    ?_ ?_ ?_ ?_ ?_ ?_ ?_ ?_ ?_ ?_
  all_goals intros
  all_goals dsimp only
  all_goals intro he
  all_goals simp only [List.mem_append, List.mem_cons, List.mem_singleton,
    List.not_mem_nil, or_false, false_or] at he
  all_goals casesm* _ ∨ _
  all_goals rename_i he'
  all_goals first
    | (subst he'; simp)
    | (apply h4 at he'; rcases he' with h | h | h | h | h <;> subst h <;> simp)
    | (apply hs at he'; rcases he' with h | h | h <;> subst h <;> simp)
    | (apply hl at he'; subst he'; simp)
    | (apply hc at he'; rcases he' with h | h | h <;> subst h <;> simp)

end ZMQWrapperImpl

namespace Context

/-! ### `Context::Init`, branch by branch -/

theorem Init_already_ctx (s : Impl) (cfg : Config) (env : InitEnv) (h0 : s.initialized = true) :
    Init s cfg env = ⟨ErrorCode.OK, s, []⟩ := by
  unfold Init
  simp only [h0, if_true]

theorem Init_context_failed_ctx (s : Impl) (cfg : Config) (env : InitEnv)
    (h0 : s.initialized = false) (h1 : env.zmq_ctx_new = 0) :
    Init s cfg env =
      ⟨ErrorCode.INIT_FAILED,
        { s with config := cfg, zmq_ctx := 0,
                 last_error := "ZeroMQ context creation failed".toList },
        [Event.zmq_ctx_new]⟩ := by
  unfold Init
  simp only [h0, Bool.false_eq_true, if_false, h1, if_true]

theorem Init_socket_failed_ctx (s : Impl) (cfg : Config) (env : InitEnv)
    (h0 : s.initialized = false) (h1 : env.zmq_ctx_new ≠ 0) (h2 : env.zmq_socket = 0) :
    Init s cfg env =
      ⟨ErrorCode.INIT_FAILED,
        { Init_s2 s cfg env with last_error := "ZeroMQ socket creation failed".toList },
        [Event.zmq_ctx_new, Event.zmq_socket env.zmq_ctx_new (socket_type cfg),
          Event.zmq_ctx_term env.zmq_ctx_new]⟩ := by
  unfold Init
  simp only [h0, Bool.false_eq_true, if_false, if_neg h1, h2, if_true, Init_s2,
    List.append_assoc, List.cons_append, List.nil_append]

theorem Init_path_too_long_ctx (s : Impl) (cfg : Config) (env : InitEnv)
    (h0 : s.initialized = false) (h1 : env.zmq_ctx_new ≠ 0) (h2 : env.zmq_socket ≠ 0)
    (h3 : cfg.endpoint.take 6 = "ipc://".toList ∧ (cfg.endpoint.drop 6).length > 108) :
    Init s cfg env =
      ⟨ErrorCode.PATH_TOO_LONG,
        { Init_s2 s cfg env with last_error := "Socket path too long".toList },
        Init_t3 cfg env⟩ := by
  unfold Init
  simp only [h0, Bool.false_eq_true, if_false, if_neg h1, if_neg h2, decide_eq_true_eq,
    if_pos h3, Init_s2, Init_t3, List.append_assoc, List.cons_append, List.nil_append]

theorem Init_socket_exists (s : Impl) (cfg : Config) (env : InitEnv)
    (h0 : s.initialized = false) (h1 : env.zmq_ctx_new ≠ 0) (h2 : env.zmq_socket ≠ 0)
    (h3 : ¬ (cfg.endpoint.take 6 = "ipc://".toList ∧ (cfg.endpoint.drop 6).length > 108))
    (h4 : cfg.endpoint.take 6 = "ipc://".toList ∧ cfg.mode = Mode.SERVER ∧ env.access = 0 ∧
      env.remove ≠ 0) :
    Init s cfg env =
      ⟨ErrorCode.SOCKET_EXISTS,
        { Init_s2 s cfg env with
          last_error := "Socket file exists and cannot be removed".toList },
        Init_t3 cfg env ++ Init_stale cfg env⟩ := by
  unfold Init
  simp only [h0, Bool.false_eq_true, if_false, if_neg h1, if_neg h2, decide_eq_true_eq,
    if_neg h3, if_pos h4, Init_s2, Init_t3, Init_stale, List.append_assoc, List.cons_append,
    List.nil_append]

theorem Init_attach_failed (s : Impl) (cfg : Config) (env : InitEnv)
    (h0 : s.initialized = false) (h1 : env.zmq_ctx_new ≠ 0) (h2 : env.zmq_socket ≠ 0)
    (h3 : ¬ (cfg.endpoint.take 6 = "ipc://".toList ∧ (cfg.endpoint.drop 6).length > 108))
    (h4 : ¬ (cfg.endpoint.take 6 = "ipc://".toList ∧ cfg.mode = Mode.SERVER ∧ env.access = 0 ∧
      env.remove ≠ 0))
    (h5 : (if cfg.mode = Mode.SERVER then env.zmq_bind else env.zmq_connect 0) ≠ 0) :
    Init s cfg env =
      ⟨ErrorCode.INIT_FAILED,
        { Init_s2 s cfg env with
          last_error := "Failed to bind/connect endpoint: ".toList ++ env.zmq_strerror },
        Init_t3 cfg env ++ Init_stale cfg env ++ [Init_attach cfg env] ++
          [Event.zmq_close env.zmq_socket, Event.zmq_ctx_term env.zmq_ctx_new]⟩ := by
  unfold Init
  simp only [h0, Bool.false_eq_true, if_false, if_neg h1, if_neg h2, decide_eq_true_eq,
    if_neg h3, if_neg h4, if_pos h5, Init_s2, Init_t3, Init_stale, Init_attach,
    List.append_assoc, List.cons_append, List.nil_append]

theorem Init_ok (s : Impl) (cfg : Config) (env : InitEnv)
    (h0 : s.initialized = false) (h1 : env.zmq_ctx_new ≠ 0) (h2 : env.zmq_socket ≠ 0)
    (h3 : ¬ (cfg.endpoint.take 6 = "ipc://".toList ∧ (cfg.endpoint.drop 6).length > 108))
    (h4 : ¬ (cfg.endpoint.take 6 = "ipc://".toList ∧ cfg.mode = Mode.SERVER ∧ env.access = 0 ∧
      env.remove ≠ 0))
    (h5 : (if cfg.mode = Mode.SERVER then env.zmq_bind else env.zmq_connect 0) = 0) :
    Init s cfg env =
      ⟨ErrorCode.OK, { Init_s2 s cfg env with initialized := true, closed := false },
        Init_t3 cfg env ++ Init_stale cfg env ++ [Init_attach cfg env] ++
          (Init_s2 s cfg env).log⟩ := by
  have h5' : ¬ (if cfg.mode = Mode.SERVER then env.zmq_bind else env.zmq_connect 0) ≠ 0 :=
    not_not.mpr h5
  unfold Init
  simp only [h0, Bool.false_eq_true, if_false, if_neg h1, if_neg h2, decide_eq_true_eq,
    if_neg h3, if_neg h4, if_neg h5', Init_s2, Init_t3, Init_stale, Init_attach, Impl.log,
    List.append_assoc, List.cons_append, List.nil_append]

/-- Case analysis on the branch `Context::Init` takes. -/
theorem Init_cases_ctx (P : Ret → Prop) (s : Impl) (cfg : Config) (env : InitEnv)
    (already : s.initialized = true → P ⟨ErrorCode.OK, s, []⟩)
    (context_failed : s.initialized = false → env.zmq_ctx_new = 0 →
      P ⟨ErrorCode.INIT_FAILED,
        { s with config := cfg, zmq_ctx := 0,
                 last_error := "ZeroMQ context creation failed".toList },
        [Event.zmq_ctx_new]⟩)
    (socket_failed : s.initialized = false → env.zmq_ctx_new ≠ 0 → env.zmq_socket = 0 →
      P ⟨ErrorCode.INIT_FAILED,
        { Init_s2 s cfg env with last_error := "ZeroMQ socket creation failed".toList },
        [Event.zmq_ctx_new, Event.zmq_socket env.zmq_ctx_new (socket_type cfg),
          Event.zmq_ctx_term env.zmq_ctx_new]⟩)
    (path_too_long : s.initialized = false → env.zmq_ctx_new ≠ 0 → env.zmq_socket ≠ 0 →
      cfg.endpoint.take 6 = "ipc://".toList ∧ (cfg.endpoint.drop 6).length > 108 →
      P ⟨ErrorCode.PATH_TOO_LONG,
        { Init_s2 s cfg env with last_error := "Socket path too long".toList },
        Init_t3 cfg env⟩)
    (socket_exists : s.initialized = false → env.zmq_ctx_new ≠ 0 → env.zmq_socket ≠ 0 →
      ¬ (cfg.endpoint.take 6 = "ipc://".toList ∧ (cfg.endpoint.drop 6).length > 108) →
      cfg.endpoint.take 6 = "ipc://".toList ∧ cfg.mode = Mode.SERVER ∧ env.access = 0 ∧
        env.remove ≠ 0 →
      P ⟨ErrorCode.SOCKET_EXISTS,
        { Init_s2 s cfg env with
          last_error := "Socket file exists and cannot be removed".toList },
        Init_t3 cfg env ++ Init_stale cfg env⟩)
    (attach_failed : s.initialized = false → env.zmq_ctx_new ≠ 0 → env.zmq_socket ≠ 0 →
      ¬ (cfg.endpoint.take 6 = "ipc://".toList ∧ (cfg.endpoint.drop 6).length > 108) →
      ¬ (cfg.endpoint.take 6 = "ipc://".toList ∧ cfg.mode = Mode.SERVER ∧ env.access = 0 ∧
        env.remove ≠ 0) →
      (if cfg.mode = Mode.SERVER then env.zmq_bind else env.zmq_connect 0) ≠ 0 →
      P ⟨ErrorCode.INIT_FAILED,
        { Init_s2 s cfg env with
          last_error := "Failed to bind/connect endpoint: ".toList ++ env.zmq_strerror },
        Init_t3 cfg env ++ Init_stale cfg env ++ [Init_attach cfg env] ++
          [Event.zmq_close env.zmq_socket, Event.zmq_ctx_term env.zmq_ctx_new]⟩)
    (ok : s.initialized = false → env.zmq_ctx_new ≠ 0 → env.zmq_socket ≠ 0 →
      ¬ (cfg.endpoint.take 6 = "ipc://".toList ∧ (cfg.endpoint.drop 6).length > 108) →
      ¬ (cfg.endpoint.take 6 = "ipc://".toList ∧ cfg.mode = Mode.SERVER ∧ env.access = 0 ∧
        env.remove ≠ 0) →
      (if cfg.mode = Mode.SERVER then env.zmq_bind else env.zmq_connect 0) = 0 →
      P ⟨ErrorCode.OK, { Init_s2 s cfg env with initialized := true, closed := false },
        Init_t3 cfg env ++ Init_stale cfg env ++ [Init_attach cfg env] ++
          (Init_s2 s cfg env).log⟩) :
    P (Init s cfg env) := by
  by_cases h0 : s.initialized = true
  · rw [Init_already_ctx s cfg env h0]; exact already h0
  have h0 : s.initialized = false := by simpa using h0
  by_cases h1 : env.zmq_ctx_new = 0
  · rw [Init_context_failed_ctx s cfg env h0 h1]; exact context_failed h0 h1
  by_cases h2 : env.zmq_socket = 0
  · rw [Init_socket_failed_ctx s cfg env h0 h1 h2]; exact socket_failed h0 h1 h2
  by_cases h3 : cfg.endpoint.take 6 = "ipc://".toList ∧ (cfg.endpoint.drop 6).length > 108
  · rw [Init_path_too_long_ctx s cfg env h0 h1 h2 h3]; exact path_too_long h0 h1 h2 h3
  by_cases h4 : cfg.endpoint.take 6 = "ipc://".toList ∧ cfg.mode = Mode.SERVER ∧
      env.access = 0 ∧ env.remove ≠ 0
  · rw [Init_socket_exists s cfg env h0 h1 h2 h3 h4]; exact socket_exists h0 h1 h2 h3 h4
  by_cases h5 : (if cfg.mode = Mode.SERVER then env.zmq_bind else env.zmq_connect 0) = 0
  · rw [Init_ok s cfg env h0 h1 h2 h3 h4 h5]; exact ok h0 h1 h2 h3 h4 h5
  · rw [Init_attach_failed s cfg env h0 h1 h2 h3 h4 h5]; exact attach_failed h0 h1 h2 h3 h4 h5

/-! ### The calls of `Context::Init` -/

theorem Init_t3_mem (cfg : Config) (env : InitEnv) (e : Event) (h : e ∈ Init_t3 cfg env) :
    e = Event.zmq_ctx_new ∨ e = Event.zmq_socket env.zmq_ctx_new (socket_type cfg) ∨
      e = Event.zmq_setsockopt_int env.zmq_socket ZMQ_RCVTIMEO cfg.recv_timeout_ms ∨
      e = Event.zmq_setsockopt_int env.zmq_socket ZMQ_SNDTIMEO cfg.send_timeout_ms ∨
      e = Event.zmq_setsockopt_str env.zmq_socket ZMQ_SUBSCRIBE [] := by
  unfold Init_t3 at h
  split_ifs at h <;> simp at h <;> tauto

theorem Init_stale_mem_ctx (cfg : Config) (env : InitEnv) (e : Event)
    (h : e ∈ Init_stale cfg env) :
    e = Event.access (cfg.endpoint.drop 6) ∨ e = Event.remove (cfg.endpoint.drop 6) := by
  unfold Init_stale at h
  split_ifs at h <;> simp at h <;> tauto

theorem Init_attach_eq (cfg : Config) (env : InitEnv) (e : Event)
    (h : e = Init_attach cfg env) :
    e = Event.zmq_bind env.zmq_socket cfg.endpoint ∨
      e = Event.zmq_connect env.zmq_socket cfg.endpoint := by
  unfold Init_attach at h
  split_ifs at h <;> simp [h]

theorem log_mem (s : Impl) (e : Event) (h : e ∈ s.log) : e = Event.log := by
  unfold Impl.log at h
  split_ifs at h <;> simp at h
  exact h

/-- Every call `Context::Init` makes is one of these. -/
theorem Init_trace_mem_ctx (s : Impl) (cfg : Config) (env : InitEnv) (e : Event)
    (h : e ∈ (Init s cfg env).trace) :
    e = Event.zmq_ctx_new ∨ e = Event.zmq_socket env.zmq_ctx_new (socket_type cfg) ∨
    e = Event.zmq_setsockopt_int env.zmq_socket ZMQ_RCVTIMEO cfg.recv_timeout_ms ∨
    e = Event.zmq_setsockopt_int env.zmq_socket ZMQ_SNDTIMEO cfg.send_timeout_ms ∨
    e = Event.zmq_setsockopt_str env.zmq_socket ZMQ_SUBSCRIBE [] ∨
    e = Event.access (cfg.endpoint.drop 6) ∨ e = Event.remove (cfg.endpoint.drop 6) ∨
    e = Event.zmq_bind env.zmq_socket cfg.endpoint ∨
    e = Event.zmq_connect env.zmq_socket cfg.endpoint ∨
    e = Event.zmq_close env.zmq_socket ∨ e = Event.zmq_ctx_term env.zmq_ctx_new ∨
    e = Event.log := by
  have h3 := Init_t3_mem cfg env e
  have hs := Init_stale_mem_ctx cfg env e
  have ha := Init_attach_eq cfg env e
  have hl := log_mem (Init_s2 s cfg env) e
  revert h
  refine Init_cases_ctx (fun r => e ∈ r.trace →
    (e = Event.zmq_ctx_new ∨ e = Event.zmq_socket env.zmq_ctx_new (socket_type cfg) ∨
    e = Event.zmq_setsockopt_int env.zmq_socket ZMQ_RCVTIMEO cfg.recv_timeout_ms ∨
    e = Event.zmq_setsockopt_int env.zmq_socket ZMQ_SNDTIMEO cfg.send_timeout_ms ∨
    e = Event.zmq_setsockopt_str env.zmq_socket ZMQ_SUBSCRIBE [] ∨
    e = Event.access (cfg.endpoint.drop 6) ∨ e = Event.remove (cfg.endpoint.drop 6) ∨
    e = Event.zmq_bind env.zmq_socket cfg.endpoint ∨
    e = Event.zmq_connect env.zmq_socket cfg.endpoint ∨
    e = Event.zmq_close env.zmq_socket ∨ e = Event.zmq_ctx_term env.zmq_ctx_new ∨
    e = Event.log)) s cfg env ?_ ?_ ?_ ?_ ?_ ?_ ?_
  all_goals intros
  all_goals dsimp only
  all_goals intro he
  all_goals simp only [List.mem_append, List.mem_cons, List.mem_singleton,
    List.not_mem_nil, or_false, false_or] at he
  all_goals first
    | (subst e; simp)
    | (apply h3 at he; rcases he with h | h | h | h | h <;> subst h <;> simp)
    | skip
  all_goals casesm* _ ∨ _
  all_goals rename_i he'
  all_goals first
    | (apply ha at he'; rcases he' with h | h <;> subst h <;> simp)
    | (subst he'; simp)
    | (apply h3 at he'; rcases he' with h | h | h | h | h <;> subst h <;> simp)
    | (apply hs at he'; rcases he' with h | h <;> subst h <;> simp)
    | (apply hl at he'; subst he'; simp)

/-! ### `SendMessage`, `ReceiveMessage`, `Close` of `Context` -/

theorem SendMessage_initialized (s : Impl) (msg : StdString) (env : SendEnv) :
    (SendMessage s msg env).impl.initialized = s.initialized := by
  unfold SendMessage
  simp only [apply_ite Ret.impl, apply_ite Impl.initialized, ite_self]

theorem ReceiveMessage_initialized (s : Impl) (out_msg : StdString) (env : RecvEnv) :
    (ReceiveMessage s out_msg env).impl.initialized = s.initialized := by
  unfold ReceiveMessage
  simp only [apply_ite RecvRet.impl, apply_ite Impl.initialized, ite_self]

theorem Close_initialized (s : Impl) : (Close s).impl.initialized = s.initialized := by
  unfold Close
  simp only [apply_ite Ret.impl, apply_ite Impl.initialized, ite_self]

theorem Close_closed (s : Impl) : (Close s).impl.closed = true := by
  unfold Close
  cases h : s.closed <;> simp [h]

theorem Close_code (s : Impl) : (Close s).code = ErrorCode.OK := by
  unfold Close
  simp only [apply_ite Ret.code, ite_self]

end Context

namespace ZMQWrapperImpl

/-! ### `SendMessage`, `ReceiveMessage`, `Subscribe` on an initialized object -/

theorem SendMessage_sent (s : ZMQWrapperImpl) (message : StdString) (env : SendEnv)
    (hi : s.initialized = true) (hsock : s.socket ≠ 0)
    (hlen : message.length ≤ MAX_MESSAGE_SIZE) :
    s.SendMessage message env =
      ⟨if env.zmq_send < 0 then ErrorCode.ERROR_SEND_FAILED else ErrorCode.SUCCESS, s,
        [Event.zmq_send s.socket message] ++ s.Log⟩ := by
  have hlen' : ¬ message.length > MAX_MESSAGE_SIZE := not_lt.mpr hlen
  have hdata : (if message = [] then [] else message) = message := by
    split_ifs with h
    · exact h.symm
    · rfl
  unfold SendMessage
  simp only [hi, hsock, Bool.not_true, decide_False, Bool.or_self, Bool.false_eq_true,
    if_false, if_neg hlen', hdata]
  split_ifs <;> rfl

theorem ReceiveMessage_delivered (s : ZMQWrapperImpl) (message : StdString) (env : RecvEnv)
    (hi : s.initialized = true) (hsock : s.socket ≠ 0) (hinit : env.zmq_msg_init = 0)
    (hrecv : 0 ≤ env.zmq_msg_recv) (hlen : env.zmq_msg_data.length ≤ MAX_MESSAGE_SIZE) :
    s.ReceiveMessage message env =
      ⟨ErrorCode.SUCCESS, s, env.zmq_msg_data,
        [Event.zmq_msg_init, Event.zmq_msg_recv s.socket, Event.zmq_msg_close] ++ s.Log⟩ := by
  have hinit' : ¬ env.zmq_msg_init ≠ 0 := not_not.mpr hinit
  have hrecv' : ¬ env.zmq_msg_recv < 0 := not_lt.mpr hrecv
  have hlen' : ¬ env.zmq_msg_data.length > MAX_MESSAGE_SIZE := not_lt.mpr hlen
  unfold ReceiveMessage
  simp only [hi, hsock, Bool.not_true, decide_False, Bool.or_self, Bool.false_eq_true,
    if_false, if_neg hinit', if_neg hrecv', if_neg hlen', List.take_length,
    List.append_assoc, List.cons_append, List.nil_append]

/-! ### The concrete wrappers -/

theorem readyClient_reachable : Reachable readyClient :=
  Reachable.Init _ _ _ Reachable.new

theorem readyClient_eq :
    readyClient = { Init_s3 new test_req_rep_pattern_client initEnvOk with
      initialized := true } :=
  (Init_success new test_req_rep_pattern_client initEnvOk rfl (by decide) (by decide)
    (by decide) (by decide) (by decide) (fun h => absurd h (by decide))
    (fun _ => ⟨0, by decide, rfl⟩)).2

theorem readyClient_initialized : readyClient.IsInitialized = true := by
  rw [readyClient_eq]
  rfl

theorem readySubscriber_reachable : Reachable readySubscriber :=
  Reachable.Init _ _ _ Reachable.new

theorem readySubscriber_eq :
    readySubscriber = { Init_s3 new test_pub_sub_client initEnvOk with
      initialized := true } :=
  (Init_success new test_pub_sub_client initEnvOk rfl (by decide) (by decide)
    (by decide) (by decide) (by decide) (fun h => absurd h (by decide))
    (fun _ => ⟨0, by decide, rfl⟩)).2

theorem readySubscriber_initialized : readySubscriber.IsInitialized = true := by
  rw [readySubscriber_eq]
  rfl

end ZMQWrapperImpl

/-! ### `GetErrorMessage` -/

theorem GetErrorMessage_other (code : Int) (h : code < -13 ∨ 0 < code) :
    ZMQWrapper.GetErrorMessage code = "Unknown error".toList := by
  have h0 : ¬ code = 0 := by omega
  have h1 : ¬ code = -1 := by omega
  have h2 : ¬ code = -2 := by omega
  have h3 : ¬ code = -3 := by omega
  have h4 : ¬ code = -4 := by omega
  have h5 : ¬ code = -5 := by omega
  have h6 : ¬ code = -6 := by omega
  have h7 : ¬ code = -7 := by omega
  have h8 : ¬ code = -8 := by omega
  have h9 : ¬ code = -9 := by omega
  have h10 : ¬ code = -10 := by omega
  have h11 : ¬ code = -11 := by omega
  have h12 : ¬ code = -12 := by omega
  have h13 : ¬ code = -13 := by omega
  unfold ZMQWrapper.GetErrorMessage
  simp only [ErrorCode.toInt]
  rw [if_neg h0, if_neg h1, if_neg h2, if_neg h3, if_neg h4, if_neg h5, if_neg h6, if_neg h7,
    if_neg h8, if_neg h9, if_neg h10, if_neg h11, if_neg h12, if_neg h13]

/-! ### The filesystem model -/

theorem Fs.after_append (bind_rc : Int) (fs : Fs) (t1 t2 : List Event) :
    Fs.after bind_rc fs (t1 ++ t2) = Fs.after bind_rc (Fs.after bind_rc fs t1) t2 := by
  unfold Fs.after
  rw [List.foldl_append]

theorem Fs.after_cons (bind_rc : Int) (fs : Fs) (e : Event) (t : List Event) :
    Fs.after bind_rc fs (e :: t) = Fs.after bind_rc (Fs.step bind_rc fs e) t := rfl

theorem Fs.after_nil (bind_rc : Int) (fs : Fs) : Fs.after bind_rc fs [] = fs := rfl

theorem Fs.agrees_cons (a r b : Int) (fs : Fs) (e : Event) (t : List Event) :
    Fs.agrees a r b fs (e :: t) =
      ((match e with
        | Event.access p => decide (a = 0 ↔ p ∈ fs)
        | Event.remove _ => decide (r = 0)
        | Event.zmq_bind _ endpoint => decide (endpoint.drop 6 ∉ fs → b = 0)
        | _ => true) &&
      Fs.agrees a r b (Fs.step b fs e) t) := rfl

theorem Fs.agrees_append (a r b : Int) (fs : Fs) (t1 t2 : List Event) :
    Fs.agrees a r b fs (t1 ++ t2) =
      (Fs.agrees a r b fs t1 && Fs.agrees a r b (Fs.after b fs t1) t2) := by
  induction t1 generalizing fs with
  | nil => simp [Fs.agrees, Fs.after_nil]
  | cons e t ih =>
    rw [List.cons_append, Fs.agrees_cons, Fs.agrees_cons, ih, Fs.after_cons, Bool.and_assoc]

/-- A trace without a bind creates no file. -/
theorem Fs.after_subset (bind_rc : Int) (t : List Event) (hb : bindCalls t = 0) (fs : Fs)
    (q : StdString) (hq : q ∈ Fs.after bind_rc fs t) : q ∈ fs := by
  induction t generalizing fs with
  | nil => exact hq
  | cons e t ih =>
    rw [Fs.after_cons] at hq
    have hb' : bindCalls t = 0 := by
      unfold bindCalls at hb ⊢
      rw [List.countP_cons] at hb
      omega
    have := ih hb' _ hq
    cases e <;> simp [Fs.step] at this <;> first | exact this | exact this.1 | skip
    unfold bindCalls at hb
    simp [List.countP_cons] at hb

/-- A removal of `p` that nothing undoes leaves no file at `p`. -/
theorem Fs.after_not_mem (bind_rc : Int) (t : List Event) (hb : bindCalls t = 0) (fs : Fs)
    (p : StdString) (hp : p ∉ fs) : p ∉ Fs.after bind_rc fs t :=
  fun h => hp (Fs.after_subset bind_rc t hb fs p h)

theorem Fs.agrees_bind (a r b : Int) (fs : Fs) (pre post : List Event) (socket : Handle)
    (endpoint : StdString)
    (h : Fs.agrees a r b fs (pre ++ Event.zmq_bind socket endpoint :: post) = true)
    (hp : endpoint.drop 6 ∉ Fs.after b fs pre) : b = 0 := by
  rw [Fs.agrees_append, Fs.agrees_cons] at h
  simp only [Bool.and_eq_true, decide_eq_true_eq] at h
  exact h.2.1 hp

theorem ipc_take (p : StdString) : ("ipc://".toList ++ p).take 6 = "ipc://".toList := rfl

theorem ipc_drop (p : StdString) : ("ipc://".toList ++ p).drop 6 = p := rfl

theorem ipc_ne_nil (p : StdString) : "ipc://".toList ++ p ≠ [] := by
  intro h
  have := congrArg List.length h
  simp at this

namespace ZMQWrapperImpl

theorem BuildEndpoint_ipc (p : StdString) :
    BuildEndpoint ("ipc://".toList ++ p) = "ipc://".toList ++ p := by
  unfold BuildEndpoint
  rw [if_pos (ipc_ne_nil p)]

/-- What a successful `Init` in SERVER mode tells about the config and the
answers it got. -/
theorem Init_server_success (s : ZMQWrapperImpl) (cfg : Config) (env : InitEnv)
    (hm : cfg.mode = Mode.SERVER)
    (hc : (s.Init cfg env).code = ErrorCode.SUCCESS) :
    0 ≤ cfg.timeout_ms ∧ env.zmq_ctx_new ≠ 0 ∧ 0 ≤ GetSocketType cfg.pattern cfg.mode ∧
    env.zmq_socket ≠ 0 ∧ (BuildEndpoint cfg.endpoint).length < MAX_PATH_LENGTH ∧
    env.zmq_bind = 0 := by
  revert hc
  refine Init_cases (fun r => r.code = ErrorCode.SUCCESS →
    0 ≤ cfg.timeout_ms ∧ env.zmq_ctx_new ≠ 0 ∧ 0 ≤ GetSocketType cfg.pattern cfg.mode ∧
    env.zmq_socket ≠ 0 ∧ (BuildEndpoint cfg.endpoint).length < MAX_PATH_LENGTH ∧
    env.zmq_bind = 0) s cfg env ?_ ?_ ?_ ?_ ?_ ?_ ?_ ?_ ?_ ?_
  all_goals intros
  all_goals dsimp only
  all_goals intro hcode
  all_goals first
    | contradiction
    | split_ifs at hcode
    | (refine ⟨?_, ?_, ?_, ?_, ?_, ?_⟩ <;> assumption)

end ZMQWrapperImpl

theorem Fs.agrees_access (a r b : Int) (fs : Fs) (pre post : List Event) (path : StdString)
    (h : Fs.agrees a r b fs (pre ++ Event.access path :: post) = true) :
    a = 0 ↔ path ∈ Fs.after b fs pre := by
  rw [Fs.agrees_append, Fs.agrees_cons] at h
  simp only [Bool.and_eq_true, decide_eq_true_eq] at h
  exact h.2.1

namespace Context

/-- What an `Init` that returns `OK` on a Context not yet initialized tells
about the config and the answers it got. -/
theorem Init_ok_inv (s : Impl) (cfg : Config) (env : InitEnv) (h0 : s.initialized = false)
    (hc : (Init s cfg env).code = ErrorCode.OK) :
    env.zmq_ctx_new ≠ 0 ∧ env.zmq_socket ≠ 0 ∧
    ¬ (cfg.endpoint.take 6 = "ipc://".toList ∧ (cfg.endpoint.drop 6).length > 108) ∧
    ¬ (cfg.endpoint.take 6 = "ipc://".toList ∧ cfg.mode = Mode.SERVER ∧ env.access = 0 ∧
      env.remove ≠ 0) ∧
    (if cfg.mode = Mode.SERVER then env.zmq_bind else env.zmq_connect 0) = 0 := by
  revert hc
  refine Init_cases_ctx (fun r => r.code = ErrorCode.OK →
    env.zmq_ctx_new ≠ 0 ∧ env.zmq_socket ≠ 0 ∧
    ¬ (cfg.endpoint.take 6 = "ipc://".toList ∧ (cfg.endpoint.drop 6).length > 108) ∧
    ¬ (cfg.endpoint.take 6 = "ipc://".toList ∧ cfg.mode = Mode.SERVER ∧ env.access = 0 ∧
      env.remove ≠ 0) ∧
    (if cfg.mode = Mode.SERVER then env.zmq_bind else env.zmq_connect 0) = 0) s cfg env
    ?_ ?_ ?_ ?_ ?_ ?_ ?_
  all_goals intros
  all_goals dsimp only
  all_goals intro hcode
  all_goals first
    | contradiction
    | (rw [h0] at *; contradiction)
    | (refine ⟨?_, ?_, ?_, ?_, ?_⟩ <;> assumption)

end Context

namespace Context

/-! ### `Context::ReceiveMessage`, branch by branch -/

theorem ReceiveMessage_failed (s : Impl) (out_msg : StdString) (env : RecvEnv)
    (hi : s.initialized = true) (hc : s.closed = false) (hfail : env.zmq_recv < 0) :
    ReceiveMessage s out_msg env =
      ⟨ErrorCode.RECV_FAILED,
        { s with last_error :=
            if env.zmq_errno = EAGAIN then "Receive timeout".toList
            else "Receive failed: ".toList ++ env.zmq_strerror },
        out_msg, [Event.zmq_recv s.zmq_sock BUF_SIZE]⟩ := by
  unfold ReceiveMessage
  simp only [hi, hc, Bool.not_true, Bool.or_self, Bool.false_eq_true, if_false, if_pos hfail]
  split_ifs <;> rfl

theorem ReceiveMessage_ok (s : Impl) (out_msg : StdString) (env : RecvEnv)
    (hi : s.initialized = true) (hc : s.closed = false) (hrecv : 0 ≤ env.zmq_recv) :
    ReceiveMessage s out_msg env =
      ⟨ErrorCode.OK, s,
        ((env.payload.take BUF_SIZE ++
            List.replicate (BUF_SIZE - env.payload.length) (Char.ofNat 0)) ++
          (List.range (env.zmq_recv.toNat - BUF_SIZE)).map env.beyond).take env.zmq_recv.toNat,
        [Event.zmq_recv s.zmq_sock BUF_SIZE] ++ s.log⟩ := by
  have hrecv' : ¬ env.zmq_recv < 0 := not_lt.mpr hrecv
  unfold ReceiveMessage
  simp only [hi, hc, Bool.not_true, Bool.or_self, Bool.false_eq_true, if_false, if_neg hrecv']

end Context

namespace Context

/-- The result code of `Context::Init`, which the timeouts of the config do
not enter. -/
theorem Init_code (s : Impl) (cfg : Config) (env : InitEnv) :
    (Init s cfg env).code =
      if s.initialized then ErrorCode.OK
      else if env.zmq_ctx_new = 0 then ErrorCode.INIT_FAILED
      else if env.zmq_socket = 0 then ErrorCode.INIT_FAILED
      else if cfg.endpoint.take 6 = "ipc://".toList ∧ (cfg.endpoint.drop 6).length > 108 then
        ErrorCode.PATH_TOO_LONG
      else if cfg.endpoint.take 6 = "ipc://".toList ∧ cfg.mode = Mode.SERVER ∧
          env.access = 0 ∧ env.remove ≠ 0 then ErrorCode.SOCKET_EXISTS
      else if (if cfg.mode = Mode.SERVER then env.zmq_bind else env.zmq_connect 0) ≠ 0 then
        ErrorCode.INIT_FAILED
      else ErrorCode.OK := by
  by_cases h0 : s.initialized = true
  · rw [Init_already_ctx s cfg env h0, if_pos h0]
  have h0' : s.initialized = false := by simpa using h0
  rw [if_neg h0]
  by_cases h1 : env.zmq_ctx_new = 0
  · rw [Init_context_failed_ctx s cfg env h0' h1, if_pos h1]
  rw [if_neg h1]
  by_cases h2 : env.zmq_socket = 0
  · rw [Init_socket_failed_ctx s cfg env h0' h1 h2, if_pos h2]
  rw [if_neg h2]
  by_cases h3 : cfg.endpoint.take 6 = "ipc://".toList ∧ (cfg.endpoint.drop 6).length > 108
  · rw [Init_path_too_long_ctx s cfg env h0' h1 h2 h3, if_pos h3]
  rw [if_neg h3]
  by_cases h4 : cfg.endpoint.take 6 = "ipc://".toList ∧ cfg.mode = Mode.SERVER ∧
      env.access = 0 ∧ env.remove ≠ 0
  · rw [Init_socket_exists s cfg env h0' h1 h2 h3 h4, if_pos h4]
  rw [if_neg h4]
  by_cases h5 : (if cfg.mode = Mode.SERVER then env.zmq_bind else env.zmq_connect 0) = 0
  · rw [Init_ok s cfg env h0' h1 h2 h3 h4 h5, if_neg (not_not.mpr h5)]
  · rw [Init_attach_failed s cfg env h0' h1 h2 h3 h4 h5, if_pos h5]

end Context

namespace Context

/-! ### Releases in the trace of `Context::Init` -/

theorem Init_t3_release (cfg : Config) (env : InitEnv) (h : Handle) :
    closeCalls h (Init_t3 cfg env) = 0 ∧ termCalls h (Init_t3 cfg env) = 0 := by
  constructor
  · apply List.count_eq_zero.mpr
    intro hm
    rcases Init_t3_mem cfg env _ hm with e | e | e | e | e <;> cases e
  · apply List.count_eq_zero.mpr
    intro hm
    rcases Init_t3_mem cfg env _ hm with e | e | e | e | e <;> cases e

theorem Init_stale_release (cfg : Config) (env : InitEnv) (h : Handle) :
    closeCalls h (Init_stale cfg env) = 0 ∧ termCalls h (Init_stale cfg env) = 0 := by
  constructor
  · apply List.count_eq_zero.mpr
    intro hm
    rcases Init_stale_mem_ctx cfg env _ hm with e | e <;> cases e
  · apply List.count_eq_zero.mpr
    intro hm
    rcases Init_stale_mem_ctx cfg env _ hm with e | e <;> cases e

theorem Init_attach_release (cfg : Config) (env : InitEnv) (h : Handle) :
    closeCalls h [Init_attach cfg env] = 0 ∧ termCalls h [Init_attach cfg env] = 0 := by
  constructor
  · apply List.count_eq_zero.mpr
    intro hm
    rcases Init_attach_eq cfg env _ (List.mem_singleton.mp hm) with e | e <;> cases e
  · apply List.count_eq_zero.mpr
    intro hm
    rcases Init_attach_eq cfg env _ (List.mem_singleton.mp hm) with e | e <;> cases e

theorem log_release (s : Impl) (h : Handle) :
    closeCalls h s.log = 0 ∧ termCalls h s.log = 0 := by
  constructor
  · apply List.count_eq_zero.mpr
    intro hm
    cases log_mem s _ hm
  · apply List.count_eq_zero.mpr
    intro hm
    cases log_mem s _ hm

theorem closeCalls_append (h : Handle) (t u : List Event) :
    closeCalls h (t ++ u) = closeCalls h t + closeCalls h u :=
  List.count_append _ _ _

theorem termCalls_append (h : Handle) (t u : List Event) :
    termCalls h (t ++ u) = termCalls h t + termCalls h u :=
  List.count_append _ _ _

/-- What `Context::Close` does to an object that is not marked closed. -/
theorem Close_open (s : Impl) (hc : s.closed = false) :
    Close s =
      ⟨ErrorCode.OK, { s with zmq_sock := 0, zmq_ctx := 0, closed := true },
        (if s.zmq_sock ≠ 0 then [Event.zmq_close s.zmq_sock] else []) ++
        (if s.zmq_ctx ≠ 0 then [Event.zmq_ctx_term s.zmq_ctx] else []) ++
        (if s.config.endpoint.take 6 = "ipc://".toList ∧ s.config.mode = Mode.SERVER then
          [Event.remove (s.config.endpoint.drop 6)] else []) ++
        ({ s with zmq_sock := 0, zmq_ctx := 0, closed := true } : Impl).log⟩ := by
  unfold Close
  simp only [hc, Bool.false_eq_true, if_false]

/-- The releases `Context::Close` makes on an object that is not marked
closed: one for each handle it holds. -/
theorem Close_release (s : Impl) (hc : s.closed = false) (h : Handle) :
    closeCalls h (Close s).trace = (if s.zmq_sock ≠ 0 ∧ s.zmq_sock = h then 1 else 0) ∧
    termCalls h (Close s).trace = (if s.zmq_ctx ≠ 0 ∧ s.zmq_ctx = h then 1 else 0) := by
  rw [Close_open s hc]
  simp only [closeCalls_append, termCalls_append, log_release]
  constructor
  · simp only [closeCalls]
    split_ifs <;> simp_all [List.count_cons]
  · simp only [termCalls]
    split_ifs <;> simp_all [List.count_cons]

end Context

namespace Context

/-! ### The releases of `Context::Init`, branch by branch -/

theorem Init_socket_failed_release (s : Impl) (cfg : Config) (env : InitEnv)
    (h0 : s.initialized = false) (h1 : env.zmq_ctx_new ≠ 0) (h2 : env.zmq_socket = 0)
    (h : Handle) :
    closeCalls h (Init s cfg env).trace = 0 ∧
    termCalls env.zmq_ctx_new (Init s cfg env).trace = 1 := by
  rw [Init_socket_failed_ctx s cfg env h0 h1 h2]
  constructor
  · simp [closeCalls, List.count_cons]
  · simp [termCalls, List.count_cons]

theorem Init_path_too_long_release (s : Impl) (cfg : Config) (env : InitEnv)
    (h0 : s.initialized = false) (h1 : env.zmq_ctx_new ≠ 0) (h2 : env.zmq_socket ≠ 0)
    (h3 : cfg.endpoint.take 6 = "ipc://".toList ∧ (cfg.endpoint.drop 6).length > 108)
    (h : Handle) :
    closeCalls h (Init s cfg env).trace = 0 ∧ termCalls h (Init s cfg env).trace = 0 := by
  rw [Init_path_too_long_ctx s cfg env h0 h1 h2 h3]
  exact Init_t3_release cfg env h

theorem Init_socket_exists_release (s : Impl) (cfg : Config) (env : InitEnv)
    (h0 : s.initialized = false) (h1 : env.zmq_ctx_new ≠ 0) (h2 : env.zmq_socket ≠ 0)
    (h3 : ¬ (cfg.endpoint.take 6 = "ipc://".toList ∧ (cfg.endpoint.drop 6).length > 108))
    (h4 : cfg.endpoint.take 6 = "ipc://".toList ∧ cfg.mode = Mode.SERVER ∧ env.access = 0 ∧
      env.remove ≠ 0)
    (h : Handle) :
    closeCalls h (Init s cfg env).trace = 0 ∧ termCalls h (Init s cfg env).trace = 0 := by
  rw [Init_socket_exists s cfg env h0 h1 h2 h3 h4]
  simp only [closeCalls_append, termCalls_append, Init_t3_release, Init_stale_release,
    and_self]

theorem Init_attach_failed_release (s : Impl) (cfg : Config) (env : InitEnv)
    (h0 : s.initialized = false) (h1 : env.zmq_ctx_new ≠ 0) (h2 : env.zmq_socket ≠ 0)
    (h3 : ¬ (cfg.endpoint.take 6 = "ipc://".toList ∧ (cfg.endpoint.drop 6).length > 108))
    (h4 : ¬ (cfg.endpoint.take 6 = "ipc://".toList ∧ cfg.mode = Mode.SERVER ∧ env.access = 0 ∧
      env.remove ≠ 0))
    (h5 : (if cfg.mode = Mode.SERVER then env.zmq_bind else env.zmq_connect 0) ≠ 0) :
    closeCalls env.zmq_socket (Init s cfg env).trace = 1 ∧
    termCalls env.zmq_ctx_new (Init s cfg env).trace = 1 := by
  rw [Init_attach_failed s cfg env h0 h1 h2 h3 h4 h5]
  simp only [closeCalls_append, termCalls_append, Init_t3_release, Init_stale_release,
    Init_attach_release]
  constructor
  · simp [closeCalls, List.count_cons]
  · simp [termCalls, List.count_cons]

theorem Init_ok_release (s : Impl) (cfg : Config) (env : InitEnv)
    (h0 : s.initialized = false) (h1 : env.zmq_ctx_new ≠ 0) (h2 : env.zmq_socket ≠ 0)
    (h3 : ¬ (cfg.endpoint.take 6 = "ipc://".toList ∧ (cfg.endpoint.drop 6).length > 108))
    (h4 : ¬ (cfg.endpoint.take 6 = "ipc://".toList ∧ cfg.mode = Mode.SERVER ∧ env.access = 0 ∧
      env.remove ≠ 0))
    (h5 : (if cfg.mode = Mode.SERVER then env.zmq_bind else env.zmq_connect 0) = 0)
    (h : Handle) :
    closeCalls h (Init s cfg env).trace = 0 ∧ termCalls h (Init s cfg env).trace = 0 := by
  rw [Init_ok s cfg env h0 h1 h2 h3 h4 h5]
  simp only [closeCalls_append, termCalls_append, Init_t3_release, Init_stale_release,
    Init_attach_release, log_release, and_self]

end Context

namespace Context

/-! ### `Init` followed by `Close` -/

theorem Close_again (s : Impl) (hc : s.closed = true) : Close s = ⟨ErrorCode.OK, s, []⟩ := by
  unfold Close
  simp only [hc, if_true]

/-- The handles and the `closed` flag after an `Init` that ran on an object
not yet initialized and got its context. -/
theorem Init_handles (s : Impl) (cfg : Config) (env : InitEnv)
    (h0 : s.initialized = false) (h1 : env.zmq_ctx_new ≠ 0) :
    (Init s cfg env).impl.zmq_ctx = env.zmq_ctx_new ∧
    (Init s cfg env).impl.zmq_sock = env.zmq_socket ∧
    ((Init s cfg env).code ≠ ErrorCode.OK → (Init s cfg env).impl.closed = s.closed) ∧
    ((Init s cfg env).code = ErrorCode.OK → (Init s cfg env).impl.closed = false) := by
  by_cases h2 : env.zmq_socket = 0
  · rw [Init_socket_failed_ctx s cfg env h0 h1 h2]
    exact ⟨rfl, rfl, fun _ => rfl, fun h => ErrorCode.noConfusion h⟩
  by_cases h3 : cfg.endpoint.take 6 = "ipc://".toList ∧ (cfg.endpoint.drop 6).length > 108
  · rw [Init_path_too_long_ctx s cfg env h0 h1 h2 h3]
    exact ⟨rfl, rfl, fun _ => rfl, fun h => ErrorCode.noConfusion h⟩
  by_cases h4 : cfg.endpoint.take 6 = "ipc://".toList ∧ cfg.mode = Mode.SERVER ∧
      env.access = 0 ∧ env.remove ≠ 0
  · rw [Init_socket_exists s cfg env h0 h1 h2 h3 h4]
    exact ⟨rfl, rfl, fun _ => rfl, fun h => ErrorCode.noConfusion h⟩
  by_cases h5 : (if cfg.mode = Mode.SERVER then env.zmq_bind else env.zmq_connect 0) = 0
  · rw [Init_ok s cfg env h0 h1 h2 h3 h4 h5]
    exact ⟨rfl, rfl, fun h => absurd rfl h, fun _ => rfl⟩
  · rw [Init_attach_failed s cfg env h0 h1 h2 h3 h4 h5]
    exact ⟨rfl, rfl, fun _ => rfl, fun h => ErrorCode.noConfusion h⟩

/-- The releases of an `Init` that returns `INIT_FAILED` after it got its
context: one of the context, and one of the socket when it was created. -/
theorem Init_failed_release (s : Impl) (cfg : Config) (env : InitEnv)
    (h0 : s.initialized = false) (h1 : env.zmq_ctx_new ≠ 0)
    (hfail : (Init s cfg env).code = ErrorCode.INIT_FAILED) :
    termCalls env.zmq_ctx_new (Init s cfg env).trace = 1 ∧
    (env.zmq_socket ≠ 0 → closeCalls env.zmq_socket (Init s cfg env).trace = 1) := by
  by_cases h2 : env.zmq_socket = 0
  · exact ⟨(Init_socket_failed_release s cfg env h0 h1 h2 0).2, fun h => absurd h2 h⟩
  by_cases h3 : cfg.endpoint.take 6 = "ipc://".toList ∧ (cfg.endpoint.drop 6).length > 108
  · rw [Init_path_too_long_ctx s cfg env h0 h1 h2 h3] at hfail
    exact ErrorCode.noConfusion hfail
  by_cases h4 : cfg.endpoint.take 6 = "ipc://".toList ∧ cfg.mode = Mode.SERVER ∧
      env.access = 0 ∧ env.remove ≠ 0
  · rw [Init_socket_exists s cfg env h0 h1 h2 h3 h4] at hfail
    exact ErrorCode.noConfusion hfail
  by_cases h5 : (if cfg.mode = Mode.SERVER then env.zmq_bind else env.zmq_connect 0) = 0
  · rw [Init_ok s cfg env h0 h1 h2 h3 h4 h5] at hfail
    exact ErrorCode.noConfusion hfail
  · exact ⟨(Init_attach_failed_release s cfg env h0 h1 h2 h3 h4 h5).2,
      fun _ => (Init_attach_failed_release s cfg env h0 h1 h2 h3 h4 h5).1⟩

/-- An `Init` that returns `OK` on an object not yet initialized releases
nothing. -/
theorem Init_succeeded_release (s : Impl) (cfg : Config) (env : InitEnv)
    (h0 : s.initialized = false) (hok : (Init s cfg env).code = ErrorCode.OK) (h : Handle) :
    closeCalls h (Init s cfg env).trace = 0 ∧ termCalls h (Init s cfg env).trace = 0 := by
  obtain ⟨h1, h2, h3, h4, h5⟩ := Init_ok_inv s cfg env h0 hok
  exact Init_ok_release s cfg env h0 h1 h2 h3 h4 h5 h

/-- The releases of `Close` right after an `Init` that got its context, on an
object that was neither initialized nor closed: `Close` releases whatever the
pointers hold, whether `Init` has released it already or not. -/
theorem Close_after_Init_release (s : Impl) (cfg : Config) (env : InitEnv)
    (h0 : s.initialized = false) (hc : s.closed = false) (h1 : env.zmq_ctx_new ≠ 0) :
    termCalls env.zmq_ctx_new (Close (Init s cfg env).impl).trace = 1 ∧
    (env.zmq_socket ≠ 0 → closeCalls env.zmq_socket (Close (Init s cfg env).impl).trace = 1) := by
  obtain ⟨hctx, hsock, hcl, hcl'⟩ := Init_handles s cfg env h0 h1
  have hclosed : (Init s cfg env).impl.closed = false := by
    by_cases hk : (Init s cfg env).code = ErrorCode.OK
    · exact hcl' hk
    · rw [hcl hk, hc]
  have hr := Close_release (Init s cfg env).impl hclosed
  constructor
  · rw [(hr env.zmq_ctx_new).2, hctx, if_pos ⟨h1, rfl⟩]
  · intro h2
    rw [(hr env.zmq_socket).1, hsock, if_pos ⟨h2, rfl⟩]

theorem lifetime_Init (pattern : Pattern) (mode : Mode) (cfg : Config) (env : InitEnv) :
    lifetime pattern mode [Call.Init cfg env] =
      (Init (Impl.new pattern mode) cfg env).trace ++
        (Close (Init (Impl.new pattern mode) cfg env).impl).trace := by
  simp only [lifetime, runCalls, Call.run, destructor, List.append_nil]

theorem lifetime_Init_Close (pattern : Pattern) (mode : Mode) (cfg : Config) (env : InitEnv) :
    lifetime pattern mode [Call.Init cfg env, Call.Close] =
      (Init (Impl.new pattern mode) cfg env).trace ++
        (Close (Init (Impl.new pattern mode) cfg env).impl).trace := by
  simp only [lifetime, runCalls, Call.run, destructor, List.append_nil]
  rw [Close_again _ (Close_closed _), List.append_nil]

end Context

namespace Context

/-! ### The handles `Context::Init` creates -/

theorem Init_t3_created (cfg : Config) (env : InitEnv) :
    ctxNewCalls (Init_t3 cfg env) = 1 ∧ socketCalls (Init_t3 cfg env) = 1 := by
  unfold Init_t3
  constructor
  · simp only [ctxNewCalls]
    split_ifs <;> simp [List.count_cons]
  · simp only [socketCalls]
    split_ifs <;> simp [List.countP_cons]

theorem Init_stale_created (cfg : Config) (env : InitEnv) :
    ctxNewCalls (Init_stale cfg env) = 0 ∧ socketCalls (Init_stale cfg env) = 0 := by
  unfold Init_stale
  constructor
  · simp only [ctxNewCalls]
    split_ifs <;> simp [List.count_cons]
  · simp only [socketCalls]
    split_ifs <;> simp [List.countP_cons]

theorem Init_attach_created (cfg : Config) (env : InitEnv) :
    ctxNewCalls [Init_attach cfg env] = 0 ∧ socketCalls [Init_attach cfg env] = 0 := by
  unfold Init_attach
  constructor
  · simp only [ctxNewCalls]
    split_ifs <;> simp [List.count_cons]
  · simp only [socketCalls]
    split_ifs <;> simp [List.countP_cons]

theorem log_created (s : Impl) : ctxNewCalls s.log = 0 ∧ socketCalls s.log = 0 := by
  unfold Impl.log
  constructor
  · simp only [ctxNewCalls]
    split_ifs <;> simp [List.count_cons]
  · simp only [socketCalls]
    split_ifs <;> simp [List.countP_cons]

theorem ctxNewCalls_append (t u : List Event) :
    ctxNewCalls (t ++ u) = ctxNewCalls t + ctxNewCalls u :=
  List.count_append _ _ _

theorem socketCalls_append (t u : List Event) :
    socketCalls (t ++ u) = socketCalls t + socketCalls u :=
  List.countP_append _ _ _

/-- An `Init` that runs on an object not yet initialized and gets its context
calls `zmq_ctx_new` once and `zmq_socket` once. -/
theorem Init_created (s : Impl) (cfg : Config) (env : InitEnv)
    (h0 : s.initialized = false) (h1 : env.zmq_ctx_new ≠ 0) :
    ctxNewCalls (Init s cfg env).trace = 1 ∧ socketCalls (Init s cfg env).trace = 1 := by
  by_cases h2 : env.zmq_socket = 0
  · rw [Init_socket_failed_ctx s cfg env h0 h1 h2]
    constructor
    · simp [ctxNewCalls, List.count_cons]
    · simp [socketCalls, List.countP_cons]
  by_cases h3 : cfg.endpoint.take 6 = "ipc://".toList ∧ (cfg.endpoint.drop 6).length > 108
  · rw [Init_path_too_long_ctx s cfg env h0 h1 h2 h3]
    exact Init_t3_created cfg env
  by_cases h4 : cfg.endpoint.take 6 = "ipc://".toList ∧ cfg.mode = Mode.SERVER ∧
      env.access = 0 ∧ env.remove ≠ 0
  · rw [Init_socket_exists s cfg env h0 h1 h2 h3 h4]
    simp only [ctxNewCalls_append, socketCalls_append, Init_t3_created, Init_stale_created,
      and_self]
  by_cases h5 : (if cfg.mode = Mode.SERVER then env.zmq_bind else env.zmq_connect 0) = 0
  · rw [Init_ok s cfg env h0 h1 h2 h3 h4 h5]
    simp only [ctxNewCalls_append, socketCalls_append, Init_t3_created, Init_stale_created,
      Init_attach_created, log_created, and_self]
  · rw [Init_attach_failed s cfg env h0 h1 h2 h3 h4 h5]
    simp only [ctxNewCalls_append, socketCalls_append, Init_t3_created, Init_stale_created,
      Init_attach_created]
    constructor
    · simp [ctxNewCalls, List.count_cons]
    · simp [socketCalls, List.countP_cons]

/-- `Context::Close` creates no handle. -/
theorem Close_created (s : Impl) :
    ctxNewCalls (Close s).trace = 0 ∧ socketCalls (Close s).trace = 0 := by
  cases hc : s.closed
  · rw [Close_open s hc]
    simp only [ctxNewCalls_append, socketCalls_append, log_created]
    constructor
    · simp only [ctxNewCalls]
      split_ifs <;> simp [List.count_cons]
    · simp only [socketCalls]
      split_ifs <;> simp [List.countP_cons]
  · rw [Close_again s hc]
    exact ⟨rfl, rfl⟩

end Context

namespace Threads

/-! ### The mutex of `ZMQWrapperImpl` -/

end Threads

open ZMQWrapperImpl

/-! ## The claims -/

/-- C1: for each of the three declared patterns, every mode, every
`timeout_ms >= 0` and every resolved endpoint shorter than 108 bytes, when
context creation and socket creation succeed and the bind (SERVER) or one of
the three connect attempts (any other mode) succeeds, `Init` on a fresh
wrapper returns `SUCCESS` and `IsInitialized` is true; the `Close` that
follows returns `SUCCESS` and `IsInitialized` is false afterwards. -/
theorem C1_init_then_close (cfg : Config) (env : InitEnv) (cenv : CloseEnv)
    (hp : cfg.pattern = Pattern.REQ_REP ∨ cfg.pattern = Pattern.PUB_SUB ∨
      cfg.pattern = Pattern.PUSH_PULL)
    (ht : 0 ≤ cfg.timeout_ms)
    (hl : (BuildEndpoint cfg.endpoint).length < 108)
    (hctx : env.zmq_ctx_new ≠ 0) (hsock : env.zmq_socket ≠ 0)
    (hbind : cfg.mode = Mode.SERVER → env.zmq_bind = 0)
    (hconn : cfg.mode ≠ Mode.SERVER → ∃ k, k < 3 ∧ env.zmq_connect k = 0) :
    (ZMQWrapperImpl.new.Init cfg env).code = ErrorCode.SUCCESS ∧
    (ZMQWrapperImpl.new.Init cfg env).impl.IsInitialized = true ∧
    ((ZMQWrapperImpl.new.Init cfg env).impl.Close cenv).code = ErrorCode.SUCCESS ∧
    ((ZMQWrapperImpl.new.Init cfg env).impl.Close cenv).impl.IsInitialized = false := by
  obtain ⟨h1, h2⟩ := Init_success ZMQWrapperImpl.new cfg env rfl hp ht hl hctx hsock hbind hconn
  refine ⟨h1, ?_, Cleanup_code _ cenv, Cleanup_initialized _ cenv⟩
  rw [h2]
  rfl

theorem C1_init_then_close_witness :
    (ZMQWrapperImpl.new.Init test_basic_config initEnvOk).code = ErrorCode.SUCCESS ∧
    (ZMQWrapperImpl.new.Init test_basic_config initEnvOk).impl.IsInitialized = true ∧
    ((ZMQWrapperImpl.new.Init test_basic_config initEnvOk).impl.Close ⟨0, 0⟩).code =
      ErrorCode.SUCCESS ∧
    ((ZMQWrapperImpl.new.Init test_basic_config initEnvOk).impl.Close
      ⟨0, 0⟩).impl.IsInitialized = false :=
  C1_init_then_close test_basic_config initEnvOk ⟨0, 0⟩ (by decide) (by decide) (by decide)
    (by decide) (by decide) (fun _ => rfl) (fun _ => ⟨0, by decide, rfl⟩)

/-- C2: `Close` is idempotent. In every state `Close` returns `SUCCESS`, and a
`Close` made directly after it returns `SUCCESS` again, leaves the object
exactly as the first one left it and makes no outside call at all (its trace
is empty: no `zmq_close`, no `zmq_ctx_term`, no `unlink`). -/
theorem C2_close_idempotent (s : ZMQWrapperImpl) (env1 env2 : CloseEnv) :
    (s.Close env1).code = ErrorCode.SUCCESS ∧
    (s.Close env1).impl.Close env2 = ⟨ErrorCode.SUCCESS, (s.Close env1).impl, []⟩ := by
  refine ⟨Cleanup_code s env1, ?_⟩
  exact Cleanup_not_initialized _ env2 (Cleanup_initialized s env1)

/-- C3: `Init` on an initialized wrapper returns `ERROR_ALREADY_INITIALIZED`
for every configuration, makes no outside call (empty trace) and leaves the
whole object (stored config, endpoint, both handles, the flag) as it was. -/
theorem C3_double_init (s : ZMQWrapperImpl) (cfg : Config) (env : InitEnv)
    (h : s.initialized = true) :
    s.Init cfg env = ⟨ErrorCode.ERROR_ALREADY_INITIALIZED, s, []⟩ :=
  Init_already s cfg env h

theorem C3_double_init_witness :
    readyServer.initialized = true ∧
    readyServer.Init { test_basic_config with timeout_ms := -1 } initEnvOk =
      ⟨ErrorCode.ERROR_ALREADY_INITIALIZED, readyServer, []⟩ :=
  ⟨by decide, C3_double_init readyServer _ initEnvOk (by decide)⟩

/-- C4: on a wrapper that is not initialized, `SendMessage`, `ReceiveMessage`
and `Subscribe` return `ERROR_NOT_INITIALIZED` for every argument, make no
outside call and leave the object unchanged; `ReceiveMessage` hands back its
output string as it got it. The constructed wrapper, a wrapper after a failed
`Init` that started not initialized, and a wrapper after `Close` are such
wrappers. -/
theorem C4_not_initialized :
    (∀ s : ZMQWrapperImpl, s.initialized = false →
      (∀ message env, s.SendMessage message env =
          ⟨ErrorCode.ERROR_NOT_INITIALIZED, s, []⟩) ∧
      (∀ message env, s.ReceiveMessage message env =
          ⟨ErrorCode.ERROR_NOT_INITIALIZED, s, message, []⟩) ∧
      (∀ topic env, s.Subscribe topic env =
          ⟨ErrorCode.ERROR_NOT_INITIALIZED, s, []⟩)) ∧
    ZMQWrapperImpl.new.initialized = false ∧
    (∀ (s : ZMQWrapperImpl) cfg env, s.initialized = false →
      (s.Init cfg env).code ≠ ErrorCode.SUCCESS →
      (s.Init cfg env).impl.initialized = false) ∧
    (∀ (s : ZMQWrapperImpl) env, (s.Close env).impl.initialized = false) := by
  refine ⟨?_, rfl, ?_, fun s env => Cleanup_initialized s env⟩
  · intro s h
    refine ⟨?_, ?_, ?_⟩
    · intro message env; simp [SendMessage, h]
    · intro message env; simp [ReceiveMessage, h]
    · intro topic env; simp [Subscribe, h]
  · intro s cfg env h hc
    have := Init_initialized s cfg env h
    cases hi : (s.Init cfg env).impl.initialized
    · rfl
    · exact absurd (this.mp hi) hc

theorem C4_not_initialized_witness :
    ZMQWrapperImpl.new.SendMessage "test".toList ⟨0, 0⟩ =
      ⟨ErrorCode.ERROR_NOT_INITIALIZED, ZMQWrapperImpl.new, []⟩ ∧
    ZMQWrapperImpl.new.ReceiveMessage "old".toList ⟨0, 4, 0, "data".toList⟩ =
      ⟨ErrorCode.ERROR_NOT_INITIALIZED, ZMQWrapperImpl.new, "old".toList, []⟩ ∧
    ZMQWrapperImpl.new.Subscribe [] ⟨0⟩ =
      ⟨ErrorCode.ERROR_NOT_INITIALIZED, ZMQWrapperImpl.new, []⟩ :=
  ⟨(C4_not_initialized.1 ZMQWrapperImpl.new rfl).1 _ _,
   (C4_not_initialized.1 ZMQWrapperImpl.new rfl).2.1 _ _,
   (C4_not_initialized.1 ZMQWrapperImpl.new rfl).2.2 _ _⟩

/-- C5: the socket kind follows the table in both variants. `GetSocketType`
and the switch of `Context::Init` give `ZMQ_REP` / `ZMQ_REQ` for `REQ_REP` and
`ZMQ_PUB` / `ZMQ_SUB` for `PUB_SUB` (SERVER / CLIENT); `GetSocketType` is
non-negative, so never `-1`, for the three declared patterns; and the kind
either `Init` hands to `zmq_socket` is that value: every `zmq_socket` call of
an `Init` carries it, and an `Init` that got its context makes the call. -/
theorem C5_socket_kind_table :
    (GetSocketType Pattern.REQ_REP Mode.SERVER = ZMQ_REP ∧
      GetSocketType Pattern.REQ_REP Mode.CLIENT = ZMQ_REQ ∧
      GetSocketType Pattern.PUB_SUB Mode.SERVER = ZMQ_PUB ∧
      GetSocketType Pattern.PUB_SUB Mode.CLIENT = ZMQ_SUB) ∧
    (∀ cfg : Context.Config,
      (cfg.pattern = Pattern.REQ_REP → cfg.mode = Mode.SERVER →
        Context.socket_type cfg = ZMQ_REP) ∧
      (cfg.pattern = Pattern.REQ_REP → cfg.mode = Mode.CLIENT →
        Context.socket_type cfg = ZMQ_REQ) ∧
      (cfg.pattern = Pattern.PUB_SUB → cfg.mode = Mode.SERVER →
        Context.socket_type cfg = ZMQ_PUB) ∧
      (cfg.pattern = Pattern.PUB_SUB → cfg.mode = Mode.CLIENT →
        Context.socket_type cfg = ZMQ_SUB)) ∧
    (∀ (pattern : Pattern) (mode : Mode),
      pattern = Pattern.REQ_REP ∨ pattern = Pattern.PUB_SUB ∨ pattern = Pattern.PUSH_PULL →
      0 ≤ GetSocketType pattern mode ∧ GetSocketType pattern mode ≠ -1) ∧
    (∀ (s : ZMQWrapperImpl) (cfg : Config) (env : InitEnv),
      (∀ c k, Event.zmq_socket c k ∈ (s.Init cfg env).trace →
        k = GetSocketType cfg.pattern cfg.mode) ∧
      (s.initialized = false → 0 ≤ cfg.timeout_ms → env.zmq_ctx_new ≠ 0 →
        0 ≤ GetSocketType cfg.pattern cfg.mode →
        Event.zmq_socket env.zmq_ctx_new (GetSocketType cfg.pattern cfg.mode) ∈
          (s.Init cfg env).trace)) ∧
    (∀ (s : Context.Impl) (cfg : Context.Config) (env : InitEnv),
      (∀ c k, Event.zmq_socket c k ∈ (Context.Init s cfg env).trace →
        k = Context.socket_type cfg) ∧
      (s.initialized = false → env.zmq_ctx_new ≠ 0 →
        Event.zmq_socket env.zmq_ctx_new (Context.socket_type cfg) ∈
          (Context.Init s cfg env).trace)) := by
  refine ⟨⟨by decide, by decide, by decide, by decide⟩, ?_, ?_, ?_, ?_⟩
  · intro cfg
    refine ⟨?_, ?_, ?_, ?_⟩ <;> intro hp hm <;> simp only [Context.socket_type, hp, hm] <;> decide
  · intro pattern mode h
    have := GetSocketType_nonneg pattern mode h
    exact ⟨this, by omega⟩
  · intro s cfg env
    constructor
    · intro c k h
      have := Init_trace_mem s cfg env _ h
      simp at this
      exact this.2
    · intro h0 h1 h2 h3
      refine Init_cases (fun r => Event.zmq_socket env.zmq_ctx_new
        (GetSocketType cfg.pattern cfg.mode) ∈ r.trace) s cfg env ?_ ?_ ?_ ?_ ?_ ?_ ?_ ?_ ?_ ?_
      all_goals intros
      all_goals first
        | (simp_all; done)
        | (exfalso; omega)
        | simp [Init_t4]
  · intro s cfg env
    constructor
    · intro c k h
      have := Context.Init_trace_mem_ctx s cfg env _ h
      simp at this
      exact this.2
    · intro h0 h1
      refine Context.Init_cases_ctx (fun r => Event.zmq_socket env.zmq_ctx_new
        (Context.socket_type cfg) ∈ r.trace) s cfg env ?_ ?_ ?_ ?_ ?_ ?_ ?_
      all_goals intros
      all_goals first
        | (simp_all; done)
        | simp [Context.Init_t3]

theorem C5_socket_kind_table_witness :
    Event.zmq_socket 1 ZMQ_REP ∈ (ZMQWrapperImpl.new.Init test_basic_config initEnvOk).trace ∧
    Context.socket_type test_req_rep_client = ZMQ_REQ :=
  ⟨(C5_socket_kind_table.2.2.2.1 ZMQWrapperImpl.new test_basic_config initEnvOk).2
      rfl (by decide) (by decide) (by decide),
    (C5_socket_kind_table.2.1 test_req_rep_client).2.1 rfl rfl⟩

/-- C6: for every config with `timeout_ms >= 0` whose resolved endpoint has
length `>= 108` (`MAX_PATH_LENGTH`), `Init` on a fresh wrapper whose context
creation and socket creation succeed returns `ERROR_PATH_TOO_LONG`, makes no
bind call, no connect call and no file removal, releases the socket and the
context (the calls are made and both handles are null afterwards) and leaves
the wrapper not initialized; and every initialized wrapper a caller can hold
has an endpoint of at most 107 bytes. -/
theorem C6_path_too_long :
    MAX_PATH_LENGTH = 108 ∧
    (∀ (cfg : Config) (env : InitEnv), 0 ≤ cfg.timeout_ms →
      MAX_PATH_LENGTH ≤ (BuildEndpoint cfg.endpoint).length →
      env.zmq_ctx_new ≠ 0 →
      0 < socketCalls (ZMQWrapperImpl.new.Init cfg env).trace → env.zmq_socket ≠ 0 →
      (ZMQWrapperImpl.new.Init cfg env).code = ErrorCode.ERROR_PATH_TOO_LONG ∧
      bindCalls (ZMQWrapperImpl.new.Init cfg env).trace = 0 ∧
      connectCalls (ZMQWrapperImpl.new.Init cfg env).trace = 0 ∧
      removals (ZMQWrapperImpl.new.Init cfg env).trace = 0 ∧
      Event.zmq_close env.zmq_socket ∈ (ZMQWrapperImpl.new.Init cfg env).trace ∧
      Event.zmq_ctx_term env.zmq_ctx_new ∈ (ZMQWrapperImpl.new.Init cfg env).trace ∧
      (ZMQWrapperImpl.new.Init cfg env).impl.socket = 0 ∧
      (ZMQWrapperImpl.new.Init cfg env).impl.context = 0 ∧
      (ZMQWrapperImpl.new.Init cfg env).impl.IsInitialized = false) ∧
    (∀ s : ZMQWrapperImpl, Reachable s → s.IsInitialized = true →
      s.endpoint_path.length ≤ 107) := by
  refine ⟨rfl, ?_, ?_⟩
  · intro cfg env ht hl hctx hcalls hsock
    have hk : 0 ≤ GetSocketType cfg.pattern cfg.mode := by
      by_contra hk
      rw [Init_invalid_pattern _ cfg env rfl ht hctx (not_le.mp hk)] at hcalls
      simp [socketCalls] at hcalls
    rw [Init_path_too_long _ cfg env rfl ht hctx hk hsock hl]
    refine ⟨rfl, ?_, ?_, ?_, by simp, by simp, rfl, rfl, rfl⟩
    · simp only [bindCalls, Init_t4, Log, List.countP_append]
      split_ifs <;> rfl
    · simp only [connectCalls, Init_t4, Log, List.countP_append]
      split_ifs <;> rfl
    · simp only [removals, Init_t4, Log, List.countP_append]
      split_ifs <;> rfl
  · intro s hr hi
    have := ((Reachable_invariant s hr).1 hi).2.2
    simp only [MAX_PATH_LENGTH] at this
    omega

theorem C6_path_too_long_witness :
    (ZMQWrapperImpl.new.Init long_path_config initEnvOk).code =
      ErrorCode.ERROR_PATH_TOO_LONG ∧
    bindCalls (ZMQWrapperImpl.new.Init long_path_config initEnvOk).trace = 0 ∧
    readyServer.endpoint_path.length ≤ 107 :=
  ⟨(C6_path_too_long.2.1 long_path_config initEnvOk (by decide) (by decide) (by decide)
      (by decide) (by decide)).1,
    (C6_path_too_long.2.1 long_path_config initEnvOk (by decide) (by decide) (by decide)
      (by decide) (by decide)).2.1,
    C6_path_too_long.2.2 readyServer readyServer_reachable (by decide)⟩

/-- C7: in SERVER mode `Init` never calls `zmq_bind` more than once and never
calls `zmq_connect`; an `Init` that comes to its server branch (not
initialized, valid timeout, context and socket created, endpoint short enough)
calls `zmq_bind` exactly once. If that bind fails, `Init` returns
`ERROR_PERMISSION_DENIED` when `zmq_errno()` is `EACCES` and
`ERROR_SOCKET_BIND_FAILED` for every other value, the socket is closed and the
context terminated, both handles are null and the wrapper is not
initialized. -/
theorem C7_server_bind (s : ZMQWrapperImpl) (cfg : Config) (env : InitEnv)
    (hm : cfg.mode = Mode.SERVER) :
    bindCalls (s.Init cfg env).trace ≤ 1 ∧
    connectCalls (s.Init cfg env).trace = 0 ∧
    (s.initialized = false → 0 ≤ cfg.timeout_ms → env.zmq_ctx_new ≠ 0 →
      0 ≤ GetSocketType cfg.pattern cfg.mode → env.zmq_socket ≠ 0 →
      (BuildEndpoint cfg.endpoint).length < MAX_PATH_LENGTH →
      bindCalls (s.Init cfg env).trace = 1 ∧
      Event.zmq_bind env.zmq_socket (BuildEndpoint cfg.endpoint) ∈ (s.Init cfg env).trace ∧
      (env.zmq_bind ≠ 0 →
        (env.zmq_errno = EACCES →
          (s.Init cfg env).code = ErrorCode.ERROR_PERMISSION_DENIED) ∧
        (env.zmq_errno ≠ EACCES →
          (s.Init cfg env).code = ErrorCode.ERROR_SOCKET_BIND_FAILED) ∧
        Event.zmq_close env.zmq_socket ∈ (s.Init cfg env).trace ∧
        Event.zmq_ctx_term env.zmq_ctx_new ∈ (s.Init cfg env).trace ∧
        (s.Init cfg env).impl.socket = 0 ∧
        (s.Init cfg env).impl.context = 0 ∧
        (s.Init cfg env).impl.IsInitialized = false)) := by
  refine ⟨?_, ?_, ?_⟩
  · refine Init_cases (fun r => bindCalls r.trace ≤ 1) s cfg env ?_ ?_ ?_ ?_ ?_ ?_ ?_ ?_ ?_ ?_
    all_goals intros
    all_goals first
      | contradiction
      | (simp only [bindCalls, Init_t4, Init_stale, Init_s3, Log, List.countP_append]
         split_ifs <;> simp)
      | simp [bindCalls]
  · refine Init_cases (fun r => connectCalls r.trace = 0) s cfg env ?_ ?_ ?_ ?_ ?_ ?_ ?_ ?_ ?_ ?_
    all_goals intros
    all_goals first
      | contradiction
      | (simp only [connectCalls, Init_t4, Init_stale, Init_s3, Log, List.countP_append]
         split_ifs <;> simp)
      | simp [connectCalls]
  · intro h0 ht hctx hk hsock hl
    by_cases hb : env.zmq_bind = 0
    · rw [Init_server_ok s cfg env h0 ht hctx hk hsock hl hm hb]
      refine ⟨?_, by simp, fun h => absurd hb h⟩
      simp only [bindCalls, Init_t4, Init_stale, Init_s3, Log, List.countP_append]
      split_ifs <;> simp
    · rw [Init_bind_failed s cfg env h0 ht hctx hk hsock hl hm hb]
      refine ⟨?_, by simp, fun _ => ⟨fun he => by simp [he], fun he => by simp [he], by simp,
        by simp, rfl, rfl, ?_⟩⟩
      · simp only [bindCalls, Init_t4, Init_stale, Init_s3, Log, List.countP_append]
        split_ifs <;> simp
      · simp [IsInitialized, Init_s3, h0]

theorem C7_server_bind_witness :
    bindCalls (ZMQWrapperImpl.new.Init test_basic_config initEnvDenied).trace = 1 ∧
    (ZMQWrapperImpl.new.Init test_basic_config initEnvDenied).code =
      ErrorCode.ERROR_PERMISSION_DENIED ∧
    (ZMQWrapperImpl.new.Init test_basic_config initEnvDenied).impl.socket = 0 :=
  ⟨((C7_server_bind ZMQWrapperImpl.new test_basic_config initEnvDenied rfl).2.2 rfl
      (by decide) (by decide) (by decide) (by decide) (by decide)).1,
    (((C7_server_bind ZMQWrapperImpl.new test_basic_config initEnvDenied rfl).2.2 rfl
      (by decide) (by decide) (by decide) (by decide) (by decide)).2.2 (by decide)).1 rfl,
    (((C7_server_bind ZMQWrapperImpl.new test_basic_config initEnvDenied rfl).2.2 rfl
      (by decide) (by decide) (by decide) (by decide) (by decide)).2.2 (by decide)).2.2.2.2.1⟩

/-- C8: with a mode other than SERVER (so in CLIENT mode) an `Init` that comes
to its connect loop calls `zmq_connect` at most 3 times and never `zmq_bind`.
If attempt `k <= 3` is the first to succeed, it makes exactly `k` connect
calls and `k - 1` delays, each of `100 * 1000` microseconds, and returns
`SUCCESS` with the wrapper initialized. If the first three attempts fail, it
makes exactly 3 connect calls and exactly 2 delays, none of them after the
last connect call, returns `ERROR_SOCKET_CONNECT_FAILED`, closes the socket
and terminates the context, and leaves both handles null and the wrapper not
initialized. -/
theorem C8_client_connect (s : ZMQWrapperImpl) (cfg : Config) (env : InitEnv)
    (h0 : s.initialized = false) (ht : 0 ≤ cfg.timeout_ms) (hctx : env.zmq_ctx_new ≠ 0)
    (hk : 0 ≤ GetSocketType cfg.pattern cfg.mode) (hsock : env.zmq_socket ≠ 0)
    (hl : (BuildEndpoint cfg.endpoint).length < MAX_PATH_LENGTH)
    (hm : cfg.mode ≠ Mode.SERVER) :
    connectCalls (s.Init cfg env).trace ≤ 3 ∧
    bindCalls (s.Init cfg env).trace = 0 ∧
    (∀ k, 1 ≤ k → k ≤ 3 → (∀ j, j < k - 1 → env.zmq_connect j ≠ 0) →
      env.zmq_connect (k - 1) = 0 →
      connectCalls (s.Init cfg env).trace = k ∧
      delays (100 * 1000) (s.Init cfg env).trace = k - 1 ∧
      sleepCalls (s.Init cfg env).trace = k - 1 ∧
      (s.Init cfg env).code = ErrorCode.SUCCESS ∧
      (s.Init cfg env).impl.IsInitialized = true) ∧
    ((∀ j, j < 3 → env.zmq_connect j ≠ 0) →
      connectCalls (s.Init cfg env).trace = 3 ∧
      delays (100 * 1000) (s.Init cfg env).trace = 2 ∧
      sleepCalls (s.Init cfg env).trace = 2 ∧
      (∃ pre post, (s.Init cfg env).trace =
          pre ++ Event.zmq_connect env.zmq_socket (BuildEndpoint cfg.endpoint) :: post ∧
        connectCalls post = 0 ∧ sleepCalls post = 0) ∧
      (s.Init cfg env).code = ErrorCode.ERROR_SOCKET_CONNECT_FAILED ∧
      Event.zmq_close env.zmq_socket ∈ (s.Init cfg env).trace ∧
      Event.zmq_ctx_term env.zmq_ctx_new ∈ (s.Init cfg env).trace ∧
      (s.Init cfg env).impl.socket = 0 ∧
      (s.Init cfg env).impl.context = 0 ∧
      (s.Init cfg env).impl.IsInitialized = false) := by
  have key := connectLoop_zero (Init_s3 s cfg env) env
  by_cases c0 : env.zmq_connect 0 = 0
  · rw [if_pos c0] at key
    have hlt : (connectLoop (Init_s3 s cfg env) env 0).1 < max_retries := by
      rw [key]; exact (by decide : 0 < max_retries)
    rw [Init_client_ok s cfg env h0 ht hctx hk hsock hl hm hlt, key]
    refine ⟨?_, ?_, ?_, fun h => absurd c0 (h 0 (by decide))⟩
    · simp only [connectCalls, Init_t4, Init_s3, Log, List.countP_append]
      split_ifs <;> simp
    · simp only [bindCalls, Init_t4, Init_s3, Log, List.countP_append]
      split_ifs <;> simp
    · intro k hk1 hk3 hfail hok
      have hk' : k = 1 := by
        by_contra hne
        exact hfail 0 (by omega) c0
      subst hk'
      refine ⟨?_, ?_, ?_, rfl, rfl⟩
      · simp only [connectCalls, Init_t4, Init_s3, Log, List.countP_append]
        split_ifs <;> simp
      · simp only [delays, Init_t4, Init_s3, Log, List.count_append]
        split_ifs <;> simp
      · simp only [sleepCalls, Init_t4, Init_s3, Log, List.countP_append]
        split_ifs <;> simp
  rw [if_neg c0] at key
  by_cases c1 : env.zmq_connect 1 = 0
  · rw [if_pos c1] at key
    have hlt : (connectLoop (Init_s3 s cfg env) env 0).1 < max_retries := by
      rw [key]; exact (by decide : 1 < max_retries)
    rw [Init_client_ok s cfg env h0 ht hctx hk hsock hl hm hlt, key]
    refine ⟨?_, ?_, ?_, fun h => absurd c1 (h 1 (by decide))⟩
    · simp only [connectCalls, Init_t4, Init_s3, Log, List.countP_append]
      split_ifs <;> simp
    · simp only [bindCalls, Init_t4, Init_s3, Log, List.countP_append]
      split_ifs <;> simp
    · intro k hk1 hk3 hfail hok
      have hk' : k = 2 := by
        by_contra hne
        have : k = 1 ∨ k = 3 := by omega
        rcases this with h | h
        · subst h; exact c0 hok
        · subst h; exact hfail 1 (by decide) c1
      subst hk'
      refine ⟨?_, ?_, ?_, rfl, rfl⟩
      · simp only [connectCalls, Init_t4, Init_s3, Log, List.countP_append]
        split_ifs <;> simp
      · simp only [delays, Init_t4, Init_s3, Log, List.count_append]
        split_ifs <;> simp
      · simp only [sleepCalls, Init_t4, Init_s3, Log, List.countP_append]
        split_ifs <;> simp
  rw [if_neg c1] at key
  by_cases c2 : env.zmq_connect 2 = 0
  · rw [if_pos c2] at key
    have hlt : (connectLoop (Init_s3 s cfg env) env 0).1 < max_retries := by
      rw [key]; exact (by decide : 2 < max_retries)
    rw [Init_client_ok s cfg env h0 ht hctx hk hsock hl hm hlt, key]
    refine ⟨?_, ?_, ?_, fun h => absurd c2 (h 2 (by decide))⟩
    · simp only [connectCalls, Init_t4, Init_s3, Log, List.countP_append]
      split_ifs <;> simp
    · simp only [bindCalls, Init_t4, Init_s3, Log, List.countP_append]
      split_ifs <;> simp
    · intro k hk1 hk3 hfail hok
      have hk' : k = 3 := by
        by_contra hne
        have : k = 1 ∨ k = 2 := by omega
        rcases this with h | h
        · subst h; exact c0 hok
        · subst h; exact c1 hok
      subst hk'
      refine ⟨?_, ?_, ?_, rfl, rfl⟩
      · simp only [connectCalls, Init_t4, Init_s3, Log, List.countP_append]
        split_ifs <;> simp
      · simp only [delays, Init_t4, Init_s3, Log, List.count_append]
        split_ifs <;> simp
      · simp only [sleepCalls, Init_t4, Init_s3, Log, List.countP_append]
        split_ifs <;> simp
  rw [if_neg c2] at key
  have hge : max_retries ≤ (connectLoop (Init_s3 s cfg env) env 0).1 := by
    rw [key]; exact (by decide : max_retries ≤ 3)
  rw [Init_connect_failed s cfg env h0 ht hctx hk hsock hl hm hge, key]
  refine ⟨?_, ?_, ?_, ?_⟩
  · simp only [connectCalls, Init_t4, Init_s3, Log, List.countP_append]
    split_ifs <;> simp
  · simp only [bindCalls, Init_t4, Init_s3, Log, List.countP_append]
    split_ifs <;> simp
  · intro k hk1 hk3 hfail hok
    exfalso
    have : k = 1 ∨ k = 2 ∨ k = 3 := by omega
    rcases this with h | h | h
    · subst h; exact c0 hok
    · subst h; exact c1 hok
    · subst h; exact c2 hok
  · intro _
    refine ⟨?_, ?_, ?_, ?_, rfl, by simp, by simp, rfl, rfl, ?_⟩
    · simp only [connectCalls, Init_t4, Init_s3, Log, List.countP_append]
      split_ifs <;> simp
    · simp only [delays, Init_t4, Init_s3, Log, List.count_append]
      split_ifs <;> simp
    · simp only [sleepCalls, Init_t4, Init_s3, Log, List.countP_append]
      split_ifs <;> simp
    · refine ⟨Init_t4 cfg env ++
          ([Event.zmq_connect env.zmq_socket (BuildEndpoint cfg.endpoint)] ++
            (Init_s3 s cfg env).Log ++ [Event.usleep 100000] ++
            ([Event.zmq_connect env.zmq_socket (BuildEndpoint cfg.endpoint)] ++
              (Init_s3 s cfg env).Log ++ [Event.usleep 100000])),
        (Init_s3 s cfg env).Log ++ ((Init_s3 s cfg env).Log ++
          [Event.zmq_close env.zmq_socket, Event.zmq_ctx_term env.zmq_ctx_new]), ?_, ?_, ?_⟩
      · simp [Init_s3, List.append_assoc]
      · simp only [connectCalls, Init_s3, Log, List.countP_append]
        split_ifs <;> simp
      · simp only [sleepCalls, Init_s3, Log, List.countP_append]
        split_ifs <;> simp
    · simp [IsInitialized, Init_s3, h0]

theorem C8_client_connect_witness :
    connectCalls (ZMQWrapperImpl.new.Init test_req_rep_pattern_client
      initEnvThirdConnect).trace = 3 ∧
    delays (100 * 1000) (ZMQWrapperImpl.new.Init test_req_rep_pattern_client
      initEnvThirdConnect).trace = 2 ∧
    (ZMQWrapperImpl.new.Init test_req_rep_pattern_client initEnvThirdConnect).code =
      ErrorCode.SUCCESS ∧
    connectCalls (ZMQWrapperImpl.new.Init test_req_rep_pattern_client
      initEnvDenied).trace = 3 ∧
    delays (100 * 1000) (ZMQWrapperImpl.new.Init test_req_rep_pattern_client
      initEnvDenied).trace = 2 ∧
    (ZMQWrapperImpl.new.Init test_req_rep_pattern_client initEnvDenied).code =
      ErrorCode.ERROR_SOCKET_CONNECT_FAILED :=
  have h3 := (C8_client_connect ZMQWrapperImpl.new test_req_rep_pattern_client
    initEnvThirdConnect rfl (by decide) (by decide) (by decide) (by decide) (by decide)
    (by decide)).2.2.1 3 (by decide) (by decide) (by decide) (by decide)
  have hf := (C8_client_connect ZMQWrapperImpl.new test_req_rep_pattern_client
    initEnvDenied rfl (by decide) (by decide) (by decide) (by decide) (by decide)
    (by decide)).2.2.2 (by decide)
  ⟨h3.1, h3.2.1, h3.2.2.2.1, hf.1, hf.2.1, hf.2.2.2.2.1⟩

/-- C9: on an initialized wrapper, `SendMessage` of a message longer than
`10 * 1024 * 1024` bytes returns `ERROR_MESSAGE_TOO_LARGE`, makes no
`zmq_send` call nor any other transport call and leaves the object as it was;
for a message of at most `10 * 1024 * 1024` bytes (the boundary included) it
never returns `ERROR_MESSAGE_TOO_LARGE` and calls `zmq_send` once, with the
bytes of the message on the wrapper's socket. -/
theorem C9_send_size_limit (s : ZMQWrapperImpl) (hr : Reachable s)
    (hi : s.IsInitialized = true) (message : StdString) (env : SendEnv) :
    MAX_MESSAGE_SIZE = 10 * 1024 * 1024 ∧
    (message.length > 10 * 1024 * 1024 →
      (s.SendMessage message env).code = ErrorCode.ERROR_MESSAGE_TOO_LARGE ∧
      sendCalls (s.SendMessage message env).trace = 0 ∧
      (∀ e, e ∈ (s.SendMessage message env).trace → e.isTransport = false) ∧
      (s.SendMessage message env).impl = s) ∧
    (message.length ≤ 10 * 1024 * 1024 →
      (s.SendMessage message env).code ≠ ErrorCode.ERROR_MESSAGE_TOO_LARGE ∧
      (s.SendMessage message env).code =
        (if env.zmq_send < 0 then ErrorCode.ERROR_SEND_FAILED else ErrorCode.SUCCESS) ∧
      sendCalls (s.SendMessage message env).trace = 1 ∧
      Event.zmq_send s.socket message ∈ (s.SendMessage message env).trace) := by
  have hi' : s.initialized = true := hi
  have hsock := Reachable_socket s hr hi'
  refine ⟨rfl, ?_, ?_⟩
  · intro hlen
    have hlen' : message.length > MAX_MESSAGE_SIZE := hlen
    have e : s.SendMessage message env =
        ⟨ErrorCode.ERROR_MESSAGE_TOO_LARGE, s, s.Log⟩ := by
      unfold SendMessage
      simp only [hi', hsock, Bool.not_true, decide_False, Bool.or_self, Bool.false_eq_true,
        if_false, if_pos hlen']
    rw [e]
    refine ⟨rfl, ?_, ?_, rfl⟩
    · simp only [sendCalls, Log]
      split_ifs <;> rfl
    · intro e he
      rw [Log_mem s e he]
      rfl
  · intro hlen
    have hlen' : ¬ message.length > MAX_MESSAGE_SIZE := not_lt.mpr hlen
    have hdata : (if message = [] then [] else message) = message := by
      split_ifs with h
      · exact h.symm
      · rfl
    have e : s.SendMessage message env =
        ⟨if env.zmq_send < 0 then ErrorCode.ERROR_SEND_FAILED else ErrorCode.SUCCESS, s,
          [Event.zmq_send s.socket message] ++ s.Log⟩ := by
      unfold SendMessage
      simp only [hi', hsock, Bool.not_true, decide_False, Bool.or_self, Bool.false_eq_true,
        if_false, if_neg hlen', hdata]
      split_ifs <;> rfl
    rw [e]
    refine ⟨?_, rfl, ?_, by simp⟩
    · dsimp only
      split_ifs <;> decide
    · simp only [sendCalls, Log, List.countP_append]
      split_ifs <;> rfl

theorem C9_send_size_limit_witness :
    (readyServer.SendMessage (List.replicate (10 * 1024 * 1024 + 1) 'A') ⟨0, 0⟩).code =
      ErrorCode.ERROR_MESSAGE_TOO_LARGE ∧
    sendCalls (readyServer.SendMessage (List.replicate (10 * 1024 * 1024 + 1) 'A')
      ⟨0, 0⟩).trace = 0 ∧
    (readyServer.SendMessage (List.replicate (10 * 1024 * 1024) 'A') ⟨0, 0⟩).code ≠
      ErrorCode.ERROR_MESSAGE_TOO_LARGE ∧
    sendCalls (readyServer.SendMessage (List.replicate (1024 * 1024) 'A') ⟨0, 0⟩).trace = 1 :=
  ⟨((C9_send_size_limit readyServer readyServer_reachable (by decide)
      (List.replicate (10 * 1024 * 1024 + 1) 'A') ⟨0, 0⟩).2.1
      (by rw [List.length_replicate]; exact Nat.lt_succ_self _)).1,
    ((C9_send_size_limit readyServer readyServer_reachable (by decide)
      (List.replicate (10 * 1024 * 1024 + 1) 'A') ⟨0, 0⟩).2.1
      (by rw [List.length_replicate]; exact Nat.lt_succ_self _)).2.1,
    ((C9_send_size_limit readyServer readyServer_reachable (by decide)
      (List.replicate (10 * 1024 * 1024) 'A') ⟨0, 0⟩).2.2
      (by rw [List.length_replicate])).1,
    ((C9_send_size_limit readyServer readyServer_reachable (by decide)
      (List.replicate (1024 * 1024) 'A') ⟨0, 0⟩).2.2
      (by rw [List.length_replicate]; decide)).2.2.1⟩

/-- C10: on an initialized wrapper, when `zmq_msg_recv` fails (the message
object having been initialised), `ReceiveMessage` returns `ERROR_TIMEOUT` if
and only if `zmq_errno()` is `EAGAIN` or `ETIMEDOUT`, and
`ERROR_RECEIVE_FAILED` for every other value; in both cases the output string
and the object are left as they were. -/
theorem C10_receive_failure (s : ZMQWrapperImpl) (hr : Reachable s)
    (hi : s.IsInitialized = true) (message : StdString) (env : RecvEnv)
    (hinit : env.zmq_msg_init = 0) (hfail : env.zmq_msg_recv < 0) :
    ((s.ReceiveMessage message env).code = ErrorCode.ERROR_TIMEOUT ↔
      env.zmq_errno = EAGAIN ∨ env.zmq_errno = ETIMEDOUT) ∧
    (¬ (env.zmq_errno = EAGAIN ∨ env.zmq_errno = ETIMEDOUT) →
      (s.ReceiveMessage message env).code = ErrorCode.ERROR_RECEIVE_FAILED) ∧
    (s.ReceiveMessage message env).message = message ∧
    (s.ReceiveMessage message env).impl = s := by
  have hi' : s.initialized = true := hi
  have hsock := Reachable_socket s hr hi'
  have hinit' : ¬ env.zmq_msg_init ≠ 0 := not_not.mpr hinit
  have e : s.ReceiveMessage message env =
      ⟨if env.zmq_errno = EAGAIN ∨ env.zmq_errno = ETIMEDOUT then ErrorCode.ERROR_TIMEOUT
        else ErrorCode.ERROR_RECEIVE_FAILED, s, message,
        [Event.zmq_msg_init, Event.zmq_msg_recv s.socket, Event.zmq_msg_close] ++ s.Log⟩ := by
    unfold ReceiveMessage
    simp only [hi', hsock, Bool.not_true, decide_False, Bool.or_self, Bool.false_eq_true,
      if_false, if_neg hinit', if_pos hfail, List.append_assoc, List.cons_append,
      List.nil_append]
    split_ifs <;> rfl
  rw [e]
  refine ⟨?_, ?_, rfl, rfl⟩
  · dsimp only
    split_ifs with h
    · exact ⟨fun _ => h, fun _ => rfl⟩
    · exact ⟨fun hc => absurd hc (by decide), fun hc => absurd hc h⟩
  · intro h
    dsimp only
    rw [if_neg h]

theorem C10_receive_failure_witness :
    (readyServer.ReceiveMessage "old".toList ⟨0, -1, EAGAIN, []⟩).code =
      ErrorCode.ERROR_TIMEOUT ∧
    (readyServer.ReceiveMessage "old".toList ⟨0, -1, 4, []⟩).code =
      ErrorCode.ERROR_RECEIVE_FAILED ∧
    (readyServer.ReceiveMessage "old".toList ⟨0, -1, 4, []⟩).message = "old".toList :=
  ⟨(C10_receive_failure readyServer readyServer_reachable (by decide) "old".toList
      ⟨0, -1, EAGAIN, []⟩ rfl (by decide)).1.mpr (Or.inl rfl),
    (C10_receive_failure readyServer readyServer_reachable (by decide) "old".toList
      ⟨0, -1, 4, []⟩ rfl (by decide)).2.1 (by decide),
    (C10_receive_failure readyServer readyServer_reachable (by decide) "old".toList
      ⟨0, -1, 4, []⟩ rfl (by decide)).2.2.1⟩

/-- C11: on an initialized wrapper, when the transport delivers a payload `p`
(the message object was initialised, `zmq_msg_recv` did not fail and the
message holds `p`), `ReceiveMessage` returns `SUCCESS` with the output string
equal to `p`, so of the same length, length `0` included, if `p` has at most
`10 * 1024 * 1024` bytes, and returns `ERROR_MESSAGE_TOO_LARGE` with the output
string as the caller passed it if `p` is longer. The object is unchanged. -/
theorem C11_receive_payload (s : ZMQWrapperImpl) (hr : Reachable s)
    (hi : s.IsInitialized = true) (message : StdString) (env : RecvEnv)
    (hinit : env.zmq_msg_init = 0) (hrecv : 0 ≤ env.zmq_msg_recv) :
    (env.zmq_msg_data.length ≤ 10 * 1024 * 1024 →
      (s.ReceiveMessage message env).code = ErrorCode.SUCCESS ∧
      (s.ReceiveMessage message env).message = env.zmq_msg_data ∧
      (s.ReceiveMessage message env).message.length = env.zmq_msg_data.length) ∧
    (env.zmq_msg_data.length > 10 * 1024 * 1024 →
      (s.ReceiveMessage message env).code = ErrorCode.ERROR_MESSAGE_TOO_LARGE ∧
      (s.ReceiveMessage message env).message = message) ∧
    (s.ReceiveMessage message env).impl = s := by
  have hi' : s.initialized = true := hi
  have hsock := Reachable_socket s hr hi'
  have hinit' : ¬ env.zmq_msg_init ≠ 0 := not_not.mpr hinit
  have hrecv' : ¬ env.zmq_msg_recv < 0 := not_lt.mpr hrecv
  refine ⟨?_, ?_, ReceiveMessage_impl s message env⟩
  · intro hlen
    have hlen' : ¬ env.zmq_msg_data.length > MAX_MESSAGE_SIZE := not_lt.mpr hlen
    have e : s.ReceiveMessage message env =
        ⟨ErrorCode.SUCCESS, s, env.zmq_msg_data,
          [Event.zmq_msg_init, Event.zmq_msg_recv s.socket, Event.zmq_msg_close] ++ s.Log⟩ := by
      unfold ReceiveMessage
      simp only [hi', hsock, Bool.not_true, decide_False, Bool.or_self, Bool.false_eq_true,
        if_false, if_neg hinit', if_neg hrecv', if_neg hlen', List.take_length,
        List.append_assoc, List.cons_append, List.nil_append]
    rw [e]
    exact ⟨rfl, rfl, rfl⟩
  · intro hlen
    have hlen' : env.zmq_msg_data.length > MAX_MESSAGE_SIZE := hlen
    have e : s.ReceiveMessage message env =
        ⟨ErrorCode.ERROR_MESSAGE_TOO_LARGE, s, message,
          [Event.zmq_msg_init, Event.zmq_msg_recv s.socket, Event.zmq_msg_close] ++ s.Log⟩ := by
      unfold ReceiveMessage
      simp only [hi', hsock, Bool.not_true, decide_False, Bool.or_self, Bool.false_eq_true,
        if_false, if_neg hinit', if_neg hrecv', if_pos hlen',
        List.append_assoc, List.cons_append, List.nil_append]
    rw [e]
    exact ⟨rfl, rfl⟩

theorem C11_receive_payload_witness :
    (readyServer.ReceiveMessage "old".toList ⟨0, 5, 0, "hello".toList⟩).message =
      "hello".toList ∧
    (readyServer.ReceiveMessage "old".toList ⟨0, 0, 0, []⟩).message.length = 0 ∧
    (readyServer.ReceiveMessage "old".toList
      ⟨0, 1, 0, List.replicate (10 * 1024 * 1024 + 1) 'A'⟩).code =
      ErrorCode.ERROR_MESSAGE_TOO_LARGE :=
  ⟨((C11_receive_payload readyServer readyServer_reachable (by decide) "old".toList
      ⟨0, 5, 0, "hello".toList⟩ rfl (by decide)).1 (by decide)).2.1,
    ((C11_receive_payload readyServer readyServer_reachable (by decide) "old".toList
      ⟨0, 0, 0, []⟩ rfl (by decide)).1 (by decide)).2.2,
    ((C11_receive_payload readyServer readyServer_reachable (by decide) "old".toList
      ⟨0, 1, 0, List.replicate (10 * 1024 * 1024 + 1) 'A'⟩ rfl (by decide)).2.1
      (by rw [List.length_replicate]; exact Nat.lt_succ_self _)).1⟩

/-- C12: round trip over the lossless FIFO transport. For every message `m`
of at most `10 * 1024 * 1024` bytes, the empty message included,
`SendMessage m` on an initialized wrapper returns `SUCCESS` and puts exactly
`m` at the end of the queue; the peer's `ReceiveMessage`, answered from the
queue the send left, returns `SUCCESS` with a string equal to `m` and takes it
off the queue; an empty message is received with length `0`. -/
theorem C12_round_trip (sender peer : ZMQWrapperImpl) (hs : Reachable sender)
    (hsi : sender.IsInitialized = true) (hp : Reachable peer)
    (hpi : peer.IsInitialized = true) (m out : StdString)
    (hm : m.length ≤ 10 * 1024 * 1024) :
    (sender.SendMessage m (Fifo.sendEnv m)).code = ErrorCode.SUCCESS ∧
    (∀ q : Fifo, Fifo.after q (sender.SendMessage m (Fifo.sendEnv m)).trace = q ++ [m]) ∧
    (peer.ReceiveMessage out
      (Fifo.recvEnv (Fifo.after [] (sender.SendMessage m (Fifo.sendEnv m)).trace))).code =
      ErrorCode.SUCCESS ∧
    (peer.ReceiveMessage out
      (Fifo.recvEnv (Fifo.after [] (sender.SendMessage m (Fifo.sendEnv m)).trace))).message =
      m ∧
    (m = [] → (peer.ReceiveMessage out
      (Fifo.recvEnv (Fifo.after [] (sender.SendMessage m
        (Fifo.sendEnv m)).trace))).message.length = 0) ∧
    Fifo.after (Fifo.after [] (sender.SendMessage m (Fifo.sendEnv m)).trace)
      (peer.ReceiveMessage out
        (Fifo.recvEnv (Fifo.after [] (sender.SendMessage m (Fifo.sendEnv m)).trace))).trace =
      [] := by
  have hsi' : sender.initialized = true := hsi
  have hpi' : peer.initialized = true := hpi
  have hq : ∀ q : Fifo, Fifo.after q ([Event.zmq_send sender.socket m] ++ sender.Log) =
      q ++ [m] := by
    intro q
    unfold Log
    split_ifs <;> rfl
  have hsend : ¬ (Fifo.sendEnv m).zmq_send < 0 := by
    simp [Fifo.sendEnv]
  rw [SendMessage_sent sender m _ hsi' (Reachable_socket sender hs hsi') hm, if_neg hsend]
  dsimp only
  rw [hq [], List.nil_append]
  have hrecv := ReceiveMessage_delivered peer out (Fifo.recvEnv [m]) hpi'
    (Reachable_socket peer hp hpi') rfl (by simp [Fifo.recvEnv])
    (show m.length ≤ MAX_MESSAGE_SIZE from hm)
  rw [hrecv]
  refine ⟨rfl, hq, rfl, rfl, fun h => by subst h; rfl, ?_⟩
  dsimp only
  unfold Log
  split_ifs <;> rfl

theorem C12_round_trip_witness :
    (readyServer.ReceiveMessage "old".toList
      (Fifo.recvEnv (Fifo.after [] (readyClient.SendMessage []
        (Fifo.sendEnv [])).trace))).message.length = 0 ∧
    (readyServer.ReceiveMessage "old".toList
      (Fifo.recvEnv (Fifo.after [] (readyClient.SendMessage "test".toList
        (Fifo.sendEnv "test".toList)).trace))).message = "test".toList :=
  ⟨(C12_round_trip readyClient readyServer readyClient_reachable readyClient_initialized
      readyServer_reachable (by decide) [] "old".toList (by decide)).2.2.2.2.1 rfl,
    (C12_round_trip readyClient readyServer readyClient_reachable readyClient_initialized
      readyServer_reachable (by decide) "test".toList "old".toList (by decide)).2.2.2.1⟩

/-- C13 (the claim as stated fails): on a wrapper that is not initialized
`Subscribe` does not return `ERROR_INVALID_PATTERN`; it returns
`ERROR_NOT_INITIALIZED`. -/
theorem C13_not_initialized_counterexample :
    ZMQWrapperImpl.new.IsInitialized = false ∧
    (ZMQWrapperImpl.new.Subscribe "topic".toList ⟨0⟩).code =
      ErrorCode.ERROR_NOT_INITIALIZED ∧
    (ZMQWrapperImpl.new.Subscribe "topic".toList ⟨0⟩).code ≠
      ErrorCode.ERROR_INVALID_PATTERN := by
  decide

/-- C13 (amended): `Subscribe` is valid only on an initialized wrapper with
pattern `PUB_SUB` and mode `CLIENT`, where it hands the topic to the
transport. On an initialized wrapper with any other pattern or mode it returns
`ERROR_INVALID_PATTERN` for every topic, makes no transport call and leaves
the object unchanged; on a wrapper that is not initialized it returns
`ERROR_NOT_INITIALIZED`, makes no call at all and leaves the object
unchanged. -/
theorem C13_subscribe_guard (s : ZMQWrapperImpl) (hr : Reachable s) (topic : StdString)
    (env : SubscribeEnv) :
    (s.IsInitialized = true →
      s.config.pattern ≠ Pattern.PUB_SUB ∨ s.config.mode ≠ Mode.CLIENT →
      (s.Subscribe topic env).code = ErrorCode.ERROR_INVALID_PATTERN ∧
      (∀ e, e ∈ (s.Subscribe topic env).trace → e.isTransport = false) ∧
      (s.Subscribe topic env).impl = s) ∧
    (s.IsInitialized = false →
      (s.Subscribe topic env).code = ErrorCode.ERROR_NOT_INITIALIZED ∧
      (s.Subscribe topic env).trace = [] ∧
      (s.Subscribe topic env).impl = s) ∧
    (s.IsInitialized = true → s.config.pattern = Pattern.PUB_SUB →
      s.config.mode = Mode.CLIENT →
      (s.Subscribe topic env).code ≠ ErrorCode.ERROR_INVALID_PATTERN ∧
      (s.Subscribe topic env).code ≠ ErrorCode.ERROR_NOT_INITIALIZED ∧
      Event.zmq_setsockopt_str s.socket ZMQ_SUBSCRIBE topic ∈ (s.Subscribe topic env).trace ∧
      (s.Subscribe topic env).impl = s) := by
  refine ⟨?_, ?_, ?_⟩
  · intro hi hpm
    have hi' : s.initialized = true := hi
    have hsock := Reachable_socket s hr hi'
    have e : s.Subscribe topic env = ⟨ErrorCode.ERROR_INVALID_PATTERN, s, s.Log⟩ := by
      unfold Subscribe
      simp only [hi', hsock, Bool.not_true, decide_False, Bool.or_self, Bool.false_eq_true,
        if_false, if_pos hpm]
    rw [e]
    refine ⟨rfl, ?_, rfl⟩
    intro e he
    rw [Log_mem s e he]
    rfl
  · intro hi
    have hi' : s.initialized = false := hi
    have e : s.Subscribe topic env = ⟨ErrorCode.ERROR_NOT_INITIALIZED, s, []⟩ := by
      simp [Subscribe, hi']
    rw [e]
    exact ⟨rfl, rfl, rfl⟩
  · intro hi hp hm
    have hi' : s.initialized = true := hi
    have hsock := Reachable_socket s hr hi'
    have hpm : ¬ (s.config.pattern ≠ Pattern.PUB_SUB ∨ s.config.mode ≠ Mode.CLIENT) := by
      simp [hp, hm]
    have e : s.Subscribe topic env =
        ⟨if env.zmq_setsockopt ≠ 0 then ErrorCode.ERROR_SOCKET_CREATE_FAILED
          else ErrorCode.SUCCESS, s,
          [Event.zmq_setsockopt_str s.socket ZMQ_SUBSCRIBE topic] ++ s.Log⟩ := by
      unfold Subscribe
      simp only [hi', hsock, Bool.not_true, decide_False, Bool.or_self, Bool.false_eq_true,
        if_false, if_neg hpm]
      split_ifs <;> rfl
    rw [e]
    refine ⟨?_, ?_, by simp, rfl⟩
    · dsimp only
      split_ifs <;> decide
    · dsimp only
      split_ifs <;> decide

theorem C13_subscribe_guard_witness :
    (readyServer.Subscribe "topic".toList ⟨0⟩).code = ErrorCode.ERROR_INVALID_PATTERN ∧
    (ZMQWrapperImpl.new.Subscribe "topic".toList ⟨0⟩).code =
      ErrorCode.ERROR_NOT_INITIALIZED ∧
    Event.zmq_setsockopt_str readySubscriber.socket ZMQ_SUBSCRIBE "topic".toList ∈
      (readySubscriber.Subscribe "topic".toList ⟨0⟩).trace :=
  ⟨((C13_subscribe_guard readyServer readyServer_reachable "topic".toList ⟨0⟩).1
      (by decide) (by decide)).1,
    ((C13_subscribe_guard ZMQWrapperImpl.new Reachable.new "topic".toList ⟨0⟩).2.1
      (by decide)).1,
    ((C13_subscribe_guard readySubscriber readySubscriber_reachable "topic".toList ⟨0⟩).2.2
      readySubscriber_initialized (by rw [readySubscriber_eq]; rfl)
      (by rw [readySubscriber_eq]; rfl)).2.2.1⟩

/-- C14 (the claim as stated fails): the wrapper of `test_basic_init_cleanup`,
initialized and then closed, is initialized again by a further `Init`. -/
theorem C14_closed_not_terminal_counterexample :
    readyServer.IsInitialized = true ∧
    (readyServer.Close ⟨0, 0⟩).impl.IsInitialized = false ∧
    ((readyServer.Close ⟨0, 0⟩).impl.Init test_basic_config initEnvOk).code =
      ErrorCode.SUCCESS ∧
    ((readyServer.Close ⟨0, 0⟩).impl.Init test_basic_config initEnvOk).impl.IsInitialized =
      true := by
  decide

/-- C14 (amended): `Close` on an initialized wrapper leaves it not initialized
with both handles null, and the wrapper can be initialized again: an `Init`
made after that `Close` with a valid config, when the transport creates
context and socket and the bind or one of the three connects succeeds,
returns `SUCCESS` and `IsInitialized` is true again. -/
theorem C14_reinit_after_close (s : ZMQWrapperImpl) (hi : s.IsInitialized = true)
    (cenv : CloseEnv) (cfg : Config) (env : InitEnv)
    (hp : cfg.pattern = Pattern.REQ_REP ∨ cfg.pattern = Pattern.PUB_SUB ∨
      cfg.pattern = Pattern.PUSH_PULL)
    (ht : 0 ≤ cfg.timeout_ms)
    (hl : (BuildEndpoint cfg.endpoint).length < 108)
    (hctx : env.zmq_ctx_new ≠ 0) (hsock : env.zmq_socket ≠ 0)
    (hbind : cfg.mode = Mode.SERVER → env.zmq_bind = 0)
    (hconn : cfg.mode ≠ Mode.SERVER → ∃ k, k < 3 ∧ env.zmq_connect k = 0) :
    (s.Close cenv).impl.IsInitialized = false ∧
    (s.Close cenv).impl.socket = 0 ∧
    (s.Close cenv).impl.context = 0 ∧
    ((s.Close cenv).impl.Init cfg env).code = ErrorCode.SUCCESS ∧
    ((s.Close cenv).impl.Init cfg env).impl.IsInitialized = true := by
  have hi' : s.initialized = true := hi
  have hc : (s.Close cenv).impl.initialized = false := Cleanup_initialized s cenv
  obtain ⟨h1, h2⟩ := Init_success (s.Close cenv).impl cfg env hc hp ht hl hctx hsock hbind hconn
  refine ⟨hc, ?_, ?_, h1, ?_⟩
  · unfold Close; rw [Cleanup_impl, if_pos hi']
  · unfold Close; rw [Cleanup_impl, if_pos hi']
  · rw [h2]; rfl

theorem C14_reinit_after_close_witness :
    ((readyServer.Close ⟨0, 0⟩).impl.Init test_basic_config initEnvOk).code =
      ErrorCode.SUCCESS ∧
    ((readyServer.Close ⟨0, 0⟩).impl.Init test_basic_config initEnvOk).impl.IsInitialized =
      true :=
  (C14_reinit_after_close readyServer (by decide) ⟨0, 0⟩ test_basic_config initEnvOk
    (by decide) (by decide) (by decide) (by decide) (by decide) (fun _ => rfl)
    (fun _ => ⟨0, by decide, rfl⟩)).2.2.2

/-- C15: `Close` calls `unlink` only when the wrapper is initialized, its mode
is SERVER and its resolved endpoint starts with `ipc://`, and then only on the
path that follows that prefix; it never calls `remove`. On a wrapper whose
mode is not SERVER (a CLIENT), whose endpoint does not start with `ipc://`, or
that is not initialized, it makes no file removal call. When all three hold
and the file exists it makes exactly one. `Close` returns `SUCCESS` in every
case, whatever `access` and `unlink` answer. -/
theorem C15_close_removal (s : ZMQWrapperImpl) (env : CloseEnv) :
    (s.Close env).code = ErrorCode.SUCCESS ∧
    (∀ p, Event.unlink p ∈ (s.Close env).trace →
      s.IsInitialized = true ∧ s.config.mode = Mode.SERVER ∧
      s.endpoint_path.take 6 = "ipc://".toList ∧ p = s.endpoint_path.drop 6) ∧
    (∀ p, Event.remove p ∉ (s.Close env).trace) ∧
    (s.IsInitialized = false ∨ s.config.mode ≠ Mode.SERVER ∨
        s.endpoint_path.take 6 ≠ "ipc://".toList →
      removals (s.Close env).trace = 0) ∧
    (s.IsInitialized = true → s.config.mode = Mode.SERVER →
      s.endpoint_path.take 6 = "ipc://".toList → env.access = 0 →
      removals (s.Close env).trace = 1) := by
  refine ⟨Cleanup_code s env, ?_, ?_, ?_, ?_⟩
  · intro p hp
    unfold Close Cleanup CleanupSocket Log at hp
    cases hi : s.initialized
    · simp [hi] at hp
    · simp only [hi, Bool.not_true, Bool.false_eq_true, if_false] at hp
      split_ifs at hp with h1 <;> simp at hp
      all_goals exact ⟨hi, h1.1, h1.2, hp⟩
  · intro p hp
    unfold Close Cleanup CleanupSocket Log at hp
    cases hi : s.initialized
    · simp [hi] at hp
    · simp only [hi, Bool.not_true, Bool.false_eq_true, if_false] at hp
      split_ifs at hp <;> simp at hp
  · intro h
    unfold Close Cleanup CleanupSocket Log removals
    cases hi : s.initialized
    · simp
    · have h' : ¬ (s.config.mode = Mode.SERVER ∧ s.endpoint_path.take 6 = "ipc://".toList) := by
        rintro ⟨h1, h2⟩
        rcases h with h | h | h
        · exact absurd (show s.initialized = false from h) (by simp [hi])
        · exact h h1
        · exact h h2
      simp only [Bool.not_true, Bool.false_eq_true, if_false, if_neg h',
        List.countP_append, List.nil_append]
      split_ifs <;> simp
  · intro hi hm hipc hacc
    have hi' : s.initialized = true := hi
    unfold Close Cleanup CleanupSocket Log removals
    simp only [hi', Bool.not_true, Bool.false_eq_true, if_false, if_pos (And.intro hm hipc),
      hacc, if_true, List.countP_append]
    split_ifs <;> simp

theorem C15_close_removal_witness :
    removals (readyServer.Close ⟨0, -1⟩).trace = 1 ∧
    (readyServer.Close ⟨0, -1⟩).code = ErrorCode.SUCCESS ∧
    removals (readyClient.Close ⟨0, 0⟩).trace = 0 :=
  ⟨(C15_close_removal readyServer ⟨0, -1⟩).2.2.2.2 (by decide) (by decide) (by decide) rfl,
    (C15_close_removal readyServer ⟨0, -1⟩).1,
    (C15_close_removal readyClient ⟨0, 0⟩).2.2.2.1
      (Or.inr (Or.inl (by rw [readyClient_eq]; decide)))⟩

/-- C16: endpoint reuse in both variants, over the filesystem model (a
removal deletes the file, `access` answers for the file that is there, a bind
answers `0` when no file is at the path). After a SERVER on the endpoint
`ipc://` + `p` has been initialized on a fresh object and then closed, no
file exists at `p`; and a second SERVER `Init` on the same endpoint, on a
fresh object whose context and socket are created, comes to its bind call
with no file at `p` and returns success (`SUCCESS`, respectively `OK`). -/
theorem C16_endpoint_reuse (p : StdString) (fs : Fs) :
    (∀ (cfg : Config) (env1 env2 : InitEnv) (cenv : CloseEnv),
      cfg.mode = Mode.SERVER → cfg.endpoint = "ipc://".toList ++ p →
      (ZMQWrapperImpl.new.Init cfg env1).code = ErrorCode.SUCCESS →
      Fs.agrees cenv.access 0 0 (fsAfterInit fs cfg env1)
        ((ZMQWrapperImpl.new.Init cfg env1).impl.Close cenv).trace = true →
      p ∉ fsAfterClose fs cfg env1 cenv ∧
      (env2.zmq_ctx_new ≠ 0 → env2.zmq_socket ≠ 0 →
        Fs.agrees env2.access env2.remove env2.zmq_bind (fsAfterClose fs cfg env1 cenv)
          (ZMQWrapperImpl.new.Init cfg env2).trace = true →
        (ZMQWrapperImpl.new.Init cfg env2).code = ErrorCode.SUCCESS ∧
        ∃ pre post, (ZMQWrapperImpl.new.Init cfg env2).trace =
            pre ++ Event.zmq_bind env2.zmq_socket cfg.endpoint :: post ∧
          p ∉ Fs.after env2.zmq_bind (fsAfterClose fs cfg env1 cenv) pre)) ∧
    (∀ (pattern1 pattern2 : Pattern) (mode1 mode2 : Mode) (cfg : Context.Config)
      (env1 env2 : InitEnv),
      cfg.mode = Mode.SERVER → cfg.endpoint = "ipc://".toList ++ p →
      (Context.Init (Context.Impl.new pattern1 mode1) cfg env1).code = Context.ErrorCode.OK →
      p ∉ Context.fsAfterClose fs pattern1 mode1 cfg env1 ∧
      (env2.zmq_ctx_new ≠ 0 → env2.zmq_socket ≠ 0 →
        Fs.agrees env2.access env2.remove env2.zmq_bind
          (Context.fsAfterClose fs pattern1 mode1 cfg env1)
          (Context.Init (Context.Impl.new pattern2 mode2) cfg env2).trace = true →
        (Context.Init (Context.Impl.new pattern2 mode2) cfg env2).code =
          Context.ErrorCode.OK ∧
        ∃ pre post, (Context.Init (Context.Impl.new pattern2 mode2) cfg env2).trace =
            pre ++ Event.zmq_bind env2.zmq_socket cfg.endpoint :: post ∧
          p ∉ Fs.after env2.zmq_bind (Context.fsAfterClose fs pattern1 mode1 cfg env1)
            pre)) := by
  constructor
  swap
  · intro pattern1 pattern2 mode1 mode2 cfg env1 env2 hm hep hcode
    obtain ⟨hctx, hsock, hlen, hex, hrc⟩ := Context.Init_ok_inv _ cfg env1 rfl hcode
    have hipc : cfg.endpoint.take 6 = "ipc://".toList := by rw [hep]; exact ipc_take p
    have hdrop : cfg.endpoint.drop 6 = p := by rw [hep]; exact ipc_drop p
    have hclose : (Context.Close
        (Context.Init (Context.Impl.new pattern1 mode1) cfg env1).impl).trace =
        [Event.zmq_close env1.zmq_socket, Event.zmq_ctx_term env1.zmq_ctx_new,
          Event.remove p] ++ (if cfg.verbose then [Event.log] else []) := by
      rw [Context.Init_ok _ cfg env1 rfl hctx hsock hlen hex hrc]
      unfold Context.Close Context.Impl.log Context.Init_s2
      simp only [Bool.false_eq_true, if_false, ne_eq, hctx, hsock, not_false_eq_true, if_true,
        hipc, hm, hdrop, and_self, List.append_assoc, List.cons_append, List.nil_append]
    have hp2 : p ∉ Context.fsAfterClose fs pattern1 mode1 cfg env1 := by
      unfold Context.fsAfterClose
      rw [hclose]
      generalize Context.fsAfterInit fs pattern1 mode1 cfg env1 = fs1
      by_cases hlog : cfg.verbose = true <;> simp [hlog, Fs.after, Fs.step]
    refine ⟨hp2, ?_⟩
    intro hctx2 hsock2 hagree2
    generalize Context.fsAfterClose fs pattern1 mode1 cfg env1 = fs2 at hp2 hagree2 ⊢
    have hpre3 : bindCalls (Context.Init_t3 cfg env2) = 0 := by
      simp only [bindCalls, Context.Init_t3, List.countP_append]
      split_ifs <;> simp
    have hpre : bindCalls (Context.Init_t3 cfg env2 ++ Context.Init_stale cfg env2) = 0 := by
      simp only [bindCalls, Context.Init_t3, Context.Init_stale, List.countP_append]
      split_ifs <;> simp
    have hattach : Context.Init_attach cfg env2 = Event.zmq_bind env2.zmq_socket cfg.endpoint := by
      unfold Context.Init_attach
      rw [if_pos hm]
    have hex2 : ¬ (cfg.endpoint.take 6 = "ipc://".toList ∧ cfg.mode = Mode.SERVER ∧
        env2.access = 0 ∧ env2.remove ≠ 0) := by
      intro hex2
      rw [Context.Init_socket_exists _ cfg env2 rfl hctx2 hsock2 hlen hex2] at hagree2
      have hst : Context.Init_stale cfg env2 = Event.access p :: [Event.remove p] := by
        unfold Context.Init_stale
        rw [if_pos ⟨hipc, hm⟩, if_pos hex2.2.2.1, hdrop]
        rfl
      dsimp only at hagree2
      rw [hst] at hagree2
      have := (Fs.agrees_access _ _ _ fs2 _ _ p hagree2).mp hex2.2.2.1
      exact Fs.after_not_mem env2.zmq_bind _ hpre3 fs2 p hp2 this
    have hpre' := Fs.after_not_mem env2.zmq_bind _ hpre fs2 p hp2
    by_cases hb2 : (if cfg.mode = Mode.SERVER then env2.zmq_bind else env2.zmq_connect 0) = 0
    · rw [Context.Init_ok _ cfg env2 rfl hctx2 hsock2 hlen hex2 hb2]
      refine ⟨rfl, Context.Init_t3 cfg env2 ++ Context.Init_stale cfg env2,
        (Context.Init_s2 (Context.Impl.new pattern2 mode2) cfg env2).log, ?_, hpre'⟩
      rw [hattach]
      simp only [List.append_assoc, List.cons_append, List.nil_append]
    · exfalso
      rw [Context.Init_attach_failed _ cfg env2 rfl hctx2 hsock2 hlen hex2 hb2, hattach]
        at hagree2
      apply hb2
      rw [if_pos hm]
      refine Fs.agrees_bind env2.access env2.remove env2.zmq_bind fs2
        (Context.Init_t3 cfg env2 ++ Context.Init_stale cfg env2)
        [Event.zmq_close env2.zmq_socket, Event.zmq_ctx_term env2.zmq_ctx_new]
        env2.zmq_socket cfg.endpoint ?_ ?_
      · rw [← hagree2]
        simp only [List.append_assoc, List.cons_append, List.nil_append]
      · rw [hdrop]
        exact hpre'
  intro cfg env1 env2 cenv hm hep hcode hagree
  obtain ⟨ht, hctx, hk, hsock, hl, hb⟩ := Init_server_success _ cfg env1 hm hcode
  have hB : BuildEndpoint cfg.endpoint = "ipc://".toList ++ p := by
    rw [hep]; exact BuildEndpoint_ipc p
  have himpl : (ZMQWrapperImpl.new.Init cfg env1).impl =
      { Init_s3 ZMQWrapperImpl.new cfg env1 with initialized := true } := by
    rw [Init_server_ok _ cfg env1 rfl ht hctx hk hsock hl hm hb]
  have hclose : ((ZMQWrapperImpl.new.Init cfg env1).impl.Close cenv).trace =
      [Event.access p] ++
        (if cenv.access = 0 then
          (if cfg.enable_logging then [Event.log] else []) ++ [Event.unlink p] else []) ++
        [Event.zmq_close env1.zmq_socket, Event.zmq_ctx_term env1.zmq_ctx_new] ++
        (if cfg.enable_logging then [Event.log] else []) := by
    rw [himpl]
    unfold Close Cleanup CleanupSocket Log Init_s3
    simp only [Bool.not_true, Bool.false_eq_true, if_false, hm, hB, ipc_take, ipc_drop,
      and_self, if_true, ne_eq, hctx, hsock, not_false_eq_true, List.append_assoc,
      List.cons_append, List.nil_append]
  have hp2 : p ∉ fsAfterClose fs cfg env1 cenv := by
    unfold fsAfterClose
    rw [hclose] at hagree ⊢
    generalize fsAfterInit fs cfg env1 = fs1 at hagree ⊢
    by_cases hacc : cenv.access = 0 <;> by_cases hlog : cfg.enable_logging = true <;>
      simp [hacc, hlog, Fs.agrees, Fs.after, Fs.step] at hagree ⊢ <;> assumption
  refine ⟨hp2, ?_⟩
  intro hctx2 hsock2 hagree2
  generalize fsAfterClose fs cfg env1 cenv = fs2 at hp2 hagree2 ⊢
  have hpre : bindCalls (Init_t4 cfg env2 ++ Init_stale ZMQWrapperImpl.new cfg env2) = 0 := by
    simp only [bindCalls, Init_t4, Init_stale, Init_s3, Log, List.countP_append]
    split_ifs <;> simp
  have hpre' := Fs.after_not_mem env2.zmq_bind _ hpre fs2 p hp2
  by_cases hb2 : env2.zmq_bind = 0
  · rw [Init_server_ok _ cfg env2 rfl ht hctx2 hk hsock2 hl hm hb2]
    refine ⟨rfl, Init_t4 cfg env2 ++ Init_stale ZMQWrapperImpl.new cfg env2,
      (Init_s3 ZMQWrapperImpl.new cfg env2).Log, ?_, hpre'⟩
    rw [hB, ← hep]
    simp only [List.append_assoc, List.cons_append, List.nil_append]
  · exfalso
    rw [Init_bind_failed _ cfg env2 rfl ht hctx2 hk hsock2 hl hm hb2] at hagree2
    apply hb2
    refine Fs.agrees_bind env2.access env2.remove env2.zmq_bind fs2
      (Init_t4 cfg env2 ++ Init_stale ZMQWrapperImpl.new cfg env2)
      ((Init_s3 ZMQWrapperImpl.new cfg env2).Log ++
        [Event.zmq_close env2.zmq_socket, Event.zmq_ctx_term env2.zmq_ctx_new])
      env2.zmq_socket (BuildEndpoint cfg.endpoint) ?_ ?_
    · rw [← hagree2]
      simp only [List.append_assoc, List.cons_append, List.nil_append]
    · rw [hB, ipc_drop]
      exact hpre'

theorem C16_endpoint_reuse_witness :
    "/tmp/test_basic.sock".toList ∉
      fsAfterClose [] test_basic_config initEnvOk ⟨0, 0⟩ ∧
    (ZMQWrapperImpl.new.Init test_basic_config initEnvOk).code = ErrorCode.SUCCESS ∧
    "/tmp/test_cleanup.sock".toList ∉
      Context.fsAfterClose [] Pattern.REQ_REP Mode.SERVER test_cleanup_config initEnvOk ∧
    (Context.Init (Context.Impl.new Pattern.REQ_REP Mode.SERVER) test_cleanup_config
      initEnvOk).code = Context.ErrorCode.OK :=
  ⟨((C16_endpoint_reuse "/tmp/test_basic.sock".toList []).1 test_basic_config initEnvOk
      initEnvOk ⟨0, 0⟩ rfl (by decide) (by decide) (by decide)).1,
    (((C16_endpoint_reuse "/tmp/test_basic.sock".toList []).1 test_basic_config initEnvOk
      initEnvOk ⟨0, 0⟩ rfl (by decide) (by decide) (by decide)).2 (by decide) (by decide)
      (by decide)).1,
    ((C16_endpoint_reuse "/tmp/test_cleanup.sock".toList []).2 Pattern.REQ_REP
      Pattern.REQ_REP Mode.SERVER Mode.SERVER test_cleanup_config initEnvOk initEnvOk rfl
      (by decide) (by decide)).1,
    (((C16_endpoint_reuse "/tmp/test_cleanup.sock".toList []).2 Pattern.REQ_REP
      Pattern.REQ_REP Mode.SERVER Mode.SERVER test_cleanup_config initEnvOk initEnvOk rfl
      (by decide) (by decide)).2 (by decide) (by decide) (by decide)).1⟩

/-- C17: `GetErrorMessage` is total: each of the 14 named codes from
`SUCCESS` to `ERROR_PATH_TOO_LONG` (the integers from `0` down to `-13`) has
its own fixed string, every other integer value, `ERROR_UNKNOWN` (-99)
included, gives "Unknown error", and the result is never empty. -/
theorem C17_error_message_total :
    (ZMQWrapper.GetErrorMessage ErrorCode.SUCCESS.toInt = "Success".toList ∧
      ZMQWrapper.GetErrorMessage ErrorCode.ERROR_NOT_INITIALIZED.toInt =
        "Wrapper not initialized".toList ∧
      ZMQWrapper.GetErrorMessage ErrorCode.ERROR_ALREADY_INITIALIZED.toInt =
        "Wrapper already initialized".toList ∧
      ZMQWrapper.GetErrorMessage ErrorCode.ERROR_INVALID_CONFIG.toInt =
        "Invalid configuration".toList ∧
      ZMQWrapper.GetErrorMessage ErrorCode.ERROR_SOCKET_CREATE_FAILED.toInt =
        "Failed to create socket".toList ∧
      ZMQWrapper.GetErrorMessage ErrorCode.ERROR_SOCKET_BIND_FAILED.toInt =
        "Failed to bind socket".toList ∧
      ZMQWrapper.GetErrorMessage ErrorCode.ERROR_SOCKET_CONNECT_FAILED.toInt =
        "Failed to connect socket".toList ∧
      ZMQWrapper.GetErrorMessage ErrorCode.ERROR_SEND_FAILED.toInt =
        "Failed to send message".toList ∧
      ZMQWrapper.GetErrorMessage ErrorCode.ERROR_RECEIVE_FAILED.toInt =
        "Failed to receive message".toList ∧
      ZMQWrapper.GetErrorMessage ErrorCode.ERROR_TIMEOUT.toInt =
        "Operation timed out".toList ∧
      ZMQWrapper.GetErrorMessage ErrorCode.ERROR_MESSAGE_TOO_LARGE.toInt =
        "Message too large".toList ∧
      ZMQWrapper.GetErrorMessage ErrorCode.ERROR_INVALID_PATTERN.toInt =
        "Invalid communication pattern".toList ∧
      ZMQWrapper.GetErrorMessage ErrorCode.ERROR_PERMISSION_DENIED.toInt =
        "Permission denied".toList ∧
      ZMQWrapper.GetErrorMessage ErrorCode.ERROR_PATH_TOO_LONG.toInt =
        "Path too long".toList) ∧
    (∀ code : Int, (code < -13 ∨ 0 < code) →
      ZMQWrapper.GetErrorMessage code = "Unknown error".toList) ∧
    ErrorCode.ERROR_UNKNOWN.toInt = -99 ∧
    ZMQWrapper.GetErrorMessage ErrorCode.ERROR_UNKNOWN.toInt = "Unknown error".toList ∧
    (∀ code : Int, ZMQWrapper.GetErrorMessage code ≠ []) := by
  refine ⟨by decide, ?_, rfl, by decide, ?_⟩
  · intro code h
    exact GetErrorMessage_other code h
  · intro code
    by_cases h : code < -13 ∨ 0 < code
    · rw [GetErrorMessage_other code h]
      decide
    · have h1 : -13 ≤ code := by omega
      have h2 : code ≤ 0 := by omega
      interval_cases code <;> decide

theorem C17_error_message_total_witness :
    ZMQWrapper.GetErrorMessage 7 = "Unknown error".toList ∧
    ZMQWrapper.GetErrorMessage (-14) = "Unknown error".toList :=
  ⟨C17_error_message_total.2.1 7 (Or.inr (by decide)),
    C17_error_message_total.2.1 (-14) (Or.inl (by decide))⟩

/-- C18: on a wrapper that is not initialized, `Init` returns
`ERROR_INVALID_CONFIG` if and only if `timeout_ms < 0`, for every pattern,
mode and endpoint and every answer of the transport; with `timeout_ms < 0` it
makes no call at all and leaves the whole object, the stored config included,
as it was. `BuildEndpoint` returns a non-empty string for every input, so the
other `ERROR_INVALID_CONFIG` return of `Init` is never taken. -/
theorem C18_invalid_config (s : ZMQWrapperImpl) (cfg : Config) (env : InitEnv)
    (h0 : s.IsInitialized = false) :
    ((s.Init cfg env).code = ErrorCode.ERROR_INVALID_CONFIG ↔ cfg.timeout_ms < 0) ∧
    (cfg.timeout_ms < 0 → s.Init cfg env = ⟨ErrorCode.ERROR_INVALID_CONFIG, s, []⟩) ∧
    (∀ custom_endpoint : StdString, BuildEndpoint custom_endpoint ≠ []) := by
  have h0' : s.initialized = false := h0
  refine ⟨?_, fun h => Init_negative_timeout s cfg env h0' h, BuildEndpoint_ne_nil⟩
  refine Init_cases (fun r => r.code = ErrorCode.ERROR_INVALID_CONFIG ↔ cfg.timeout_ms < 0)
    s cfg env ?_ ?_ ?_ ?_ ?_ ?_ ?_ ?_ ?_ ?_
  all_goals intros
  all_goals first
    | (simp_all; done)
    | (constructor
       · intro h; split_ifs at h
       · intro h; exfalso; omega)

theorem C18_invalid_config_witness :
    ZMQWrapperImpl.new.Init { test_basic_config with timeout_ms := -1 } initEnvOk =
      ⟨ErrorCode.ERROR_INVALID_CONFIG, ZMQWrapperImpl.new, []⟩ ∧
    (ZMQWrapperImpl.new.Init test_basic_config initEnvDenied).code ≠
      ErrorCode.ERROR_INVALID_CONFIG :=
  ⟨(C18_invalid_config ZMQWrapperImpl.new { test_basic_config with timeout_ms := -1 }
      initEnvOk rfl).2.1 (by decide),
    fun h => absurd ((C18_invalid_config ZMQWrapperImpl.new test_basic_config initEnvDenied
      rfl).1.mp h) (by decide)⟩

/-- C19: once `Context::Init` has returned `OK` the Context is marked
initialized, no operation clears that mark, and every `Init` on a Context so
marked, with any config, returns `OK`, makes no call at all and leaves
config, handles and flags as they were. This covers an `Init` made after
`Close`: it returns `OK`, the Context stays closed, and `SendMessage` returns
`SEND_FAILED` and `ReceiveMessage` returns `RECV_FAILED` after it, without a
call and without touching the output string. -/
theorem C19_context_init_again :
    (∀ (s : Context.Impl) (cfg : Context.Config) (env : InitEnv),
      (Context.Init s cfg env).code = Context.ErrorCode.OK →
      (Context.Init s cfg env).impl.initialized = true) ∧
    (∀ s : Context.Impl, s.initialized = true →
      (∀ cfg env, (Context.Init s cfg env).impl.initialized = true) ∧
      (∀ msg env, (Context.SendMessage s msg env).impl.initialized = true) ∧
      (∀ out_msg env, (Context.ReceiveMessage s out_msg env).impl.initialized = true) ∧
      (Context.Close s).impl.initialized = true) ∧
    (∀ (s : Context.Impl) (cfg : Context.Config) (env : InitEnv), s.initialized = true →
      Context.Init s cfg env = ⟨Context.ErrorCode.OK, s, []⟩) ∧
    (∀ (s : Context.Impl) (cfg : Context.Config) (env : InitEnv), s.initialized = true →
      (Context.Close s).impl.closed = true ∧
      Context.Init (Context.Close s).impl cfg env =
        ⟨Context.ErrorCode.OK, (Context.Close s).impl, []⟩ ∧
      (∀ msg senv,
        Context.SendMessage (Context.Init (Context.Close s).impl cfg env).impl msg senv =
          ⟨Context.ErrorCode.SEND_FAILED, (Context.Close s).impl, []⟩) ∧
      (∀ out_msg renv,
        Context.ReceiveMessage (Context.Init (Context.Close s).impl cfg env).impl out_msg renv =
          ⟨Context.ErrorCode.RECV_FAILED, (Context.Close s).impl, out_msg, []⟩)) := by
  refine ⟨?_, ?_, ?_, ?_⟩
  · intro s cfg env
    refine Context.Init_cases_ctx (fun r => r.code = Context.ErrorCode.OK →
      r.impl.initialized = true) s cfg env ?_ ?_ ?_ ?_ ?_ ?_ ?_
    all_goals intros
    all_goals simp_all
  · intro s hi
    refine ⟨?_, ?_, ?_, ?_⟩
    · intro cfg env
      rw [Context.Init_already_ctx s cfg env hi]
      exact hi
    · intro msg env
      rw [Context.SendMessage_initialized]
      exact hi
    · intro out_msg env
      rw [Context.ReceiveMessage_initialized]
      exact hi
    · rw [Context.Close_initialized]
      exact hi
  · intro s cfg env hi
    exact Context.Init_already_ctx s cfg env hi
  · intro s cfg env hi
    have hci : (Context.Close s).impl.initialized = true := by
      rw [Context.Close_initialized]; exact hi
    have hcc : (Context.Close s).impl.closed = true := Context.Close_closed s
    refine ⟨hcc, Context.Init_already_ctx _ cfg env hci, ?_, ?_⟩
    · intro msg senv
      rw [Context.Init_already_ctx _ cfg env hci]
      simp [Context.SendMessage, hcc]
    · intro out_msg renv
      rw [Context.Init_already_ctx _ cfg env hci]
      simp [Context.ReceiveMessage, hcc]

theorem C19_context_init_again_witness :
    Context.Init readyContext test_toolarge_config initEnvDenied =
      ⟨Context.ErrorCode.OK, readyContext, []⟩ ∧
    (Context.SendMessage
      (Context.Init (Context.Close readyContext).impl test_cleanup_config initEnvOk).impl
      "test".toList ⟨4, []⟩).code = Context.ErrorCode.SEND_FAILED :=
  ⟨C19_context_init_again.2.2.1 readyContext test_toolarge_config initEnvDenied (by decide),
    congrArg Context.Ret.code
      ((C19_context_init_again.2.2.2 readyContext test_cleanup_config initEnvOk
        (by decide)).2.2.1 "test".toList ⟨4, []⟩)⟩

/-- C20: on an initialized, not closed Context, `SendMessage` of a message
longer than `1024 * 1024` bytes returns `MALFORMED_MESSAGE`, makes no call at
all (so no `zmq_send`) and sets the last error to "Message too large (>1MB)";
a message of at most `1024 * 1024` bytes, so one of exactly `1024 * 1024`
bytes, is not rejected for its size: `zmq_send` is called once with its bytes
on the Context's socket, and the result is `OK` or `SEND_FAILED` as the
transport answers. -/
theorem C20_context_send_limit (s : Context.Impl) (hi : s.initialized = true)
    (hc : s.closed = false) (msg : StdString) (env : Context.SendEnv) :
    (msg.length > 1024 * 1024 →
      (Context.SendMessage s msg env).code = Context.ErrorCode.MALFORMED_MESSAGE ∧
      (Context.SendMessage s msg env).trace = [] ∧
      sendCalls (Context.SendMessage s msg env).trace = 0 ∧
      Context.GetLastError (Context.SendMessage s msg env).impl =
        "Message too large (>1MB)".toList) ∧
    (msg.length ≤ 1024 * 1024 →
      (Context.SendMessage s msg env).code ≠ Context.ErrorCode.MALFORMED_MESSAGE ∧
      (Context.SendMessage s msg env).code =
        (if env.zmq_send < 0 then Context.ErrorCode.SEND_FAILED else Context.ErrorCode.OK) ∧
      sendCalls (Context.SendMessage s msg env).trace = 1 ∧
      Event.zmq_send s.zmq_sock msg ∈ (Context.SendMessage s msg env).trace) := by
  constructor
  · intro hlen
    have e : Context.SendMessage s msg env =
        ⟨Context.ErrorCode.MALFORMED_MESSAGE,
          { s with last_error := "Message too large (>1MB)".toList }, []⟩ := by
      unfold Context.SendMessage
      simp only [hi, hc, Bool.not_true, Bool.or_self, Bool.false_eq_true, if_false,
        if_pos hlen]
    rw [e]
    exact ⟨rfl, rfl, rfl, rfl⟩
  · intro hlen
    have hlen' : ¬ msg.length > 1024 * 1024 := not_lt.mpr hlen
    unfold Context.SendMessage
    simp only [hi, hc, Bool.not_true, Bool.or_self, Bool.false_eq_true, if_false,
      if_neg hlen']
    by_cases hs : env.zmq_send < 0
    · simp only [if_pos hs]
      refine ⟨by decide, trivial, rfl, by simp⟩
    · simp only [if_neg hs]
      refine ⟨by decide, trivial, ?_, by simp⟩
      simp only [sendCalls, Context.Impl.log, List.countP_append]
      split_ifs <;> rfl

theorem C20_context_send_limit_witness :
    (Context.SendMessage toolargeClient (List.replicate (1024 * 1024 + 1) 'X')
      ⟨0, []⟩).code = Context.ErrorCode.MALFORMED_MESSAGE ∧
    Context.GetLastError (Context.SendMessage toolargeClient
      (List.replicate (1024 * 1024 + 1) 'X') ⟨0, []⟩).impl =
      "Message too large (>1MB)".toList ∧
    sendCalls (Context.SendMessage toolargeClient (List.replicate (1024 * 1024) 'X')
      ⟨0, []⟩).trace = 1 :=
  ⟨((C20_context_send_limit toolargeClient (by decide) (by decide)
      (List.replicate (1024 * 1024 + 1) 'X') ⟨0, []⟩).1
      (by rw [List.length_replicate]; exact Nat.lt_succ_self _)).1,
    ((C20_context_send_limit toolargeClient (by decide) (by decide)
      (List.replicate (1024 * 1024 + 1) 'X') ⟨0, []⟩).1
      (by rw [List.length_replicate]; exact Nat.lt_succ_self _)).2.2.2,
    ((C20_context_send_limit toolargeClient (by decide) (by decide)
      (List.replicate (1024 * 1024) 'X') ⟨0, []⟩).2
      (by rw [List.length_replicate])).2.2.1⟩

/-- C21 (the claim as stated fails): on the Context of `test_socket_cleanup`
after its `Init`, a receive that fails with `EAGAIN` and one that fails with
`EACCES` return the same result code, `RECV_FAILED`. -/
theorem C21_same_code_counterexample :
    (Context.ReceiveMessage readyContext [] ⟨-1, [], EAGAIN, [], fun _ => 'x'⟩).code =
      Context.ErrorCode.RECV_FAILED ∧
    (Context.ReceiveMessage readyContext [] ⟨-1, [], EACCES, [], fun _ => 'x'⟩).code =
      Context.ErrorCode.RECV_FAILED ∧
    EAGAIN ≠ EACCES := by
  decide

/-- C21 (amended): `Context::ReceiveMessage` does not tell a timeout by its
result code. On an initialized, not closed Context, when `zmq_recv` fails it
returns `RECV_FAILED` for every value of `zmq_errno()`, `EAGAIN` included, and
leaves the output string as it was; only the last error differs: it is
"Receive timeout" for `EAGAIN` and "Receive failed: " followed by the
transport's text for every other value, and these two never coincide. -/
theorem C21_context_receive_failure (s : Context.Impl) (hi : s.initialized = true)
    (hc : s.closed = false) (out_msg : StdString) (env : Context.RecvEnv)
    (hfail : env.zmq_recv < 0) :
    (Context.ReceiveMessage s out_msg env).code = Context.ErrorCode.RECV_FAILED ∧
    (Context.ReceiveMessage s out_msg env).out_msg = out_msg ∧
    (env.zmq_errno = EAGAIN →
      Context.GetLastError (Context.ReceiveMessage s out_msg env).impl =
        "Receive timeout".toList) ∧
    (env.zmq_errno ≠ EAGAIN →
      Context.GetLastError (Context.ReceiveMessage s out_msg env).impl =
        "Receive failed: ".toList ++ env.zmq_strerror) ∧
    "Receive timeout".toList ≠ "Receive failed: ".toList ++ env.zmq_strerror := by
  rw [Context.ReceiveMessage_failed s out_msg env hi hc hfail]
  refine ⟨rfl, rfl, ?_, ?_, ?_⟩
  · intro h
    simp only [Context.GetLastError, if_pos h]
  · intro h
    simp only [Context.GetLastError, if_neg h]
  · intro h
    have h9 : ("Receive failed: ".toList ++ env.zmq_strerror).take 9 = "Receive f".toList := rfl
    have := congrArg (List.take 9) h
    rw [h9] at this
    exact absurd this (by decide)

theorem C21_context_receive_failure_witness :
    (Context.ReceiveMessage readyContext "old".toList
      ⟨-1, [], EAGAIN, [], fun _ => 'x'⟩).code = Context.ErrorCode.RECV_FAILED ∧
    (Context.ReceiveMessage readyContext "old".toList
      ⟨-1, [], EAGAIN, [], fun _ => 'x'⟩).out_msg = "old".toList :=
  ⟨(C21_context_receive_failure readyContext (by decide) (by decide) "old".toList
      ⟨-1, [], EAGAIN, [], fun _ => 'x'⟩ (by decide)).1,
    (C21_context_receive_failure readyContext (by decide) (by decide) "old".toList
      ⟨-1, [], EAGAIN, [], fun _ => 'x'⟩ (by decide)).2.1⟩

/-- C22 (the code departs from the claim at a path of exactly 108 bytes):
`Context::Init` compares the path with `> 108`. On a `Context` that is not
initialized and has got its context and socket, an `ipc://` endpoint with a
path longer than 108 bytes gives `PATH_TOO_LONG` with no bind and no connect
call; but with a path of exactly 108 bytes `Init` does not return
`PATH_TOO_LONG`: unless a socket file in the way cannot be removed it goes on
to the bind or connect call, and it returns `OK` and is initialized when that
call answers 0. What `OK` guarantees of an `ipc://` endpoint is a path of at
most 108 bytes, not of fewer than 108. -/
theorem C22_context_path_limit (s : Context.Impl) (cfg : Context.Config) (env : InitEnv)
    (h0 : s.initialized = false) (h1 : env.zmq_ctx_new ≠ 0) (h2 : env.zmq_socket ≠ 0)
    (hipc : cfg.endpoint.take 6 = "ipc://".toList) :
    ((cfg.endpoint.drop 6).length > 108 →
      (Context.Init s cfg env).code = Context.ErrorCode.PATH_TOO_LONG ∧
      bindCalls (Context.Init s cfg env).trace = 0 ∧
      connectCalls (Context.Init s cfg env).trace = 0) ∧
    ((cfg.endpoint.drop 6).length = 108 →
      (Context.Init s cfg env).code ≠ Context.ErrorCode.PATH_TOO_LONG ∧
      (¬ (cfg.mode = Mode.SERVER ∧ env.access = 0 ∧ env.remove ≠ 0) →
        Context.Init_attach cfg env ∈ (Context.Init s cfg env).trace ∧
        ((if cfg.mode = Mode.SERVER then env.zmq_bind else env.zmq_connect 0) = 0 →
          (Context.Init s cfg env).code = Context.ErrorCode.OK ∧
          (Context.Init s cfg env).impl.initialized = true))) ∧
    ((Context.Init s cfg env).code = Context.ErrorCode.OK →
      (cfg.endpoint.drop 6).length ≤ 108) := by
  refine ⟨?_, ?_, ?_⟩
  · intro hlen
    rw [Context.Init_path_too_long_ctx s cfg env h0 h1 h2 ⟨hipc, hlen⟩]
    refine ⟨rfl, ?_, ?_⟩
    · simp only [bindCalls, Context.Init_t3, List.countP_append]
      split_ifs <;> simp
    · simp only [connectCalls, Context.Init_t3, List.countP_append]
      split_ifs <;> simp
  · intro hlen
    have h3 : ¬ (cfg.endpoint.take 6 = "ipc://".toList ∧ (cfg.endpoint.drop 6).length > 108) := by
      rintro ⟨-, h⟩
      omega
    constructor
    · rw [Context.Init_code, if_neg (by simp [h0]), if_neg h1, if_neg h2, if_neg h3]
      split_ifs <;> decide
    · intro hex
      have h4 : ¬ (cfg.endpoint.take 6 = "ipc://".toList ∧ cfg.mode = Mode.SERVER ∧
          env.access = 0 ∧ env.remove ≠ 0) := fun h => hex h.2
      constructor
      · by_cases h5 : (if cfg.mode = Mode.SERVER then env.zmq_bind else env.zmq_connect 0) = 0
        · rw [Context.Init_ok s cfg env h0 h1 h2 h3 h4 h5]
          simp
        · rw [Context.Init_attach_failed s cfg env h0 h1 h2 h3 h4 h5]
          simp
      · intro h5
        rw [Context.Init_ok s cfg env h0 h1 h2 h3 h4 h5]
        exact ⟨rfl, rfl⟩
  · intro hok
    by_contra hlen
    have hlen' : (cfg.endpoint.drop 6).length > 108 := by omega
    rw [Context.Init_path_too_long_ctx s cfg env h0 h1 h2 ⟨hipc, hlen'⟩] at hok
    exact Context.ErrorCode.noConfusion hok

theorem C22_context_path_limit_witness :
    (path108_config.endpoint.drop 6).length = 108 ∧
    (Context.Init (Context.Impl.new Pattern.REQ_REP Mode.SERVER) path108_config initEnvOk).code
      = Context.ErrorCode.OK ∧
    (Context.Init (Context.Impl.new Pattern.REQ_REP Mode.SERVER) path108_config
      initEnvOk).impl.initialized = true ∧
    Event.zmq_bind 2 path108_config.endpoint ∈
      (Context.Init (Context.Impl.new Pattern.REQ_REP Mode.SERVER) path108_config
        initEnvOk).trace :=
  ⟨by decide,
    ((((C22_context_path_limit (Context.Impl.new Pattern.REQ_REP Mode.SERVER) path108_config
      initEnvOk rfl (by decide) (by decide) (by decide)).2.1 (by decide)).2
        (by decide)).2 (by decide)).1,
    ((((C22_context_path_limit (Context.Impl.new Pattern.REQ_REP Mode.SERVER) path108_config
      initEnvOk rfl (by decide) (by decide) (by decide)).2.1 (by decide)).2
        (by decide)).2 (by decide)).2,
    (((C22_context_path_limit (Context.Impl.new Pattern.REQ_REP Mode.SERVER) path108_config
      initEnvOk rfl (by decide) (by decide) (by decide)).2.1 (by decide)).2
        (by decide)).1⟩

/-- C23 (the claim as stated fails): `Context::Init` with
`recv_timeout_ms = -1` and `send_timeout_ms = -5` on a fresh Context returns
`OK`, not `INVALID_CONFIG`, and the Context is initialized. -/
theorem C23_negative_timeout_counterexample :
    (Context.Init (Context.Impl.new Pattern.REQ_REP Mode.SERVER)
      { test_cleanup_config with recv_timeout_ms := -1, send_timeout_ms := -5 }
      initEnvOk).code = Context.ErrorCode.OK ∧
    (Context.Init (Context.Impl.new Pattern.REQ_REP Mode.SERVER)
      { test_cleanup_config with recv_timeout_ms := -1, send_timeout_ms := -5 }
      initEnvOk).impl.initialized = true := by
  decide

/-- C23 (amended): `Context::Init` does not validate the timeouts. It never
returns `INVALID_CONFIG`, whatever the config and the answers of the outside;
its result code does not depend on `recv_timeout_ms` and `send_timeout_ms`;
and once the socket is created it hands both values, negative or not,
unchanged to the transport as `ZMQ_RCVTIMEO` and `ZMQ_SNDTIMEO`. -/
theorem C23_context_timeouts_unchecked (s : Context.Impl) (cfg : Context.Config)
    (env : InitEnv) :
    (Context.Init s cfg env).code ≠ Context.ErrorCode.INVALID_CONFIG ∧
    (∀ recv_timeout_ms send_timeout_ms : Int,
      (Context.Init s { cfg with recv_timeout_ms := recv_timeout_ms,
                                 send_timeout_ms := send_timeout_ms } env).code =
        (Context.Init s cfg env).code) ∧
    (s.initialized = false → env.zmq_ctx_new ≠ 0 → env.zmq_socket ≠ 0 →
      Event.zmq_setsockopt_int env.zmq_socket ZMQ_RCVTIMEO cfg.recv_timeout_ms ∈
        (Context.Init s cfg env).trace ∧
      Event.zmq_setsockopt_int env.zmq_socket ZMQ_SNDTIMEO cfg.send_timeout_ms ∈
        (Context.Init s cfg env).trace) := by
  refine ⟨?_, ?_, ?_⟩
  · rw [Context.Init_code]
    split_ifs <;> decide
  · intro r t
    rw [Context.Init_code, Context.Init_code]
  · intro h0 h1 h2
    refine Context.Init_cases_ctx (fun r =>
      Event.zmq_setsockopt_int env.zmq_socket ZMQ_RCVTIMEO cfg.recv_timeout_ms ∈ r.trace ∧
      Event.zmq_setsockopt_int env.zmq_socket ZMQ_SNDTIMEO cfg.send_timeout_ms ∈ r.trace)
      s cfg env ?_ ?_ ?_ ?_ ?_ ?_ ?_
    all_goals intros
    all_goals first
      | (simp_all; done)
      | simp [Context.Init_t3]

theorem C23_context_timeouts_unchecked_witness :
    Event.zmq_setsockopt_int 2 ZMQ_RCVTIMEO (-1) ∈
      (Context.Init (Context.Impl.new Pattern.REQ_REP Mode.SERVER)
        { test_cleanup_config with recv_timeout_ms := -1 } initEnvOk).trace :=
  ((C23_context_timeouts_unchecked (Context.Impl.new Pattern.REQ_REP Mode.SERVER)
    { test_cleanup_config with recv_timeout_ms := -1 } initEnvOk).2.2 rfl (by decide)
    (by decide)).1

/-- C24 (the code departs from the claim): `Context::ReceiveMessage` has no
size check. With `zmq_recv` returning the full length `n` of the message
while storing at most `1024 * 1024` bytes in the buffer, an initialized
Context that is not closed returns `OK` for every `n`, and the output string
has length `n`. For `n ≤ 1024 * 1024` the output equals the payload. For
`n > 1024 * 1024` the result is still `OK`: the output is the first
`1024 * 1024` bytes of the payload followed by the `n - 1024 * 1024` bytes
that lie behind the buffer in memory, which `assign(buf, rc)` reads. -/
theorem C24_context_receive_unbounded (s : Context.Impl) (hi : s.initialized = true)
    (hc : s.closed = false) (out_msg : StdString) (env : Context.RecvEnv)
    (hn : env.zmq_recv = env.payload.length) :
    (Context.ReceiveMessage s out_msg env).code = Context.ErrorCode.OK ∧
    (Context.ReceiveMessage s out_msg env).out_msg.length = env.payload.length ∧
    (env.payload.length ≤ 1024 * 1024 →
      (Context.ReceiveMessage s out_msg env).out_msg = env.payload) ∧
    (env.payload.length > 1024 * 1024 →
      (Context.ReceiveMessage s out_msg env).out_msg =
        env.payload.take (1024 * 1024) ++
          (List.range (env.payload.length - 1024 * 1024)).map env.beyond) := by
  have hrecv : 0 ≤ env.zmq_recv := by rw [hn]; exact Int.natCast_nonneg _
  have hnat : env.zmq_recv.toNat = env.payload.length := by rw [hn]; exact Int.toNat_natCast _
  rw [Context.ReceiveMessage_ok s out_msg env hi hc hrecv, hnat]
  have hB : Context.BUF_SIZE = 1024 * 1024 := rfl
  have hsmall : env.payload.length ≤ 1024 * 1024 →
      ((env.payload.take Context.BUF_SIZE ++
          List.replicate (Context.BUF_SIZE - env.payload.length) (Char.ofNat 0)) ++
        (List.range (env.payload.length - Context.BUF_SIZE)).map env.beyond).take
          env.payload.length = env.payload := by
    intro hlen
    rw [hB, List.take_of_length_le hlen, Nat.sub_eq_zero_of_le hlen]
    simp only [List.range_zero, List.map_nil, List.append_nil]
    rw [List.take_left]
  have hbig : env.payload.length > 1024 * 1024 →
      ((env.payload.take Context.BUF_SIZE ++
          List.replicate (Context.BUF_SIZE - env.payload.length) (Char.ofNat 0)) ++
        (List.range (env.payload.length - Context.BUF_SIZE)).map env.beyond).take
          env.payload.length =
        env.payload.take (1024 * 1024) ++
          (List.range (env.payload.length - 1024 * 1024)).map env.beyond := by
    intro hlen
    rw [hB, Nat.sub_eq_zero_of_le (Nat.le_of_lt hlen)]
    simp only [List.replicate_zero, List.append_nil]
    apply List.take_of_length_le
    rw [List.length_append, List.length_take, List.length_map, List.length_range,
      Nat.min_eq_left (Nat.le_of_lt hlen)]
    omega
  refine ⟨rfl, ?_, hsmall, hbig⟩
  show (((env.payload.take Context.BUF_SIZE ++
          List.replicate (Context.BUF_SIZE - env.payload.length) (Char.ofNat 0)) ++
        (List.range (env.payload.length - Context.BUF_SIZE)).map env.beyond).take
          env.payload.length).length = env.payload.length
  by_cases hlen : env.payload.length ≤ 1024 * 1024
  · rw [hsmall hlen]
  · have hlen' : env.payload.length > 1024 * 1024 := not_le.mp hlen
    rw [hbig hlen', List.length_append, List.length_take, List.length_map, List.length_range,
      Nat.min_eq_left (Nat.le_of_lt hlen')]
    omega

theorem C24_context_receive_unbounded_witness :
    recvEnvOversize.payload.length > 1024 * 1024 ∧
    (Context.ReceiveMessage readyContext [] recvEnvOversize).code = Context.ErrorCode.OK ∧
    (Context.ReceiveMessage readyContext [] recvEnvOversize).out_msg.length =
      recvEnvOversize.payload.length :=
  ⟨by
      show (List.replicate (1024 * 1024 + 1) 'A').length > 1024 * 1024
      rw [List.length_replicate]
      exact Nat.lt_succ_self _,
    (C24_context_receive_unbounded readyContext (by decide) (by decide) [] recvEnvOversize
      (by
        show ((1024 * 1024 + 1 : Nat) : Int) = ((List.replicate (1024 * 1024 + 1) 'A').length : Int)
        rw [List.length_replicate])).1,
    (C24_context_receive_unbounded readyContext (by decide) (by decide) [] recvEnvOversize
      (by
        show ((1024 * 1024 + 1 : Nat) : Int) = ((List.replicate (1024 * 1024 + 1) 'A').length : Int)
        rw [List.length_replicate])).2.1⟩

/-- C25: the two variants disagree on `PUSH_PULL` and, among the three
declared patterns, only there. For `PUSH_PULL`, `GetSocketType` gives
`ZMQ_PUSH` to the SERVER and `ZMQ_PULL` to the CLIENT, while the switch of
`Context::Init` gives `ZMQ_PULL` to the SERVER and `ZMQ_PUSH` to the CLIENT;
so for every mode the two kinds differ for `PUSH_PULL`, and for every mode
they are equal for `REQ_REP` and for `PUB_SUB`. -/
theorem C25_push_pull_disagreement :
    (GetSocketType Pattern.PUSH_PULL Mode.SERVER = ZMQ_PUSH ∧
      GetSocketType Pattern.PUSH_PULL Mode.CLIENT = ZMQ_PULL) ∧
    (∀ cfg : Context.Config, cfg.pattern = Pattern.PUSH_PULL →
      (cfg.mode = Mode.SERVER → Context.socket_type cfg = ZMQ_PULL) ∧
      (cfg.mode = Mode.CLIENT → Context.socket_type cfg = ZMQ_PUSH)) ∧
    ZMQ_PUSH ≠ ZMQ_PULL ∧
    (∀ cfg : Context.Config, cfg.pattern = Pattern.PUSH_PULL →
      GetSocketType cfg.pattern cfg.mode ≠ Context.socket_type cfg) ∧
    (∀ cfg : Context.Config,
      cfg.pattern = Pattern.REQ_REP ∨ cfg.pattern = Pattern.PUB_SUB →
      GetSocketType cfg.pattern cfg.mode = Context.socket_type cfg) ∧
    (∀ cfg : Context.Config,
      cfg.pattern = Pattern.REQ_REP ∨ cfg.pattern = Pattern.PUB_SUB ∨
        cfg.pattern = Pattern.PUSH_PULL →
      (GetSocketType cfg.pattern cfg.mode ≠ Context.socket_type cfg ↔
        cfg.pattern = Pattern.PUSH_PULL)) := by
  have hpp : ∀ cfg : Context.Config, cfg.pattern = Pattern.PUSH_PULL →
      GetSocketType cfg.pattern cfg.mode ≠ Context.socket_type cfg := by
    intro cfg hp
    by_cases hm : cfg.mode = Mode.SERVER <;>
      simp [GetSocketType, Context.socket_type, hp, hm, Pattern.PUSH_PULL, Pattern.REQ_REP,
        Pattern.PUB_SUB, ZMQ_PUSH, ZMQ_PULL]
  have hsame : ∀ cfg : Context.Config,
      cfg.pattern = Pattern.REQ_REP ∨ cfg.pattern = Pattern.PUB_SUB →
      GetSocketType cfg.pattern cfg.mode = Context.socket_type cfg := by
    intro cfg hp
    rcases hp with hp | hp <;>
      simp [GetSocketType, Context.socket_type, hp, Pattern.REQ_REP, Pattern.PUB_SUB]
  refine ⟨⟨by decide, by decide⟩, ?_, by decide, hpp, hsame, ?_⟩
  · intro cfg hp
    constructor <;> intro hm <;> simp only [Context.socket_type, hp, hm] <;> decide
  · intro cfg hp
    constructor
    · intro hne
      rcases hp with hp | hp | hp
      · exact absurd (hsame cfg (Or.inl hp)) hne
      · exact absurd (hsame cfg (Or.inr hp)) hne
      · exact hp
    · exact hpp cfg

theorem C25_push_pull_disagreement_witness :
    GetSocketType test_push_pull_puller.pattern test_push_pull_puller.mode ≠
      Context.socket_type test_push_pull_puller ∧
    Context.socket_type test_push_pull_puller = ZMQ_PULL ∧
    GetSocketType test_req_rep_client.pattern test_req_rep_client.mode =
      Context.socket_type test_req_rep_client :=
  ⟨C25_push_pull_disagreement.2.2.2.1 test_push_pull_puller rfl,
    (C25_push_pull_disagreement.2.1 test_push_pull_puller rfl).1 rfl,
    C25_push_pull_disagreement.2.2.2.2.1 test_req_rep_client (Or.inl rfl)⟩

/-- C27 (the claim as stated fails): an `Init` that fails does not always
leave both handles null. On the wrapper of `test_basic_init_cleanup` after its
`Init`, a wrapper a caller can hold, a second `Init` fails and both handles
are non-null after it. -/
theorem C27_failed_init_counterexample :
    Invariant readyServer ∧
    (readyServer.Init test_basic_config initEnvOk).code ≠ ErrorCode.SUCCESS ∧
    (readyServer.Init test_basic_config initEnvOk).impl.socket ≠ 0 ∧
    (readyServer.Init test_basic_config initEnvOk).impl.context ≠ 0 := by
  decide

/-- C27 (amended): in every state reachable from a fresh wrapper by `Init`,
`SendMessage`, `ReceiveMessage`, `Subscribe` and `Close` calls, under every
answer of the transport and of the filesystem, the socket handle is non-null
if and only if the wrapper is initialized, and so is the context handle. An
`Init` that fails on a wrapper that is not initialized leaves both handles
null; an `Init` that fails on an initialized wrapper (it returns
`ERROR_ALREADY_INITIALIZED`) leaves the wrapper as it was, initialized and
with both handles non-null. -/
theorem C27_lifecycle_invariant (s : ZMQWrapperImpl) (hr : Reachable s) :
    (s.socket ≠ 0 ↔ s.IsInitialized = true) ∧
    (s.context ≠ 0 ↔ s.IsInitialized = true) ∧
    (∀ (cfg : Config) (env : InitEnv), (s.Init cfg env).code ≠ ErrorCode.SUCCESS →
      (s.IsInitialized = false →
        (s.Init cfg env).impl.socket = 0 ∧ (s.Init cfg env).impl.context = 0 ∧
        (s.Init cfg env).impl.IsInitialized = false) ∧
      (s.IsInitialized = true →
        (s.Init cfg env).code = ErrorCode.ERROR_ALREADY_INITIALIZED ∧
        (s.Init cfg env).impl = s ∧
        (s.Init cfg env).impl.socket ≠ 0 ∧ (s.Init cfg env).impl.context ≠ 0)) := by
  have hinv := Reachable_invariant s hr
  have hiff : (s.socket ≠ 0 ↔ s.initialized = true) ∧ (s.context ≠ 0 ↔ s.initialized = true) := by
    cases hi : s.initialized
    · have := hinv.2 hi
      simp [this.1, this.2]
    · have := hinv.1 hi
      simp [this.1, this.2.1]
  refine ⟨hiff.1, hiff.2, ?_⟩
  intro cfg env hc
  constructor
  · intro hi
    have hi' : s.initialized = false := hi
    have hinv' := Init_invariant s cfg env hinv
    have hni : (s.Init cfg env).impl.initialized = false := by
      cases h : (s.Init cfg env).impl.initialized
      · rfl
      · exact absurd ((Init_initialized s cfg env hi').mp h) hc
    exact ⟨(hinv'.2 hni).1, (hinv'.2 hni).2, hni⟩
  · intro hi
    have hi' : s.initialized = true := hi
    rw [Init_already s cfg env hi']
    exact ⟨rfl, rfl, (hinv.1 hi').1, (hinv.1 hi').2.1⟩

theorem C27_lifecycle_invariant_witness :
    (readyServer.socket ≠ 0 ↔ readyServer.IsInitialized = true) ∧
    (ZMQWrapperImpl.new.Init test_basic_config initEnvDenied).impl.socket = 0 ∧
    (ZMQWrapperImpl.new.Init test_basic_config initEnvDenied).impl.context = 0 :=
  ⟨(C27_lifecycle_invariant readyServer readyServer_reachable).1,
    (((C27_lifecycle_invariant ZMQWrapperImpl.new Reachable.new).2.2 test_basic_config
      initEnvDenied (by decide)).1 rfl).1,
    (((C27_lifecycle_invariant ZMQWrapperImpl.new Reachable.new).2.2 test_basic_config
      initEnvDenied (by decide)).1 rfl).2.1⟩

/-- C28: transfer errors are recoverable. For every argument and every answer
of the transport, `SendMessage`, `ReceiveMessage` and `Subscribe` leave the
whole object as it was: the initialized flag, the socket and context handles,
the stored config and the resolved endpoint. So `IsInitialized` answers after
the call what it answered before, whatever the call returned. -/
theorem C28_transfer_keeps_state (s : ZMQWrapperImpl) :
    (∀ (message : StdString) (env : SendEnv),
      (s.SendMessage message env).impl = s ∧
      (s.SendMessage message env).impl.IsInitialized = s.IsInitialized) ∧
    (∀ (message : StdString) (env : RecvEnv),
      (s.ReceiveMessage message env).impl = s ∧
      (s.ReceiveMessage message env).impl.IsInitialized = s.IsInitialized) ∧
    (∀ (topic : StdString) (env : SubscribeEnv),
      (s.Subscribe topic env).impl = s ∧
      (s.Subscribe topic env).impl.IsInitialized = s.IsInitialized) := by
  refine ⟨fun message env => ?_, fun message env => ?_, fun topic env => ?_⟩
  · rw [SendMessage_impl]; exact ⟨rfl, rfl⟩
  · rw [ReceiveMessage_impl]; exact ⟨rfl, rfl⟩
  · rw [Subscribe_impl]; exact ⟨rfl, rfl⟩

/-- C29 (the code departs from the claim): after an `Init` that got its
context and returns a code other than `OK`, the `Context` is not initialized
and yet still holds the handles: `zmq_ctx` is the non-null context handle and
`zmq_sock` is the socket handle the transport gave. When the socket was
created, `PATH_TOO_LONG` and `SOCKET_EXISTS` return without a single
`zmq_close` or `zmq_ctx_term` call, so nothing has been released; the
`INIT_FAILED` of a failed bind or connect has called `zmq_close` and
`zmq_ctx_term` once each and leaves the two pointers as they were, non-null,
to handles already released. When the socket could not be created the
context has been terminated once and its pointer is left non-null as well. -/
theorem C29_context_handles_after_failed_init (s : Context.Impl) (cfg : Context.Config)
    (env : InitEnv) (h0 : s.initialized = false) (h1 : env.zmq_ctx_new ≠ 0)
    (hfail : (Context.Init s cfg env).code ≠ Context.ErrorCode.OK) :
    (Context.Init s cfg env).impl.initialized = false ∧
    (Context.Init s cfg env).impl.zmq_ctx = env.zmq_ctx_new ∧
    (Context.Init s cfg env).impl.zmq_ctx ≠ 0 ∧
    (Context.Init s cfg env).impl.zmq_sock = env.zmq_socket ∧
    (env.zmq_socket = 0 →
      termCalls env.zmq_ctx_new (Context.Init s cfg env).trace = 1) ∧
    (env.zmq_socket ≠ 0 →
      (Context.Init s cfg env).impl.zmq_sock ≠ 0 ∧
      ((Context.Init s cfg env).code = Context.ErrorCode.PATH_TOO_LONG ∨
        (Context.Init s cfg env).code = Context.ErrorCode.SOCKET_EXISTS →
        closeCalls env.zmq_socket (Context.Init s cfg env).trace = 0 ∧
        termCalls env.zmq_ctx_new (Context.Init s cfg env).trace = 0) ∧
      ((Context.Init s cfg env).code = Context.ErrorCode.INIT_FAILED →
        closeCalls env.zmq_socket (Context.Init s cfg env).trace = 1 ∧
        termCalls env.zmq_ctx_new (Context.Init s cfg env).trace = 1)) := by
  by_cases h2 : env.zmq_socket = 0
  · have hr := Context.Init_socket_failed_release s cfg env h0 h1 h2 0
    rw [Context.Init_socket_failed_ctx s cfg env h0 h1 h2] at hr ⊢
    exact ⟨h0, rfl, h1, rfl, fun _ => hr.2, fun h => absurd h2 h⟩
  by_cases h3 : cfg.endpoint.take 6 = "ipc://".toList ∧ (cfg.endpoint.drop 6).length > 108
  · have hr := Context.Init_path_too_long_release s cfg env h0 h1 h2 h3
    rw [Context.Init_path_too_long_ctx s cfg env h0 h1 h2 h3] at hr ⊢
    exact ⟨h0, rfl, h1, rfl, fun h => absurd h h2,
      fun _ => ⟨h2, fun _ => ⟨(hr _).1, (hr _).2⟩, fun h => Context.ErrorCode.noConfusion h⟩⟩
  by_cases h4 : cfg.endpoint.take 6 = "ipc://".toList ∧ cfg.mode = Mode.SERVER ∧
      env.access = 0 ∧ env.remove ≠ 0
  · have hr := Context.Init_socket_exists_release s cfg env h0 h1 h2 h3 h4
    rw [Context.Init_socket_exists s cfg env h0 h1 h2 h3 h4] at hr ⊢
    exact ⟨h0, rfl, h1, rfl, fun h => absurd h h2,
      fun _ => ⟨h2, fun _ => ⟨(hr _).1, (hr _).2⟩, fun h => Context.ErrorCode.noConfusion h⟩⟩
  by_cases h5 : (if cfg.mode = Mode.SERVER then env.zmq_bind else env.zmq_connect 0) = 0
  · rw [Context.Init_ok s cfg env h0 h1 h2 h3 h4 h5] at hfail
    exact absurd rfl hfail
  · have hr := Context.Init_attach_failed_release s cfg env h0 h1 h2 h3 h4 h5
    rw [Context.Init_attach_failed s cfg env h0 h1 h2 h3 h4 h5] at hr ⊢
    refine ⟨h0, rfl, h1, rfl, fun h => absurd h h2, fun _ => ⟨h2, ?_, fun _ => hr⟩⟩
    rintro (h | h) <;> exact Context.ErrorCode.noConfusion h

theorem C29_context_handles_after_failed_init_witness :
    (Context.Init (Context.Impl.new Pattern.REQ_REP Mode.SERVER) test_cleanup_config
      initEnvStale).code = Context.ErrorCode.SOCKET_EXISTS ∧
    (Context.Init (Context.Impl.new Pattern.REQ_REP Mode.SERVER) test_cleanup_config
      initEnvStale).impl.initialized = false ∧
    (Context.Init (Context.Impl.new Pattern.REQ_REP Mode.SERVER) test_cleanup_config
      initEnvStale).impl.zmq_sock ≠ 0 ∧
    (Context.Init (Context.Impl.new Pattern.REQ_REP Mode.SERVER) test_cleanup_config
      initEnvStale).impl.zmq_ctx ≠ 0 ∧
    closeCalls 2 (Context.Init (Context.Impl.new Pattern.REQ_REP Mode.SERVER)
      test_cleanup_config initEnvStale).trace = 0 :=
  ⟨by decide,
    (C29_context_handles_after_failed_init (Context.Impl.new Pattern.REQ_REP Mode.SERVER)
      test_cleanup_config initEnvStale rfl (by decide) (by decide)).1,
    ((C29_context_handles_after_failed_init (Context.Impl.new Pattern.REQ_REP Mode.SERVER)
      test_cleanup_config initEnvStale rfl (by decide) (by decide)).2.2.2.2.2 (by decide)).1,
    (C29_context_handles_after_failed_init (Context.Impl.new Pattern.REQ_REP Mode.SERVER)
      test_cleanup_config initEnvStale rfl (by decide) (by decide)).2.2.1,
    (((C29_context_handles_after_failed_init (Context.Impl.new Pattern.REQ_REP Mode.SERVER)
      test_cleanup_config initEnvStale rfl (by decide) (by decide)).2.2.2.2.2
        (by decide)).2.1 (Or.inr (by decide))).1⟩

/-- C30 (the code departs from the claim): a handle is released twice. Take
the whole life of a `Context` in which the only `Init` gets its context and
returns `INIT_FAILED`, because the socket could not be created or because
bind or connect failed, and which ends with the destructor, with or without
a `Close` call before it. `zmq_ctx_new` is called once and `zmq_ctx_term` is
called twice on the handle it gave; when the socket was created, `zmq_socket`
is called once and `zmq_close` is called twice on the handle it gave. `Init`
makes the first release and leaves the pointers set; the `Close` of the
destructor (or the `Close` call) makes the second. When `Init` returns `OK`
each handle is released exactly once in the same lives. -/
theorem C30_context_double_release (pattern : Pattern) (mode : Mode) (cfg : Context.Config)
    (env : InitEnv) (h1 : env.zmq_ctx_new ≠ 0) :
    ((Context.Init (Context.Impl.new pattern mode) cfg env).code =
        Context.ErrorCode.INIT_FAILED →
      termCalls env.zmq_ctx_new (Context.lifetime pattern mode [Context.Call.Init cfg env]) = 2 ∧
      termCalls env.zmq_ctx_new
        (Context.lifetime pattern mode [Context.Call.Init cfg env, Context.Call.Close]) = 2 ∧
      (env.zmq_socket ≠ 0 →
        closeCalls env.zmq_socket
          (Context.lifetime pattern mode [Context.Call.Init cfg env]) = 2 ∧
        closeCalls env.zmq_socket
          (Context.lifetime pattern mode [Context.Call.Init cfg env, Context.Call.Close]) = 2)) ∧
    ((Context.Init (Context.Impl.new pattern mode) cfg env).code = Context.ErrorCode.OK →
      termCalls env.zmq_ctx_new (Context.lifetime pattern mode [Context.Call.Init cfg env]) = 1 ∧
      termCalls env.zmq_ctx_new
        (Context.lifetime pattern mode [Context.Call.Init cfg env, Context.Call.Close]) = 1 ∧
      closeCalls env.zmq_socket (Context.lifetime pattern mode [Context.Call.Init cfg env]) = 1 ∧
      closeCalls env.zmq_socket
        (Context.lifetime pattern mode [Context.Call.Init cfg env, Context.Call.Close]) = 1) ∧
    ctxNewCalls (Context.lifetime pattern mode [Context.Call.Init cfg env]) = 1 ∧
    socketCalls (Context.lifetime pattern mode [Context.Call.Init cfg env]) = 1 := by
  have hcl := Context.Close_after_Init_release (Context.Impl.new pattern mode) cfg env rfl rfl h1
  refine ⟨?_, ?_, ?_, ?_⟩
  · intro hfail
    have hin := Context.Init_failed_release (Context.Impl.new pattern mode) cfg env rfl h1 hfail
    rw [Context.lifetime_Init, Context.lifetime_Init_Close]
    simp only [Context.termCalls_append, Context.closeCalls_append, hin.1, hcl.1, and_self,
      true_and]
    intro h2
    rw [hin.2 h2, hcl.2 h2]
  · intro hok
    have hin := Context.Init_succeeded_release (Context.Impl.new pattern mode) cfg env rfl hok
    have h2 := (Context.Init_ok_inv (Context.Impl.new pattern mode) cfg env rfl hok).2.1
    rw [Context.lifetime_Init, Context.lifetime_Init_Close]
    simp only [Context.termCalls_append, Context.closeCalls_append, (hin _).1, (hin _).2, hcl.1,
      hcl.2 h2, and_self]
  · rw [Context.lifetime_Init, Context.ctxNewCalls_append,
      (Context.Init_created (Context.Impl.new pattern mode) cfg env rfl h1).1,
      (Context.Close_created _).1]
  · rw [Context.lifetime_Init, Context.socketCalls_append,
      (Context.Init_created (Context.Impl.new pattern mode) cfg env rfl h1).2,
      (Context.Close_created _).2]

theorem C30_context_double_release_witness :
    (Context.Init (Context.Impl.new Pattern.REQ_REP Mode.SERVER) test_cleanup_config
      initEnvDenied).code = Context.ErrorCode.INIT_FAILED ∧
    closeCalls 2 (Context.lifetime Pattern.REQ_REP Mode.SERVER
      [Context.Call.Init test_cleanup_config initEnvDenied]) = 2 ∧
    termCalls 1 (Context.lifetime Pattern.REQ_REP Mode.SERVER
      [Context.Call.Init test_cleanup_config initEnvDenied]) = 2 ∧
    socketCalls (Context.lifetime Pattern.REQ_REP Mode.SERVER
      [Context.Call.Init test_cleanup_config initEnvDenied]) = 1 :=
  ⟨by decide,
    (((C30_context_double_release Pattern.REQ_REP Mode.SERVER test_cleanup_config initEnvDenied
      (by decide)).1 (by decide)).2.2 (by decide)).1,
    ((C30_context_double_release Pattern.REQ_REP Mode.SERVER test_cleanup_config initEnvDenied
      (by decide)).1 (by decide)).1,
    (C30_context_double_release Pattern.REQ_REP Mode.SERVER test_cleanup_config initEnvDenied
      (by decide)).2.2.2⟩

end prj1
